import Mathlib

/-!
# H.264 encoder control pipeline (`mpp/codec/enc/h264/h264e_api_v2.c`)

A shallow embedding of the encoder control-plane entry points
(`h264e_init`, `h264e_proc_cfg`, `h264e_gen_hdr`, `h264e_start`,
`h264e_proc_dpb`, `h264e_proc_rc`, `h264e_proc_hal`, ...) followed by the
properties proved about them.

Conventions of the embedding.

* `RK_S32` members are `Int`, `RK_U32` members and enumeration-typed members
  are `Nat`.  The only arithmetic the file performs on them is the
  increment/decrement of the `RK_U32` IDR counter, which is taken modulo
  `2 ^ 32`, and the bitwise OR of change masks, which cannot overflow.
* C arrays of fixed size `n` are functions on `Fin n`.
* Records whose members this file never reads (`SynH264eSps`, `RcHalCfg`, ...)
  are kept as their raw words (`Raw`).
* The collaborators declared in headers that are not among the sources
  (rate control, DPB, slice, SPS/PPS writers, packets) are the fields of
  `Collab`; every definition that calls one takes `C : Collab`.
-/

namespace H264eApiV2

/-! ## Constants declared in headers -/

/-- Modelled from the spec: `mpp_common.h` is not among the sources; `SZ_1K` is
the size unit `1024`, the "1K" of the range message `out of range 1K~100M`. -/
def SZ_1K : Int := 1024

/-- Modelled from the spec: `mpp_common.h` defines `SZ_1M` as `SZ_1K * SZ_1K`. -/
def SZ_1M : Int := SZ_1K * SZ_1K

/-- Modelled from the spec: `MppEncRcMode` of `rk_venc_cmd.h`, whose recognized
values are the two the error message names (`RC_MODE_VBR or RC_MODE_CBR`),
closed by `MPP_ENC_RC_MODE_BUTT`. -/
def MPP_ENC_RC_MODE_VBR : Nat := 0

/-- Modelled from the spec: second enumerator of `MppEncRcMode`. -/
def MPP_ENC_RC_MODE_CBR : Nat := 1

/-- Modelled from the spec: end marker of `MppEncRcMode`. -/
def MPP_ENC_RC_MODE_BUTT : Nat := 2

/-- Modelled from the spec: `MppEncRcQuality` of `rk_venc_cmd.h`, from
`QUALITY_WORST` to `QUALITY_BEST`, then the constant-quantizer tier, the
AQ-only tier and the end marker. -/
def MPP_ENC_RC_QUALITY_WORST : Nat := 0

/-- Modelled from the spec: enumerator of `MppEncRcQuality`. -/
def MPP_ENC_RC_QUALITY_WORSE : Nat := 1

/-- Modelled from the spec: enumerator of `MppEncRcQuality`. -/
def MPP_ENC_RC_QUALITY_MEDIUM : Nat := 2

/-- Modelled from the spec: enumerator of `MppEncRcQuality`. -/
def MPP_ENC_RC_QUALITY_BETTER : Nat := 3

/-- Modelled from the spec: enumerator of `MppEncRcQuality`. -/
def MPP_ENC_RC_QUALITY_BEST : Nat := 4

/-- Modelled from the spec: the constant-quantizer tier of `MppEncRcQuality`. -/
def MPP_ENC_RC_QUALITY_CQP : Nat := 5

/-- Modelled from the spec: enumerator of `MppEncRcQuality`. -/
def MPP_ENC_RC_QUALITY_AQ_ONLY : Nat := 6

/-- Modelled from the spec: end marker of `MppEncRcQuality`. -/
def MPP_ENC_RC_QUALITY_BUTT : Nat := 7

/-- Modelled from the spec: `MppEncRotationCfg` of `rk_venc_cmd.h`
(0, 90, 180, 270 degrees in this order). -/
def MPP_ENC_ROT_0 : Nat := 0

/-- Modelled from the spec: rotation by 90 degrees. -/
def MPP_ENC_ROT_90 : Nat := 1

/-- Modelled from the spec: rotation by 180 degrees. -/
def MPP_ENC_ROT_180 : Nat := 2

/-- Modelled from the spec: rotation by 270 degrees. -/
def MPP_ENC_ROT_270 : Nat := 3

/-- Modelled from the spec: `MPP_FMT_YUV420SP` of `mpp_frame.h`, the first
YUV format (YUV 4:2:0 semi-planar). -/
def MPP_FMT_YUV420SP : Nat := 0

/-- Modelled from the spec: `profile_idc` of the baseline profile. -/
def H264_PROFILE_BASELINE : Int := 66

/-- Modelled from the spec: `level_idc` of level 3.1. -/
def H264_LEVEL_3_1 : Int := 31

/-- Modelled from the spec: `MAX_TEMPORAL_LAYER`, the number of layer weights
(`set_rc_cfg` writes `layer_bit_prop[0..3]`). -/
def MAX_TEMPORAL_LAYER : Nat := 4

/-- Modelled from the spec: size of the frame arrays of `H264eDpb` and of the
occupancy vector `H264eFrmInfo.usage` (`H264E_MAX_REFS_CNT + 1`). -/
def H264E_USAGE_CNT : Nat := 9

/-! ### Change-mask bits (`rk_venc_cmd.h`) -/

/-- Modelled from the spec: picture-prep change bit for the input geometry. -/
def MPP_ENC_PREP_CFG_CHANGE_INPUT : Nat := 1 <<< 0

/-- Modelled from the spec: picture-prep change bit for the format. -/
def MPP_ENC_PREP_CFG_CHANGE_FORMAT : Nat := 1 <<< 2

/-- Modelled from the spec: picture-prep change bit for the rotation. -/
def MPP_ENC_PREP_CFG_CHANGE_ROTATION : Nat := 1 <<< 4

/-- Modelled from the spec: picture-prep change bit for mirroring. -/
def MPP_ENC_PREP_CFG_CHANGE_MIRRORING : Nat := 1 <<< 5

/-- Modelled from the spec: picture-prep change bit for denoise. -/
def MPP_ENC_PREP_CFG_CHANGE_DENOISE : Nat := 1 <<< 8

/-- Modelled from the spec: picture-prep change bit for sharpen. -/
def MPP_ENC_PREP_CFG_CHANGE_SHARPEN : Nat := 1 <<< 9

/-- Modelled from the spec: rate-control change bit for the mode. -/
def MPP_ENC_RC_CFG_CHANGE_RC_MODE : Nat := 1 <<< 0

/-- Modelled from the spec: rate-control change bit for the quality tier. -/
def MPP_ENC_RC_CFG_CHANGE_QUALITY : Nat := 1 <<< 1

/-- Modelled from the spec: rate-control change bit for target/max/min bitrate. -/
def MPP_ENC_RC_CFG_CHANGE_BPS : Nat := 1 <<< 2

/-- Modelled from the spec: rate-control change bit for the input frame rate. -/
def MPP_ENC_RC_CFG_CHANGE_FPS_IN : Nat := 1 <<< 5

/-- Modelled from the spec: rate-control change bit for the output frame rate. -/
def MPP_ENC_RC_CFG_CHANGE_FPS_OUT : Nat := 1 <<< 6

/-- Modelled from the spec: rate-control change bit for the group length. -/
def MPP_ENC_RC_CFG_CHANGE_GOP : Nat := 1 <<< 7

/-- Modelled from the spec: rate-control change bit for the skip count. -/
def MPP_ENC_RC_CFG_CHANGE_SKIP_CNT : Nat := 1 <<< 8

/-- Modelled from the spec: codec change bit for the stream type. -/
def MPP_ENC_H264_CFG_STREAM_TYPE : Nat := 1 <<< 0

/-- Modelled from the spec: codec change bit for profile and level. -/
def MPP_ENC_H264_CFG_CHANGE_PROFILE : Nat := 1 <<< 1

/-- Modelled from the spec: codec change bit for the entropy coding. -/
def MPP_ENC_H264_CFG_CHANGE_ENTROPY : Nat := 1 <<< 2

/-- Modelled from the spec: codec change bit for the 8x8 transform. -/
def MPP_ENC_H264_CFG_CHANGE_TRANS_8x8 : Nat := 1 <<< 4

/-- Modelled from the spec: codec change bit for constrained intra prediction. -/
def MPP_ENC_H264_CFG_CHANGE_CONST_INTRA : Nat := 1 <<< 5

/-- Modelled from the spec: codec change bit for the chroma QP offsets. -/
def MPP_ENC_H264_CFG_CHANGE_CHROMA_QP : Nat := 1 <<< 6

/-- Modelled from the spec: codec change bit for deblocking. -/
def MPP_ENC_H264_CFG_CHANGE_DEBLOCKING : Nat := 1 <<< 7

/-- Modelled from the spec: codec change bit for long-term references. -/
def MPP_ENC_H264_CFG_CHANGE_LONG_TERM : Nat := 1 <<< 8

/-- Modelled from the spec: codec change bit for the QP limits. -/
def MPP_ENC_H264_CFG_CHANGE_QP_LIMIT : Nat := 1 <<< 16

/-- Modelled from the spec: codec change bit for intra refresh. -/
def MPP_ENC_H264_CFG_CHANGE_INTRA_REFRESH : Nat := 1 <<< 17

/-- Modelled from the spec: codec change bit for the slice mode. -/
def MPP_ENC_H264_CFG_CHANGE_SLICE_MODE : Nat := 1 <<< 18

/-- Modelled from the spec: codec change bit for VUI. -/
def MPP_ENC_H264_CFG_CHANGE_VUI : Nat := 1 <<< 28

/-- Modelled from the spec: codec change bit for SEI. -/
def MPP_ENC_H264_CFG_CHANGE_SEI : Nat := 1 <<< 29

/-! ## Data model -/

/-- Return codes of `MPP_RET` that the file produces.  `if (ret)` in the source
tests `ret ≠ MPP_OK`. -/
inductive MPP_RET where
  | MPP_OK
  | MPP_NOK
  | MPP_ERR_VALUE
  deriving DecidableEq, Repr

/-- Raw words of a record this file only passes around. -/
abbrev Raw := List Int

/-- Picture-prep configuration `MppEncPrepCfg` (members the file touches). -/
structure MppEncPrepCfg where
  change : Nat
  width : Int
  height : Int
  hor_stride : Int
  ver_stride : Int
  format : Nat
  rotation : Nat
  mirroring : Int
  denoise : Int
  sharpen : Raw
  deriving DecidableEq, Repr

/-- Rate-control configuration `MppEncRcCfg` (members the file touches). -/
structure MppEncRcCfg where
  change : Nat
  rc_mode : Nat
  quality : Nat
  bps_target : Int
  bps_max : Int
  bps_min : Int
  fps_in_flex : Int
  fps_in_num : Int
  fps_in_denorm : Int
  fps_out_flex : Int
  fps_out_num : Int
  fps_out_denorm : Int
  gop : Int
  skip_cnt : Int
  deriving DecidableEq, Repr

/-- Codec feature set `MppEncH264Cfg` (members the file touches). -/
structure MppEncH264Cfg where
  change : Nat
  stream_type : Int
  profile : Int
  level : Int
  entropy_coding_mode : Int
  cabac_init_idc : Int
  transform8x8_mode : Int
  constrained_intra_pred_mode : Int
  chroma_cb_qp_offset : Int
  chroma_cr_qp_offset : Int
  deblock_disable : Int
  deblock_offset_alpha : Int
  deblock_offset_beta : Int
  use_longterm : Int
  qp_init : Int
  qp_max : Int
  qp_min : Int
  qp_max_step : Int
  intra_refresh_mode : Int
  intra_refresh_arg : Int
  slice_mode : Int
  slice_arg : Int
  vui : Raw
  sei : Raw

/-- Reference-topology configuration `MppEncGopRef` (members the file reads). -/
structure MppEncGopRef where
  change : Nat
  gop_cfg_enable : Int
  layer_rc_enable : Int
  ref_gop_len : Int
  layer_weight : Fin MAX_TEMPORAL_LAYER → Int

/-- Configuration set `MppEncCfgSet`; `codec` is the `h264` member of the codec
union. -/
structure MppEncCfgSet where
  prep : MppEncPrepCfg
  rc : MppEncRcCfg
  codec : MppEncH264Cfg
  gop_ref : MppEncGopRef

/-! ### Commands -/

/-- Command of `h264e_proc_cfg` together with the record `param` points to.
`other code` is any command code that matches none of the six `case` labels. -/
inductive MpiCmd where
  | MPP_ENC_SET_ALL_CFG
  | MPP_ENC_SET_PREP_CFG (src : MppEncPrepCfg)
  | MPP_ENC_SET_RC_CFG (src : MppEncRcCfg)
  | MPP_ENC_SET_CODEC_CFG (src : MppEncH264Cfg)
  | MPP_ENC_SET_SEI_CFG
  | MPP_ENC_SET_IDR_FRAME
  | other (code : Nat)

/-! ### Syntax records, DPB, rate control -/

/-- Sequence parameter set `SynH264eSps`. -/
abbrev SynH264eSps := Raw

/-- Picture parameter set `SynH264ePps`. -/
abbrev SynH264ePps := Raw

/-- Reorder record `H264eReorderInfo`. -/
abbrev H264eReorderInfo := Raw

/-- Marking record `H264eMarkingInfo`. -/
abbrev H264eMarkingInfo := Raw

/-- Rate-control result record `RcHalCfg`. -/
abbrev RcHalCfg := Raw

/-- Rate-control syntax record `RcSyntax`. -/
abbrev RcSyntax := Raw

/-- State behind a non-null `RcCtx` handle. -/
abbrev RcImpl := Raw

/-- Frame status word `EncFrmStatus`. -/
abbrev EncFrmStatus := Nat

/-- Picture of the DPB, `H264eDpbFrm` (members the file reads). -/
structure H264eDpbFrm where
  seq_idx : Int
  slot_idx : Int
  status : EncFrmStatus
  on_used : Int
  deriving DecidableEq, Repr

/-- DPB state `H264eDpb`.  `curr` is dereferenced unconditionally by the source
and is the picture it points to; `refr` is tested against `NULL`; `rest` holds
the members the file never reads. -/
structure H264eDpb where
  curr : H264eDpbFrm
  refr : Option H264eDpbFrm
  frames : Fin H264E_USAGE_CNT → H264eDpbFrm
  rest : Raw

/-- Frame configuration `H264eDpbFrmCfg` handed to `h264e_dpb_set_curr`. -/
structure H264eDpbFrmCfg where
  force_idr : Int
  force_pskip : Int
  force_lt_idx : Int
  force_ref_lt_idx : Int
  deriving DecidableEq, Repr

/-- Slice syntax `H264eSlice`: the IDR flag the file reads and the rest. -/
structure H264eSlice where
  idr_flag : Int
  rest : Raw
  deriving DecidableEq, Repr

/-- Frame usage record `H264eFrmInfo`. -/
structure H264eFrmInfo where
  seq_idx : Int
  curr_idx : Int
  refr_idx : Int
  status : EncFrmStatus
  usage : Fin H264E_USAGE_CNT → Int
  rc_cfg : RcHalCfg

/-- Rate-control modes of `rc.h`. -/
inductive RcMode where
  | RC_CBR
  | RC_VBR
  | RC_AVBR
  deriving DecidableEq, Repr

/-- Frame-rate part `RcFpsCfg` of the policy. -/
structure RcFpsCfg where
  fps_in_flex : Int
  fps_in_num : Int
  fps_in_denorm : Int
  fps_out_flex : Int
  fps_out_num : Int
  fps_out_denorm : Int
  deriving DecidableEq, Repr

/-- Policy `RcCfg` handed to the rate-control collaborator (members written by
`set_rc_cfg`; `rest` holds the members it leaves as they were). -/
structure RcCfg where
  mode : RcMode
  fps : RcFpsCfg
  igop : Int
  vgop : Int
  bps_target : Int
  bps_max : Int
  bps_min : Int
  stat_times : Int
  layer_bit_prop : Fin MAX_TEMPORAL_LAYER → Int
  max_reencode_times : Int
  rest : Raw

/-! ### Syntax descriptors -/

/-- Descriptor kinds `H264eSyntaxType`, in declaration order. -/
inductive H264eSyntaxType where
  | H264E_SYN_CFG
  | H264E_SYN_SPS
  | H264E_SYN_PPS
  | H264E_SYN_SLICE
  | H264E_SYN_FRAME
  | H264E_SYN_RC
  deriving DecidableEq, Repr

/-- Modelled from the spec: `H264E_SYN_BUTT`, the end marker of
`H264eSyntaxType` and the size of the bounded descriptor array. -/
def H264E_SYN_BUTT : Nat := 6

/-- Target of the pointer `p` of a descriptor: a member of the context. -/
inductive SynRef where
  | null
  | cfg
  | sps
  | pps
  | slice
  | frms
  | rc_syn
  deriving DecidableEq, Repr

/-- Descriptor `H264eSyntaxDesc`: a kind and a reference. -/
structure H264eSyntaxDesc where
  type : H264eSyntaxType
  p : SynRef
  deriving DecidableEq, Repr

/-! ### Packets, frames, tasks -/

/-- Packet `MppPacket`: its data buffer and its length. -/
structure MppPacketImpl where
  data : List Nat
  length : Nat
  deriving DecidableEq, Repr

/-- Per-frame side metadata `MppMeta`: the value stored under
`KEY_LONG_REF_IDX`, when there is one. -/
structure MppMeta where
  long_ref_idx : Option Int
  deriving DecidableEq, Repr

/-- Input picture `MppFrame` (its metadata). -/
structure MppFrame where
  meta : MppMeta
  deriving DecidableEq, Repr

/-- The `syntax` member of the task (`MppSyntax`): `number` descriptors at
`data`.  The pointer `data` is modelled by the array it points to. -/
structure MppSyntax where
  number : Nat
  data : Option (Fin H264E_SYN_BUTT → H264eSyntaxDesc)

/-- Frame task `HalEncTask` (members the file touches). -/
structure HalEncTask where
  valid : Nat
  is_intra : Int
  syn : MppSyntax
  frame : MppFrame
  hal_ret : RcHalCfg

/-- Initial control record `EncImplCfg`. -/
structure EncImplCfg where
  dev_id : Nat
  cfg : MppEncCfgSet

/-- Encoder context `H264eCtx`.  `cfg` is the configuration set the pointer
`cfg` refers to; `hdr_pkt` wraps the header buffer `hdr_buf`, which is its
`data`; `rc_ctx` is `none` for a null handle; `syn_tab` is the array `syntax`. -/
structure H264eCtx where
  dev_id : Nat
  cfg : MppEncCfgSet
  idr_request : Nat
  sps : SynH264eSps
  pps : SynH264ePps
  dpb : H264eDpb
  dpb_bak : H264eDpb
  slice : H264eSlice
  reorder : H264eReorderInfo
  marking : H264eMarkingInfo
  frms : H264eFrmInfo
  rc_syn : RcSyntax
  hdr_pkt : Option MppPacketImpl
  hdr_size : Nat
  hdr_len : Nat
  rc_ctx : Option RcImpl
  syn_num : Int
  syn_tab : Fin H264E_SYN_BUTT → H264eSyntaxDesc
  hal_rc_cfg : RcHalCfg

/-- Collaborators the file calls.  Each call is a function from the objects it
is handed to the new values of the objects it updates. -/
structure Collab where
  /-- Buffer returned by `mpp_malloc_size` for the given size. -/
  mpp_malloc_size : Nat → List Nat
  /-- `mpp_packet_init(&pkt, data, size)`: the packet wrapping the buffer. -/
  mpp_packet_init : List Nat → Nat → Option MppPacketImpl
  mpp_packet_reset : Option MppPacketImpl → Option MppPacketImpl
  /-- Indeterminate contents of the local `RcCfg rc_cfg` of `h264e_start`
  before `set_rc_cfg` fills it. -/
  rc_cfg_local : RcCfg
  h264e_reorder_init : H264eReorderInfo → H264eReorderInfo
  h264e_marking_init : H264eMarkingInfo → H264eMarkingInfo
  /-- `h264e_dpb_init(&dpb, &reorder, &marking)`. -/
  h264e_dpb_init : H264eDpb → H264eReorderInfo → H264eMarkingInfo → H264eDpb
  /-- `h264e_slice_init(&slice, &reorder, &marking)`. -/
  h264e_slice_init : H264eSlice → H264eReorderInfo → H264eMarkingInfo → H264eSlice
  h264e_sps_update : SynH264eSps → MppEncCfgSet → Nat → SynH264eSps
  h264e_pps_update : SynH264ePps → MppEncCfgSet → SynH264ePps
  h264e_dpb_set_cfg : H264eDpb → MppEncCfgSet → SynH264eSps → H264eDpb
  h264e_sps_to_packet : SynH264eSps → Option MppPacketImpl → Option MppPacketImpl
  h264e_pps_to_packet : SynH264ePps → Option MppPacketImpl → Option MppPacketImpl
  /-- `rc_init` yields a fresh collaborator. -/
  rc_init : RcImpl
  rc_update_usr_cfg : RcImpl → RcCfg → RcImpl
  /-- `rc_frm_check_drop(ctx)`: the answer and the collaborator afterwards. -/
  rc_frm_check_drop : Option RcImpl → Int × Option RcImpl
  /-- `rc_frm_start(ctx, &rc_cfg, &status)`. -/
  rc_frm_start : Option RcImpl → RcHalCfg → EncFrmStatus →
    Option RcImpl × RcHalCfg × EncFrmStatus
  /-- `rc_frm_end(ctx, &hal_rc_cfg)`. -/
  rc_frm_end : Option RcImpl → RcHalCfg → Option RcImpl × RcHalCfg
  /-- `h264e_dpb_copy(&dst, &src)`. -/
  h264e_dpb_copy : H264eDpb → H264eDpb → H264eDpb
  /-- The DPB calls work on the DPB and on the reorder and marking records it
  was initialised with. -/
  h264e_dpb_set_curr : H264eDpb × H264eReorderInfo × H264eMarkingInfo → H264eDpbFrmCfg →
    H264eDpb × H264eReorderInfo × H264eMarkingInfo
  h264e_dpb_build_list : H264eDpb × H264eReorderInfo × H264eMarkingInfo →
    H264eDpb × H264eReorderInfo × H264eMarkingInfo
  h264e_dpb_build_marking : H264eDpb × H264eReorderInfo × H264eMarkingInfo →
    H264eDpb × H264eReorderInfo × H264eMarkingInfo
  h264e_dpb_curr_ready : H264eDpb × H264eReorderInfo × H264eMarkingInfo →
    H264eDpb × H264eReorderInfo × H264eMarkingInfo
  /-- `h264e_slice_update(&slice, cfg, &sps, dpb->curr)`; the slice reads the
  reorder and marking records it was initialised with. -/
  h264e_slice_update : H264eSlice → MppEncCfgSet → SynH264eSps → H264eDpbFrm →
    H264eReorderInfo → H264eMarkingInfo → H264eSlice

/-! ## `h264e_proc_cfg` -/

/-- Lines 218-245 of `h264e_proc_cfg`: the field copies of a picture-prep
update into `dst`, in source order, and the accumulation of the change mask. -/
def prep_merge (dst src : MppEncPrepCfg) : MppEncPrepCfg :=
  let change := src.change
  let dst := if change &&& MPP_ENC_PREP_CFG_CHANGE_FORMAT ≠ 0 then
    { dst with format := src.format } else dst
  let dst := if change &&& MPP_ENC_PREP_CFG_CHANGE_ROTATION ≠ 0 then
    { dst with rotation := src.rotation } else dst
  let dst := if change &&& MPP_ENC_PREP_CFG_CHANGE_MIRRORING ≠ 0 then
    { dst with mirroring := src.mirroring } else dst
  let dst := if change &&& MPP_ENC_PREP_CFG_CHANGE_DENOISE ≠ 0 then
    { dst with denoise := src.denoise } else dst
  let dst := if change &&& MPP_ENC_PREP_CFG_CHANGE_SHARPEN ≠ 0 then
    { dst with sharpen := src.sharpen } else dst
  let dst := if change &&& MPP_ENC_PREP_CFG_CHANGE_INPUT ≠ 0 then
    let dst := if dst.rotation = MPP_ENC_ROT_90 ∨ dst.rotation = MPP_ENC_ROT_270 then
      { dst with width := src.height, height := src.width }
    else
      { dst with width := src.width, height := src.height }
    { dst with hor_stride := src.hor_stride, ver_stride := src.ver_stride }
  else dst
  { dst with change := dst.change ||| change }

/-- Lines 247-252: the parameter check of the merged picture-prep record. -/
def prep_check (dst : MppEncPrepCfg) : MPP_RET :=
  if dst.width > dst.hor_stride ∨ dst.height > dst.ver_stride then
    MPP_RET.MPP_ERR_VALUE
  else
    MPP_RET.MPP_OK

/-- Lines 271-299: the field copies of a rate-control update into `dst`. -/
def rc_merge (dst src : MppEncRcCfg) : MppEncRcCfg :=
  let change := src.change
  let dst := if change &&& MPP_ENC_RC_CFG_CHANGE_RC_MODE ≠ 0 then
    { dst with rc_mode := src.rc_mode } else dst
  let dst := if change &&& MPP_ENC_RC_CFG_CHANGE_QUALITY ≠ 0 then
    { dst with quality := src.quality } else dst
  let dst := if change &&& MPP_ENC_RC_CFG_CHANGE_BPS ≠ 0 then
    { dst with bps_target := src.bps_target, bps_max := src.bps_max, bps_min := src.bps_min }
  else dst
  let dst := if change &&& MPP_ENC_RC_CFG_CHANGE_FPS_IN ≠ 0 then
    { dst with fps_in_flex := src.fps_in_flex, fps_in_num := src.fps_in_num,
               fps_in_denorm := src.fps_in_denorm }
  else dst
  let dst := if change &&& MPP_ENC_RC_CFG_CHANGE_FPS_OUT ≠ 0 then
    { dst with fps_out_flex := src.fps_out_flex, fps_out_num := src.fps_out_num,
               fps_out_denorm := src.fps_out_denorm }
  else dst
  let dst := if change &&& MPP_ENC_RC_CFG_CHANGE_GOP ≠ 0 then
    { dst with gop := src.gop } else dst
  let dst := if change &&& MPP_ENC_RC_CFG_CHANGE_SKIP_CNT ≠ 0 then
    { dst with skip_cnt := src.skip_cnt } else dst
  dst

/-- Lines 314-316: the condition of the bitrate range test. -/
def rc_bps_out_of_range (dst : MppEncRcCfg) : Bool :=
  (dst.bps_target ≥ 100 * SZ_1M ∨ dst.bps_target ≤ 1 * SZ_1K) ∨
  (dst.bps_max ≥ 100 * SZ_1M ∨ dst.bps_max ≤ 1 * SZ_1K) ∨
  (dst.bps_min ≥ 100 * SZ_1M ∨ dst.bps_min ≤ 1 * SZ_1K)

/-- Lines 301-321: the parameter check of the merged rate-control record; the
three tests run in source order, each overwriting `ret` when it fails. -/
def rc_check (dst : MppEncRcCfg) : MPP_RET :=
  let ret := MPP_RET.MPP_OK
  let ret := if dst.rc_mode ≥ MPP_ENC_RC_MODE_BUTT then MPP_RET.MPP_ERR_VALUE else ret
  let ret := if dst.quality ≥ MPP_ENC_RC_QUALITY_BUTT then MPP_RET.MPP_ERR_VALUE else ret
  let ret := if dst.rc_mode ≠ MPP_ENC_RC_MODE_VBR ∨ dst.quality ≠ MPP_ENC_RC_QUALITY_CQP then
    if rc_bps_out_of_range dst then MPP_RET.MPP_ERR_VALUE else ret
  else ret
  ret

/-- Lines 342-388: the field copies of a codec update into `dst` and the
accumulation of the change mask. -/
def codec_merge (dst src : MppEncH264Cfg) : MppEncH264Cfg :=
  let change := src.change
  let dst := if change &&& MPP_ENC_H264_CFG_STREAM_TYPE ≠ 0 then
    { dst with stream_type := src.stream_type } else dst
  let dst := if change &&& MPP_ENC_H264_CFG_CHANGE_PROFILE ≠ 0 then
    { dst with profile := src.profile, level := src.level } else dst
  let dst := if change &&& MPP_ENC_H264_CFG_CHANGE_ENTROPY ≠ 0 then
    { dst with entropy_coding_mode := src.entropy_coding_mode,
               cabac_init_idc := src.cabac_init_idc }
  else dst
  let dst := if change &&& MPP_ENC_H264_CFG_CHANGE_TRANS_8x8 ≠ 0 then
    { dst with transform8x8_mode := src.transform8x8_mode } else dst
  let dst := if change &&& MPP_ENC_H264_CFG_CHANGE_CONST_INTRA ≠ 0 then
    { dst with constrained_intra_pred_mode := src.constrained_intra_pred_mode } else dst
  let dst := if change &&& MPP_ENC_H264_CFG_CHANGE_CHROMA_QP ≠ 0 then
    { dst with chroma_cb_qp_offset := src.chroma_cb_qp_offset,
               chroma_cr_qp_offset := src.chroma_cr_qp_offset }
  else dst
  let dst := if change &&& MPP_ENC_H264_CFG_CHANGE_DEBLOCKING ≠ 0 then
    { dst with deblock_disable := src.deblock_disable,
               deblock_offset_alpha := src.deblock_offset_alpha,
               deblock_offset_beta := src.deblock_offset_beta }
  else dst
  let dst := if change &&& MPP_ENC_H264_CFG_CHANGE_LONG_TERM ≠ 0 then
    { dst with use_longterm := src.use_longterm } else dst
  let dst := if change &&& MPP_ENC_H264_CFG_CHANGE_QP_LIMIT ≠ 0 then
    { dst with qp_init := src.qp_init, qp_max := src.qp_max, qp_min := src.qp_min,
               qp_max_step := src.qp_max_step }
  else dst
  let dst := if change &&& MPP_ENC_H264_CFG_CHANGE_INTRA_REFRESH ≠ 0 then
    { dst with intra_refresh_mode := src.intra_refresh_mode,
               intra_refresh_arg := src.intra_refresh_arg }
  else dst
  let dst := if change &&& MPP_ENC_H264_CFG_CHANGE_SLICE_MODE ≠ 0 then
    { dst with slice_mode := src.slice_mode, slice_arg := src.slice_arg } else dst
  let dst := if change &&& MPP_ENC_H264_CFG_CHANGE_VUI ≠ 0 then
    { dst with vui := src.vui } else dst
  let dst := if change &&& MPP_ENC_H264_CFG_CHANGE_SEI ≠ 0 then
    { dst with sei := src.sei } else dst
  { dst with change := dst.change ||| change }

/-- The function `h264e_proc_cfg`: the return code and the context afterwards.
`mpp_assert(change)` only logs. -/
def h264e_proc_cfg (p : H264eCtx) (cmd : MpiCmd) : MPP_RET × H264eCtx :=
  match cmd with
  | MpiCmd.MPP_ENC_SET_ALL_CFG => (MPP_RET.MPP_OK, p)
  | MpiCmd.MPP_ENC_SET_PREP_CFG src =>
    let change := src.change
    if change ≠ 0 then
      let bak := p.cfg.prep
      let dst := prep_merge p.cfg.prep src
      let ret := prep_check dst
      if ret ≠ MPP_RET.MPP_OK then
        (ret, { p with cfg := { p.cfg with prep := bak } })
      else
        (ret, { p with cfg := { p.cfg with prep := dst } })
    else (MPP_RET.MPP_OK, p)
  | MpiCmd.MPP_ENC_SET_RC_CFG src =>
    let change := src.change
    if change ≠ 0 then
      let bak := p.cfg.rc
      let dst := rc_merge p.cfg.rc src
      let ret := rc_check dst
      let dst := { dst with change := dst.change ||| change }
      if ret ≠ MPP_RET.MPP_OK then
        (ret, { p with cfg := { p.cfg with rc := bak } })
      else
        (ret, { p with cfg := { p.cfg with rc := dst } })
    else (MPP_RET.MPP_OK, p)
  | MpiCmd.MPP_ENC_SET_CODEC_CFG src =>
    (MPP_RET.MPP_OK, { p with cfg := { p.cfg with codec := codec_merge p.cfg.codec src } })
  | MpiCmd.MPP_ENC_SET_SEI_CFG => (MPP_RET.MPP_OK, p)
  | MpiCmd.MPP_ENC_SET_IDR_FRAME =>
    (MPP_RET.MPP_OK, { p with idr_request := (p.idr_request + 1) % 2 ^ 32 })
  | MpiCmd.other _ => (MPP_RET.MPP_NOK, p)

/-! ## Initialisation -/

/-- Words of a record after `memset(.., 0, ..)`. -/
def zeroed (r : Raw) : Raw := r.map fun _ => 0

/-- The function `init_h264e_cfg_set` (lines 81-137): the codec record is
zeroed and then given its six defaults; the picture-prep and rate-control
members are assigned one by one (`bps_max` and `bps_min` from the `bps_target`
just stored).  The reference topology `gop_ref` and the sharpen member of
`prep` are not written. -/
def init_h264e_cfg_set (cfg : MppEncCfgSet) : MppEncCfgSet :=
  let h264 : MppEncH264Cfg :=
    { change := 0, stream_type := 0,
      profile := H264_PROFILE_BASELINE, level := H264_LEVEL_3_1,
      entropy_coding_mode := 0, cabac_init_idc := 0, transform8x8_mode := 0,
      constrained_intra_pred_mode := 0, chroma_cb_qp_offset := 0,
      chroma_cr_qp_offset := 0, deblock_disable := 0, deblock_offset_alpha := 0,
      deblock_offset_beta := 0, use_longterm := 0,
      qp_init := 26, qp_max := 48, qp_min := 16, qp_max_step := 8,
      intra_refresh_mode := 0, intra_refresh_arg := 0, slice_mode := 0, slice_arg := 0,
      vui := zeroed cfg.codec.vui, sei := zeroed cfg.codec.sei }
  let prep : MppEncPrepCfg :=
    { cfg.prep with
      change := 0, width := 1280, height := 720, hor_stride := 1280, ver_stride := 720,
      format := MPP_FMT_YUV420SP, rotation := MPP_ENC_ROT_0, mirroring := 0, denoise := 0 }
  let bps_target : Int := 2000 * 1000
  let rc_cfg : MppEncRcCfg :=
    { cfg.rc with
      change := 0, rc_mode := MPP_ENC_RC_MODE_CBR, quality := MPP_ENC_RC_QUALITY_MEDIUM,
      bps_target := bps_target, bps_max := bps_target * 5 / 4, bps_min := bps_target * 3 / 4,
      fps_in_flex := 0, fps_in_num := 30, fps_in_denorm := 1,
      fps_out_flex := 0, fps_out_num := 30, fps_out_denorm := 1,
      gop := 60, skip_cnt := 0 }
  { cfg with codec := h264, prep := prep, rc := rc_cfg }

/-- The function `h264e_add_syntax` (lines 139-144): a store at index
`syn_num` of the descriptor array, then the increment of `syn_num`.  A store
outside the array is undefined in C; the model leaves the array as it is. -/
def h264e_add_syntax (ctx : H264eCtx) (type : H264eSyntaxType) (ref : SynRef) : H264eCtx :=
  { ctx with
    syn_tab := fun i => if (i.val : Int) = ctx.syn_num then ⟨type, ref⟩ else ctx.syn_tab i
    syn_num := ctx.syn_num + 1 }

/-- The function `h264e_init` (lines 146-177).  The assertions only log. -/
def h264e_init (C : Collab) (p : H264eCtx) (ctrl_cfg : EncImplCfg) : MPP_RET × H264eCtx :=
  let p := { p with dev_id := ctrl_cfg.dev_id }
  let p := { p with hdr_size := SZ_1K.toNat }
  let hdr_buf := C.mpp_malloc_size p.hdr_size
  let p := { p with hdr_pkt := C.mpp_packet_init hdr_buf p.hdr_size }
  let p := { p with cfg := ctrl_cfg.cfg }
  let p := { p with idr_request := 0 }
  let p := { p with reorder := C.h264e_reorder_init p.reorder }
  let p := { p with marking := C.h264e_marking_init p.marking }
  let p := { p with dpb := C.h264e_dpb_init p.dpb p.reorder p.marking }
  let p := { p with slice := C.h264e_slice_init p.slice p.reorder p.marking }
  let p := { p with cfg := init_h264e_cfg_set p.cfg }
  (MPP_RET.MPP_OK, p)

/-- The function `h264e_deinit` (lines 179-197). -/
def h264e_deinit (p : H264eCtx) : MPP_RET × H264eCtx :=
  let p := if p.rc_ctx.isSome then { p with rc_ctx := none } else p
  let p := if p.hdr_pkt.isSome then { p with hdr_pkt := none } else p
  (MPP_RET.MPP_OK, p)

/-! ## Header generation -/

/-- Length of a packet, `mpp_packet_get_length` (0 for a null packet). -/
def mpp_packet_get_length (pkt : Option MppPacketImpl) : Nat :=
  match pkt with
  | some k => k.length
  | none => 0

/-- Contents of the header buffer `hdr_buf`, the data of `hdr_pkt`. -/
def hdr_buf (p : H264eCtx) : List Nat :=
  match p.hdr_pkt with
  | some k => k.data
  | none => []

/-- The function `h264e_gen_hdr` (lines 406-437): the return code, the context
and the destination packet afterwards. -/
def h264e_gen_hdr (C : Collab) (p : H264eCtx) (pkt : Option MppPacketImpl) :
    MPP_RET × H264eCtx × Option MppPacketImpl :=
  let p := { p with sps := C.h264e_sps_update p.sps p.cfg p.dev_id }
  let p := { p with pps := C.h264e_pps_update p.pps p.cfg }
  let p := { p with dpb := C.h264e_dpb_set_cfg p.dpb p.cfg p.sps }
  let p := { p with hdr_pkt := C.mpp_packet_reset p.hdr_pkt }
  let p := { p with hdr_pkt := C.h264e_sps_to_packet p.sps p.hdr_pkt }
  let p := { p with hdr_pkt := C.h264e_pps_to_packet p.pps p.hdr_pkt }
  let p := { p with hdr_len := mpp_packet_get_length p.hdr_pkt }
  match pkt with
  | some k =>
    let src := hdr_buf p
    let k := { k with data := src.take p.hdr_len ++ k.data.drop p.hdr_len }
    let k := { k with length := p.hdr_len }
    (MPP_RET.MPP_OK, p, some k)
  | none => (MPP_RET.MPP_OK, p, none)

/-! ## Per-frame stages -/

/-- The loop `for (i = 0; i < k; i++) dst[i] = src[i]` over arrays of size `n`. -/
def copy_loop {n : Nat} {α : Type} (src : Fin n → α) : Nat → (Fin n → α) → (Fin n → α)
  | 0, dst => dst
  | k + 1, dst =>
    let dst := copy_loop src k dst
    fun j => if j.val = k then src j else dst j

/-- The function `set_rc_cfg` (lines 439-492), writing into `cfg`. -/
def set_rc_cfg (cfg : RcCfg) (rc : MppEncRcCfg) (ref : MppEncGopRef) : RcCfg :=
  let cfg :=
    if rc.rc_mode = MPP_ENC_RC_MODE_CBR then { cfg with mode := RcMode.RC_CBR }
    else if rc.rc_mode = MPP_ENC_RC_MODE_VBR then { cfg with mode := RcMode.RC_VBR }
    else { cfg with mode := RcMode.RC_AVBR }
  let cfg := { cfg with fps := { cfg.fps with fps_in_flex := rc.fps_in_flex } }
  let cfg := { cfg with fps := { cfg.fps with fps_in_num := rc.fps_in_num } }
  let cfg := { cfg with fps := { cfg.fps with fps_in_denorm := rc.fps_in_denorm } }
  let cfg := { cfg with fps := { cfg.fps with fps_out_flex := rc.fps_out_flex } }
  let cfg := { cfg with fps := { cfg.fps with fps_out_num := rc.fps_out_num } }
  let cfg := { cfg with fps := { cfg.fps with fps_out_denorm := rc.fps_out_denorm } }
  let cfg := { cfg with igop := rc.gop }
  let cfg := { cfg with bps_target := rc.bps_target }
  let cfg := { cfg with bps_max := rc.bps_max }
  let cfg := { cfg with bps_min := rc.bps_min }
  let cfg := { cfg with stat_times := 1 }
  let cfg :=
    if ref.gop_cfg_enable ≠ 0 then { cfg with vgop := ref.ref_gop_len }
    else { cfg with vgop := 0 }
  let cfg :=
    if ref.layer_rc_enable ≠ 0 then
      { cfg with layer_bit_prop := copy_loop ref.layer_weight MAX_TEMPORAL_LAYER cfg.layer_bit_prop }
    else
      { cfg with layer_bit_prop := fun i =>
          if i.val = 0 then 256 else if i.val = 1 then 0 else if i.val = 2 then 0
          else if i.val = 3 then 0 else cfg.layer_bit_prop i }
  { cfg with max_reencode_times := 1 }

/-- Lines 503-518 of `h264e_start`, ConfigReconcile: the rebuild of the
rate-control collaborator when a change is pending. -/
def start_reconcile (C : Collab) (p : H264eCtx) : H264eCtx :=
  let ref := p.cfg.gop_ref
  let rc := p.cfg.rc
  if rc.change ≠ 0 ∨ ref.change ≠ 0 then
    let p := if p.rc_ctx.isSome then { p with rc_ctx := none } else p
    let rc_cfg := set_rc_cfg C.rc_cfg_local rc ref
    let p := { p with rc_ctx := some C.rc_init }
    { p with rc_ctx := p.rc_ctx.map fun r => C.rc_update_usr_cfg r rc_cfg }
  else p

/-- The function `h264e_start` (lines 494-538): the return code, the context
and the task afterwards. -/
def h264e_start (C : Collab) (p : H264eCtx) (task : HalEncTask) :
    MPP_RET × H264eCtx × HalEncTask :=
  let p := start_reconcile C p
  let drop := C.rc_frm_check_drop p.rc_ctx
  let p := { p with rc_ctx := drop.2 }
  let task := { task with valid := if drop.1 ≠ 0 then 0 else 1 }
  let p := { p with dpb_bak := C.h264e_dpb_copy p.dpb_bak p.dpb }
  (MPP_RET.MPP_OK, p, task)

/-- The call `mpp_meta_get_s32(meta, KEY_LONG_REF_IDX, &v)`: the stored value
when the key is present, otherwise `v` as it was. -/
def mpp_meta_get_s32 (m : MppMeta) (v : Int) : Int :=
  match m.long_ref_idx with
  | some x => x
  | none => v

/-- Lines 558-567 of `h264e_proc_dpb`: the frame configuration handed to the
DPB collaborator and the context after the IDR counter was served.  The
decrement runs on a non-zero counter only, so it cannot wrap. -/
def proc_dpb_frm_cfg (p : H264eCtx) (task : HalEncTask) : H264eDpbFrmCfg × H264eCtx :=
  let r : Int × H264eCtx :=
    if p.idr_request ≠ 0 then (1, { p with idr_request := p.idr_request - 1 })
    else (0, p)
  let frm_cfg : H264eDpbFrmCfg :=
    { force_idr := r.1, force_pskip := 0, force_lt_idx := -1, force_ref_lt_idx := -1 }
  let frm_cfg :=
    { frm_cfg with
      force_ref_lt_idx := mpp_meta_get_s32 task.frame.meta frm_cfg.force_ref_lt_idx }
  (frm_cfg, r.2)

/-- Lines 569-572 of `h264e_proc_dpb`: the DPB (with its reorder and marking
records) as the collaborator returns it for the frame configuration. -/
def proc_dpb_assign (C : Collab) (p : H264eCtx) (frm_cfg : H264eDpbFrmCfg) :
    H264eDpb × H264eReorderInfo × H264eMarkingInfo :=
  let d := C.h264e_dpb_set_curr (p.dpb, p.reorder, p.marking) frm_cfg
  let d := C.h264e_dpb_build_list d
  C.h264e_dpb_build_marking d

/-- Lines 574-580 of `h264e_proc_dpb`: the frame usage record built from the
DPB. -/
def update_frame_usage (frms : H264eFrmInfo) (dpb : H264eDpb) : H264eFrmInfo :=
  let frms := { frms with seq_idx := dpb.curr.seq_idx }
  let frms := { frms with curr_idx := dpb.curr.slot_idx }
  let frms := { frms with refr_idx :=
    match dpb.refr with
    | some r => r.slot_idx
    | none => frms.curr_idx }
  let frms := { frms with status := dpb.curr.status }
  { frms with usage := copy_loop (fun i => (dpb.frames i).on_used) H264E_USAGE_CNT frms.usage }

/-- The function `h264e_proc_dpb` (lines 540-600). -/
def h264e_proc_dpb (C : Collab) (p : H264eCtx) (task : HalEncTask) : MPP_RET × H264eCtx :=
  let r := proc_dpb_frm_cfg p task
  let frm_cfg := r.1
  let p := r.2
  let d := proc_dpb_assign C p frm_cfg
  let p := { p with dpb := d.1, reorder := d.2.1, marking := d.2.2 }
  let p := { p with frms := update_frame_usage p.frms p.dpb }
  let p := { p with slice := C.h264e_slice_update p.slice p.cfg p.sps p.dpb.curr p.reorder p.marking }
  let d := C.h264e_dpb_curr_ready (p.dpb, p.reorder, p.marking)
  let p := { p with dpb := d.1, reorder := d.2.1, marking := d.2.2 }
  (MPP_RET.MPP_OK, p)

/-- The function `h264e_proc_rc` (lines 602-621). -/
def h264e_proc_rc (C : Collab) (p : H264eCtx) (_task : HalEncTask) : MPP_RET × H264eCtx :=
  let r := C.rc_frm_start p.rc_ctx p.frms.rc_cfg p.frms.status
  let p := { p with rc_ctx := r.1, frms := { p.frms with rc_cfg := r.2.1, status := r.2.2 } }
  let p := { p with cfg := { p.cfg with rc := { p.cfg.rc with change := 0 } } }
  let p := { p with cfg := { p.cfg with gop_ref := { p.cfg.gop_ref with change := 0 } } }
  (MPP_RET.MPP_OK, p)

/-- The function `h264e_proc_hal` (lines 623-645): the return code, the context
and the task afterwards.  `task->syntax.number` is `RK_U32`. -/
def h264e_proc_hal (p : H264eCtx) (task : HalEncTask) : MPP_RET × H264eCtx × HalEncTask :=
  let p := { p with syn_num := 0 }
  let p := h264e_add_syntax p H264eSyntaxType.H264E_SYN_CFG SynRef.cfg
  let p := h264e_add_syntax p H264eSyntaxType.H264E_SYN_SPS SynRef.sps
  let p := h264e_add_syntax p H264eSyntaxType.H264E_SYN_PPS SynRef.pps
  let p := h264e_add_syntax p H264eSyntaxType.H264E_SYN_SLICE SynRef.slice
  let p := h264e_add_syntax p H264eSyntaxType.H264E_SYN_FRAME SynRef.frms
  let p := h264e_add_syntax p H264eSyntaxType.H264E_SYN_RC SynRef.rc_syn
  let task := { task with valid := 1 }
  let task := { task with syn := { task.syn with data := some p.syn_tab } }
  let task := { task with syn := { task.syn with number := (p.syn_num % 2 ^ 32).toNat } }
  let task := { task with is_intra := p.slice.idr_flag }
  (MPP_RET.MPP_OK, p, task)

/-- The function `h264e_update_hal` (lines 647-659). -/
def h264e_update_hal (p : H264eCtx) (task : HalEncTask) : MPP_RET × H264eCtx :=
  (MPP_RET.MPP_OK, { p with hal_rc_cfg := task.hal_ret })

/-- The function `h264e_update_rc` (lines 661-673). -/
def h264e_update_rc (C : Collab) (p : H264eCtx) (_task : HalEncTask) : MPP_RET × H264eCtx :=
  let r := C.rc_frm_end p.rc_ctx p.hal_rc_cfg
  (MPP_RET.MPP_OK, { p with rc_ctx := r.1, hal_rc_cfg := r.2 })

/-- The function `h264e_reset` (lines 675-682). -/
def h264e_reset (p : H264eCtx) : MPP_RET × H264eCtx := (MPP_RET.MPP_OK, p)

/-- The function `h264e_flush` (lines 684-691). -/
def h264e_flush (p : H264eCtx) : MPP_RET × H264eCtx := (MPP_RET.MPP_OK, p)

/-- The descriptors a task carries: the first `number` entries at `data`. -/
def task_descs (task : HalEncTask) : List H264eSyntaxDesc :=
  match task.syn.data with
  | some tab => ((List.finRange H264E_SYN_BUTT).take task.syn.number).map tab
  | none => []

/-! ## The function table and frames -/

/-- One call through the function table `api_h264e` (lines 699-717), with its
arguments. -/
inductive ApiCall where
  | init (ctrl_cfg : EncImplCfg)
  | deinit
  | proc_cfg (cmd : MpiCmd)
  | gen_hdr (pkt : Option MppPacketImpl)
  | start (task : HalEncTask)
  | proc_dpb (task : HalEncTask)
  | proc_rc (task : HalEncTask)
  | proc_hal (task : HalEncTask)
  | update_hal (task : HalEncTask)
  | update_rc (task : HalEncTask)
  | reset
  | flush

/-- The context after one call through the function table. -/
def api_call (C : Collab) (p : H264eCtx) : ApiCall → H264eCtx
  | ApiCall.init ctrl_cfg => (h264e_init C p ctrl_cfg).2
  | ApiCall.deinit => (h264e_deinit p).2
  | ApiCall.proc_cfg cmd => (h264e_proc_cfg p cmd).2
  | ApiCall.gen_hdr pkt => (h264e_gen_hdr C p pkt).2.1
  | ApiCall.start task => (h264e_start C p task).2.1
  | ApiCall.proc_dpb task => (h264e_proc_dpb C p task).2
  | ApiCall.proc_rc task => (h264e_proc_rc C p task).2
  | ApiCall.proc_hal task => (h264e_proc_hal p task).2.1
  | ApiCall.update_hal task => (h264e_update_hal p task).2
  | ApiCall.update_rc task => (h264e_update_rc C p task).2
  | ApiCall.reset => (h264e_reset p).2
  | ApiCall.flush => (h264e_flush p).2

/-- The context after a sequence of calls. -/
def api_run (C : Collab) (p : H264eCtx) (calls : List ApiCall) : H264eCtx :=
  calls.foldl (api_call C) p

/-- The three configuration categories that carry a changed-bitmask and take
updates. -/
inductive Category where
  | prep
  | rc
  | codec
  deriving DecidableEq, Repr

/-- The changed-bitmask of a category. -/
def mask_of (cat : Category) (p : H264eCtx) : Nat :=
  match cat with
  | Category.prep => p.cfg.prep.change
  | Category.rc => p.cfg.rc.change
  | Category.codec => p.cfg.codec.change

/-- The calls that reset the changed-bitmask of a category: the acknowledgment
`h264e_proc_rc` for rate control, and `h264e_init`, which installs a new
configuration set. -/
def clears_mask (cat : Category) (call : ApiCall) : Bool :=
  match cat, call with
  | _, ApiCall.init _ => true
  | Category.rc, ApiCall.proc_rc _ => true
  | _, _ => false

/-- The call is an update of the category that `h264e_proc_cfg` accepts in the
context `p`. -/
def accepted_update_of (cat : Category) (p : H264eCtx) (call : ApiCall) : Bool :=
  match cat, call with
  | Category.prep, ApiCall.proc_cfg (MpiCmd.MPP_ENC_SET_PREP_CFG src) =>
    (h264e_proc_cfg p (MpiCmd.MPP_ENC_SET_PREP_CFG src)).1 = MPP_RET.MPP_OK
  | Category.rc, ApiCall.proc_cfg (MpiCmd.MPP_ENC_SET_RC_CFG src) =>
    (h264e_proc_cfg p (MpiCmd.MPP_ENC_SET_RC_CFG src)).1 = MPP_RET.MPP_OK
  | Category.codec, ApiCall.proc_cfg (MpiCmd.MPP_ENC_SET_CODEC_CFG src) =>
    (h264e_proc_cfg p (MpiCmd.MPP_ENC_SET_CODEC_CFG src)).1 = MPP_RET.MPP_OK
  | _, _ => false

/-- A sequence of calls from `p` that holds, for the category, neither a
resetting call nor an accepted update (rejected updates and every other call
are allowed). -/
def quiet_run (C : Collab) (cat : Category) : H264eCtx → List ApiCall → Bool
  | _, [] => true
  | p, call :: calls =>
    !clears_mask cat call && !accepted_update_of cat p call &&
      quiet_run C cat (api_call C p call) calls

/-- The context after `n` consecutive IDR requests
(`h264e_proc_cfg` with `MPP_ENC_SET_IDR_FRAME`). -/
def request_idr_n (p : H264eCtx) : Nat → H264eCtx
  | 0 => p
  | n + 1 => (h264e_proc_cfg (request_idr_n p n) MpiCmd.MPP_ENC_SET_IDR_FRAME).2

/-- Modelled from the spec: RunFrame, which "executes ConfigReconcile through
SyntaxAssemble for one input picture", the stages running "in strict sequence
per frame (no skipping, no reordering)": `h264e_start`, `h264e_proc_dpb`,
`h264e_proc_rc` and `h264e_proc_hal` in this order on one task.  The caller
that sequences the stages is not among the sources. -/
def run_frame (C : Collab) (p : H264eCtx) (task : HalEncTask) : H264eCtx × HalEncTask :=
  let r := h264e_start C p task
  let p := r.2.1
  let task := r.2.2
  let p := (h264e_proc_dpb C p task).2
  let p := (h264e_proc_rc C p task).2
  let r := h264e_proc_hal p task
  (r.2.1, r.2.2)

/-- The forced-IDR flag `h264e_proc_dpb` hands to the DPB collaborator in the
frame `run_frame` runs from `p`. -/
def frame_force_idr (C : Collab) (p : H264eCtx) (task : HalEncTask) : Int :=
  let r := h264e_start C p task
  (proc_dpb_frm_cfg r.2.1 r.2.2).1.force_idr

/-- One frame per task, in order: the forced-IDR flag of each frame and the
context after the last one. -/
def run_frames (C : Collab) (p : H264eCtx) : List HalEncTask → List Int × H264eCtx
  | [] => ([], p)
  | task :: tasks =>
    let r := run_frames C (run_frame C p task).1 tasks
    (frame_force_idr C p task :: r.1, r.2)

/-! ## Sample states

A zero-initialised context, collaborators that leave every object as it is,
and the context `h264e_init` makes of them; the theorems below are
instantiated at these. -/

/-- A zero-initialised configuration set. -/
def zero_cfg : MppEncCfgSet :=
  { prep := { change := 0, width := 0, height := 0, hor_stride := 0, ver_stride := 0,
              format := 0, rotation := 0, mirroring := 0, denoise := 0, sharpen := [] }
    rc := { change := 0, rc_mode := 0, quality := 0, bps_target := 0, bps_max := 0,
            bps_min := 0, fps_in_flex := 0, fps_in_num := 0, fps_in_denorm := 0,
            fps_out_flex := 0, fps_out_num := 0, fps_out_denorm := 0, gop := 0,
            skip_cnt := 0 }
    codec := { change := 0, stream_type := 0, profile := 0, level := 0,
               entropy_coding_mode := 0, cabac_init_idc := 0, transform8x8_mode := 0,
               constrained_intra_pred_mode := 0, chroma_cb_qp_offset := 0,
               chroma_cr_qp_offset := 0, deblock_disable := 0, deblock_offset_alpha := 0,
               deblock_offset_beta := 0, use_longterm := 0, qp_init := 0, qp_max := 0,
               qp_min := 0, qp_max_step := 0, intra_refresh_mode := 0,
               intra_refresh_arg := 0, slice_mode := 0, slice_arg := 0, vui := [], sei := [] }
    gop_ref := { change := 0, gop_cfg_enable := 0, layer_rc_enable := 0, ref_gop_len := 0,
                 layer_weight := fun _ => 0 } }

/-- A zero-initialised DPB. -/
def zero_dpb : H264eDpb :=
  { curr := ⟨0, 0, 0, 0⟩, refr := none, frames := fun _ => ⟨0, 0, 0, 0⟩, rest := [] }

/-- A zero-initialised context. -/
def zero_ctx : H264eCtx :=
  { dev_id := 0, cfg := zero_cfg, idr_request := 0, sps := [], pps := [],
    dpb := zero_dpb, dpb_bak := zero_dpb, slice := ⟨0, []⟩, reorder := [], marking := [],
    frms := { seq_idx := 0, curr_idx := 0, refr_idx := 0, status := 0,
              usage := fun _ => 0, rc_cfg := [] }
    rc_syn := [], hdr_pkt := none, hdr_size := 0, hdr_len := 0, rc_ctx := none,
    syn_num := 0,
    syn_tab := fun _ => ⟨H264eSyntaxType.H264E_SYN_CFG, SynRef.null⟩,
    hal_rc_cfg := [] }

/-- A zero-initialised frame task. -/
def zero_task : HalEncTask :=
  { valid := 0, is_intra := 0, syn := { number := 0, data := none },
    frame := ⟨⟨none⟩⟩, hal_ret := [] }

/-- Collaborators that leave every object as it is; the rate control answers
`drop` to every frame-drop question. -/
def sample_collab (drop : Int) : Collab :=
  { mpp_malloc_size := fun n => List.replicate n 0
    mpp_packet_init := fun data size => some ⟨data, size⟩
    mpp_packet_reset := fun k => k.map fun x => { x with length := 0 }
    rc_cfg_local :=
      { mode := RcMode.RC_CBR, fps := ⟨0, 0, 0, 0, 0, 0⟩, igop := 0, vgop := 0,
        bps_target := 0, bps_max := 0, bps_min := 0, stat_times := 0,
        layer_bit_prop := fun _ => 0, max_reencode_times := 0, rest := [] }
    h264e_reorder_init := fun r => r
    h264e_marking_init := fun m => m
    h264e_dpb_init := fun d _ _ => d
    h264e_slice_init := fun sl _ _ => sl
    h264e_sps_update := fun sps _ _ => sps
    h264e_pps_update := fun pps _ => pps
    h264e_dpb_set_cfg := fun d _ _ => d
    h264e_sps_to_packet := fun _ k => k
    h264e_pps_to_packet := fun _ k => k
    rc_init := []
    rc_update_usr_cfg := fun r _ => r
    rc_frm_check_drop := fun r => (drop, r)
    rc_frm_start := fun r c st => (r, c, st)
    rc_frm_end := fun r c => (r, c)
    h264e_dpb_copy := fun _ src => src
    h264e_dpb_set_curr := fun d _ => d
    h264e_dpb_build_list := fun d => d
    h264e_dpb_build_marking := fun d => d
    h264e_dpb_curr_ready := fun d => d
    h264e_slice_update := fun sl _ _ _ _ _ => sl }

/-- The context after `h264e_init` on the zero-initialised context. -/
def sample_ctx : H264eCtx :=
  (h264e_init (sample_collab 0) zero_ctx ⟨0, zero_cfg⟩).2

/-- A picture-prep update record with an empty mask. -/
def zero_prep : MppEncPrepCfg := zero_cfg.prep

/-- A rate-control update record with an empty mask. -/
def zero_rc : MppEncRcCfg := zero_cfg.rc

/-- A picture-prep update naming the input geometry only. -/
def prep_input_update (width height hor_stride ver_stride : Int) : MppEncPrepCfg :=
  { zero_prep with
    change := MPP_ENC_PREP_CFG_CHANGE_INPUT
    width := width, height := height, hor_stride := hor_stride, ver_stride := ver_stride }

/-- A picture-prep update naming rotation and input geometry: rotation by 90
degrees of a 1280x720 input with the given strides. -/
def prep_rot90_update (hor_stride ver_stride : Int) : MppEncPrepCfg :=
  { zero_prep with
    change := MPP_ENC_PREP_CFG_CHANGE_ROTATION ||| MPP_ENC_PREP_CFG_CHANGE_INPUT
    rotation := MPP_ENC_ROT_90
    width := 1280, height := 720, hor_stride := hor_stride, ver_stride := ver_stride }

/-- A rate-control update naming the bitrates only. -/
def rc_bps_update (bps_target bps_max bps_min : Int) : MppEncRcCfg :=
  { zero_rc with
    change := MPP_ENC_RC_CFG_CHANGE_BPS
    bps_target := bps_target, bps_max := bps_max, bps_min := bps_min }

/-- A rate-control update naming the group length only. -/
def rc_gop_update (gop : Int) : MppEncRcCfg :=
  { zero_rc with change := MPP_ENC_RC_CFG_CHANGE_GOP, gop := gop }

/-! ## Words of the specification -/

/-- The value an accepted update leaves in a field group: the update's value
when the group's bit is set in the mask, the prior value otherwise. -/
def pick {α : Type} (change flag : Nat) (new old : α) : α :=
  if change &&& flag ≠ 0 then new else old

/-- A rate-control mode is recognized when it is one of the enumerated modes. -/
abbrev recognized_mode (m : Nat) : Prop :=
  m = MPP_ENC_RC_MODE_VBR ∨ m = MPP_ENC_RC_MODE_CBR

/-- A quality tier is in the recognized range when it lies below the end
marker of the enumeration. -/
abbrev recognized_quality (q : Nat) : Prop :=
  q < MPP_ENC_RC_QUALITY_BUTT

/-- A bitrate is out of bounds for the limits `lo` and `hi` when it is at most
`lo` or at least `hi`. -/
abbrev bps_out_of_bounds (lo hi b : Int) : Prop :=
  b ≤ lo ∨ b ≥ hi

/-- The rejection condition of a merged rate-control record for the bitrate
limits `lo` and `hi`: unrecognized mode, quality out of range, or (unless the
record is variable-bitrate with constant quantizer) a target, max or min
bitrate out of bounds. -/
abbrev rc_rejected_for (lo hi : Int) (m : MppEncRcCfg) : Prop :=
  ¬ recognized_mode m.rc_mode ∨ ¬ recognized_quality m.quality ∨
  (¬ (m.rc_mode = MPP_ENC_RC_MODE_VBR ∧ m.quality = MPP_ENC_RC_QUALITY_CQP) ∧
    (bps_out_of_bounds lo hi m.bps_target ∨ bps_out_of_bounds lo hi m.bps_max ∨
      bps_out_of_bounds lo hi m.bps_min))

/-- The rotation swaps width and height when it is 90 or 270 degrees. -/
abbrev rot_swaps (rotation : Nat) : Prop :=
  rotation = MPP_ENC_ROT_90 ∨ rotation = MPP_ENC_ROT_270

/-- The configuration is valid: the stored picture fits its strides, and the
stored rate control has a recognized mode, a recognized quality tier and,
unless it is variable-bitrate with constant quantizer, target, max and min
bitrate strictly between 1024 and 104857600. -/
abbrev cfg_valid (cfg : MppEncCfgSet) : Prop :=
  cfg.prep.width ≤ cfg.prep.hor_stride ∧ cfg.prep.height ≤ cfg.prep.ver_stride ∧
  recognized_mode cfg.rc.rc_mode ∧ recognized_quality cfg.rc.quality ∧
  (¬ (cfg.rc.rc_mode = MPP_ENC_RC_MODE_VBR ∧ cfg.rc.quality = MPP_ENC_RC_QUALITY_CQP) →
    (1024 < cfg.rc.bps_target ∧ cfg.rc.bps_target < 104857600) ∧
    (1024 < cfg.rc.bps_max ∧ cfg.rc.bps_max < 104857600) ∧
    (1024 < cfg.rc.bps_min ∧ cfg.rc.bps_min < 104857600))

/-- The header bytes a packet holds: the first `length` bytes of its data. -/
def header_bytes (k : MppPacketImpl) : List Nat :=
  k.data.take k.length

/-! ## Header collaborators

The sequence and picture parameter writers and the packet buffer are not among
the sources; the specification describes them by what the pipeline consumes. -/

/-- Modelled from the spec: the low-level writers are "consumed as produces N
bytes into a buffer": the bytes are stored behind the current contents of the
packet and the length grows by their number. -/
def packet_append (k : MppPacketImpl) (bytes : List Nat) : MppPacketImpl :=
  { data := k.data.take k.length ++ bytes ++ k.data.drop (k.length + bytes.length)
    length := k.length + bytes.length }

/-- Modelled from the spec: the header collaborators `h264e_sps_update`,
`h264e_pps_update`, `mpp_packet_reset`, `h264e_sps_to_packet` and
`h264e_pps_to_packet`, which are not among the sources.  The parameter
structures are regenerated "from the current configuration" (the result does
not depend on what the structure held), the reset empties the packet and keeps
its buffer, and each writer serializes its structure into the packet
(`packet_append` of bytes that depend on the structure only). -/
structure HeaderContract (C : Collab) : Prop where
  sps_from_cfg : ∀ (s s' : SynH264eSps) (cfg : MppEncCfgSet) (dev : Nat),
    C.h264e_sps_update s cfg dev = C.h264e_sps_update s' cfg dev
  pps_from_cfg : ∀ (s s' : SynH264ePps) (cfg : MppEncCfgSet),
    C.h264e_pps_update s cfg = C.h264e_pps_update s' cfg
  reset_empties : ∀ k : Option MppPacketImpl,
    C.mpp_packet_reset k = k.map fun x => { x with length := 0 }
  sps_bytes : ∃ ser : SynH264eSps → List Nat, ∀ (sps : SynH264eSps) (k : Option MppPacketImpl),
    C.h264e_sps_to_packet sps k = k.map fun x => packet_append x (ser sps)
  pps_bytes : ∃ ser : SynH264ePps → List Nat, ∀ (pps : SynH264ePps) (k : Option MppPacketImpl),
    C.h264e_pps_to_packet pps k = k.map fun x => packet_append x (ser pps)

/-- Sample header collaborators: the parameter structures are a few words of
the configuration, written to the packet one byte per word. -/
def header_collab : Collab :=
  { sample_collab 0 with
    h264e_sps_update := fun _ cfg dev =>
      [cfg.codec.profile, cfg.codec.level, cfg.prep.width, cfg.prep.height, dev]
    h264e_pps_update := fun _ cfg => [cfg.codec.entropy_coding_mode, cfg.codec.qp_init]
    h264e_sps_to_packet := fun sps k => k.map fun x => packet_append x (sps.map Int.toNat)
    h264e_pps_to_packet := fun pps k => k.map fun x => packet_append x (pps.map Int.toNat) }

/-- Sample rate control that keeps the bitrates and the group length of the
policy it was last given. -/
def recording_collab : Collab :=
  { sample_collab 0 with
    rc_update_usr_cfg := fun _ cfg => [cfg.bps_target, cfg.bps_max, cfg.bps_min, cfg.igop] }

/-- A rate-control update naming mode and bitrates: CBR with target 2000000,
max 2500000 and min 1500000 bit/s. -/
def rc_cbr_2m_update : MppEncRcCfg :=
  { zero_rc with
    change := MPP_ENC_RC_CFG_CHANGE_RC_MODE ||| MPP_ENC_RC_CFG_CHANGE_BPS
    rc_mode := MPP_ENC_RC_MODE_CBR
    bps_target := 2000000, bps_max := 2500000, bps_min := 1500000 }

/-- Sample sequence of calls: initialisation, a bitrate update (3 Mbit/s) and
the start of a frame, which rebuilds the rate control from it. -/
def calls_to_first_start : List ApiCall :=
  [ApiCall.init ⟨0, zero_cfg⟩,
   ApiCall.proc_cfg (MpiCmd.MPP_ENC_SET_RC_CFG (rc_bps_update 3000000 3500000 2500000)),
   ApiCall.start zero_task]

/-- Sample sequence of calls: a second bitrate update (4 Mbit/s) delivered
between `h264e_start` and `h264e_proc_rc` of the running frame, the rest of
that frame, and the start of the next frame. -/
def calls_update_in_frame : List ApiCall :=
  [ApiCall.proc_cfg (MpiCmd.MPP_ENC_SET_RC_CFG (rc_bps_update 4000000 5000000 3000000)),
   ApiCall.proc_dpb zero_task,
   ApiCall.proc_rc zero_task,
   ApiCall.proc_hal zero_task,
   ApiCall.start zero_task]

/-! ## Properties of `h264e_proc_cfg` -/

/-- The function `h264e_proc_cfg` on a picture-prep update with a non-empty
mask: the check decides between the reverted and the merged record. -/
theorem proc_cfg_prep_ret (p : H264eCtx) (src : MppEncPrepCfg) (h : src.change ≠ 0) :
    h264e_proc_cfg p (MpiCmd.MPP_ENC_SET_PREP_CFG src) =
      if prep_check (prep_merge p.cfg.prep src) ≠ MPP_RET.MPP_OK then
        (prep_check (prep_merge p.cfg.prep src), p)
      else
        (MPP_RET.MPP_OK,
          { p with cfg := { p.cfg with prep := prep_merge p.cfg.prep src } }) := by
  simp only [h264e_proc_cfg, h, ne_eq, not_false_eq_true, if_true]
  split_ifs with h1
  · rw [h1]
  · rfl

/-- The function `h264e_proc_cfg` on a rate-control update with a non-empty
mask: the check decides between the reverted and the merged record. -/
theorem proc_cfg_rc_ret (p : H264eCtx) (src : MppEncRcCfg) (h : src.change ≠ 0) :
    h264e_proc_cfg p (MpiCmd.MPP_ENC_SET_RC_CFG src) =
      if rc_check (rc_merge p.cfg.rc src) ≠ MPP_RET.MPP_OK then
        (rc_check (rc_merge p.cfg.rc src), p)
      else
        (MPP_RET.MPP_OK,
          { p with cfg := { p.cfg with rc :=
              { rc_merge p.cfg.rc src with
                change := (rc_merge p.cfg.rc src).change ||| src.change } } }) := by
  simp only [h264e_proc_cfg, h, ne_eq, not_false_eq_true, if_true]
  split_ifs with h1
  · rw [h1]
  · rfl

/-- C1: whenever `h264e_proc_cfg` returns the value error (which only a
picture-prep or a rate-control update can make it do), the context after the
call is the context before it: the whole category, changed-bitmask included,
the other categories and the IDR request counter. -/
theorem proc_cfg_value_error_reverts (p : H264eCtx) (cmd : MpiCmd)
    (h : (h264e_proc_cfg p cmd).1 = MPP_RET.MPP_ERR_VALUE) :
    (h264e_proc_cfg p cmd).2 = p ∧
      ((∃ src, cmd = MpiCmd.MPP_ENC_SET_PREP_CFG src) ∨
        (∃ src, cmd = MpiCmd.MPP_ENC_SET_RC_CFG src)) := by
  cases cmd with
  | MPP_ENC_SET_ALL_CFG => simp [h264e_proc_cfg] at h
  | MPP_ENC_SET_PREP_CFG src =>
    refine ⟨?_, Or.inl ⟨src, rfl⟩⟩
    by_cases hc : src.change = 0
    · simp [h264e_proc_cfg, hc]
    · rw [proc_cfg_prep_ret p src hc] at h ⊢
      split_ifs at h ⊢ with h1
      all_goals rfl
  | MPP_ENC_SET_RC_CFG src =>
    refine ⟨?_, Or.inr ⟨src, rfl⟩⟩
    by_cases hc : src.change = 0
    · simp [h264e_proc_cfg, hc]
    · rw [proc_cfg_rc_ret p src hc] at h ⊢
      split_ifs at h ⊢ with h1
      all_goals rfl
  | MPP_ENC_SET_CODEC_CFG src => simp [h264e_proc_cfg] at h
  | MPP_ENC_SET_SEI_CFG => simp [h264e_proc_cfg] at h
  | MPP_ENC_SET_IDR_FRAME => simp [h264e_proc_cfg] at h
  | other code => simp [h264e_proc_cfg] at h

/-- Instance of C1: on the initialised sample context, a picture-prep update
whose width exceeds its stride and a rate-control update with a 500 bit/s
target are both rejected and leave the context as it was. -/
theorem proc_cfg_value_error_reverts_witness :
    ((h264e_proc_cfg sample_ctx (MpiCmd.MPP_ENC_SET_PREP_CFG
        (prep_input_update 1920 1080 1280 1080))).1
        = MPP_RET.MPP_ERR_VALUE ∧
      (h264e_proc_cfg sample_ctx (MpiCmd.MPP_ENC_SET_PREP_CFG
        (prep_input_update 1920 1080 1280 1080))).2
        = sample_ctx) ∧
    ((h264e_proc_cfg sample_ctx (MpiCmd.MPP_ENC_SET_RC_CFG
        (rc_bps_update 500 500 500))).1
        = MPP_RET.MPP_ERR_VALUE ∧
      (h264e_proc_cfg sample_ctx (MpiCmd.MPP_ENC_SET_RC_CFG
        (rc_bps_update 500 500 500))).2
        = sample_ctx) :=
  ⟨⟨by decide, (proc_cfg_value_error_reverts sample_ctx _ (by decide)).1⟩,
   ⟨by decide, (proc_cfg_value_error_reverts sample_ctx _ (by decide)).1⟩⟩

/-- The rate-control check yields the value error exactly on the records the
rejection condition describes, with the limits `SZ_1K` and `100 * SZ_1M`. -/
theorem rc_check_err_iff (m : MppEncRcCfg) :
    rc_check m = MPP_RET.MPP_ERR_VALUE ↔ rc_rejected_for 1024 104857600 m := by
  unfold rc_check rc_rejected_for recognized_mode recognized_quality bps_out_of_bounds
    rc_bps_out_of_range
  simp only [MPP_ENC_RC_MODE_BUTT, MPP_ENC_RC_QUALITY_BUTT, MPP_ENC_RC_MODE_VBR,
    MPP_ENC_RC_MODE_CBR, MPP_ENC_RC_QUALITY_CQP, SZ_1M, SZ_1K]
  by_cases h1 : m.rc_mode ≥ 2
  · have : ¬ (m.rc_mode = 0 ∨ m.rc_mode = 1) := by omega
    simp [h1, this]
  · have hm : m.rc_mode = 0 ∨ m.rc_mode = 1 := by omega
    by_cases h2 : m.quality ≥ 7
    · have : ¬ m.quality < 7 := by omega
      simp [h1, h2, this]
    · have hq : m.quality < 7 := by omega
      simp only [h1, h2, if_false, hm, hq, not_true_eq_false, false_or]
      by_cases h3 : m.rc_mode ≠ 0 ∨ m.quality ≠ 5
      · have h4 : ¬ (m.rc_mode = 0 ∧ m.quality = 5) := by omega
        simp only [h3, if_true, h4, not_false_eq_true, true_and]
        simp only [decide_eq_true_eq, Bool.decide_or, Bool.or_eq_true]
        constructor
        · intro h
          split_ifs at h with h5
          · omega
        · intro h
          rw [if_pos]
          omega
      · have h4 : m.rc_mode = 0 ∧ m.quality = 5 := by omega
        simp [h3, h4]

/-- The rate-control check yields either success or the value error. -/
theorem rc_check_ok_or_err (m : MppEncRcCfg) :
    rc_check m = MPP_RET.MPP_OK ∨ rc_check m = MPP_RET.MPP_ERR_VALUE := by
  unfold rc_check
  simp only []
  split_ifs <;> simp

/-- Field by field, the record `rc_merge` yields: each group is the update's
when its bit is set and the prior one otherwise; the mask is not touched. -/
theorem rc_merge_fields (dst src : MppEncRcCfg) :
    (rc_merge dst src).change = dst.change ∧
    (rc_merge dst src).rc_mode = pick src.change MPP_ENC_RC_CFG_CHANGE_RC_MODE src.rc_mode dst.rc_mode ∧
    (rc_merge dst src).quality = pick src.change MPP_ENC_RC_CFG_CHANGE_QUALITY src.quality dst.quality ∧
    (rc_merge dst src).bps_target = pick src.change MPP_ENC_RC_CFG_CHANGE_BPS src.bps_target dst.bps_target ∧
    (rc_merge dst src).bps_max = pick src.change MPP_ENC_RC_CFG_CHANGE_BPS src.bps_max dst.bps_max ∧
    (rc_merge dst src).bps_min = pick src.change MPP_ENC_RC_CFG_CHANGE_BPS src.bps_min dst.bps_min ∧
    (rc_merge dst src).fps_in_flex = pick src.change MPP_ENC_RC_CFG_CHANGE_FPS_IN src.fps_in_flex dst.fps_in_flex ∧
    (rc_merge dst src).fps_in_num = pick src.change MPP_ENC_RC_CFG_CHANGE_FPS_IN src.fps_in_num dst.fps_in_num ∧
    (rc_merge dst src).fps_in_denorm = pick src.change MPP_ENC_RC_CFG_CHANGE_FPS_IN src.fps_in_denorm dst.fps_in_denorm ∧
    (rc_merge dst src).fps_out_flex = pick src.change MPP_ENC_RC_CFG_CHANGE_FPS_OUT src.fps_out_flex dst.fps_out_flex ∧
    (rc_merge dst src).fps_out_num = pick src.change MPP_ENC_RC_CFG_CHANGE_FPS_OUT src.fps_out_num dst.fps_out_num ∧
    (rc_merge dst src).fps_out_denorm = pick src.change MPP_ENC_RC_CFG_CHANGE_FPS_OUT src.fps_out_denorm dst.fps_out_denorm ∧
    (rc_merge dst src).gop = pick src.change MPP_ENC_RC_CFG_CHANGE_GOP src.gop dst.gop ∧
    (rc_merge dst src).skip_cnt = pick src.change MPP_ENC_RC_CFG_CHANGE_SKIP_CNT src.skip_cnt dst.skip_cnt := by
  unfold rc_merge pick
  simp only [apply_ite MppEncRcCfg.change, apply_ite MppEncRcCfg.rc_mode, apply_ite MppEncRcCfg.quality, apply_ite MppEncRcCfg.bps_target, apply_ite MppEncRcCfg.bps_max, apply_ite MppEncRcCfg.bps_min, apply_ite MppEncRcCfg.fps_in_flex, apply_ite MppEncRcCfg.fps_in_num, apply_ite MppEncRcCfg.fps_in_denorm, apply_ite MppEncRcCfg.fps_out_flex, apply_ite MppEncRcCfg.fps_out_num, apply_ite MppEncRcCfg.fps_out_denorm, apply_ite MppEncRcCfg.gop, apply_ite MppEncRcCfg.skip_cnt, ite_self]
  simp only [and_self]

/-- Field by field, the record `codec_merge` yields: each group is the update's
when its bit is set and the prior one otherwise; the mask accumulates. -/
theorem codec_merge_fields (dst src : MppEncH264Cfg) :
    (codec_merge dst src).change = dst.change ||| src.change ∧
    (codec_merge dst src).stream_type = pick src.change MPP_ENC_H264_CFG_STREAM_TYPE src.stream_type dst.stream_type ∧
    (codec_merge dst src).profile = pick src.change MPP_ENC_H264_CFG_CHANGE_PROFILE src.profile dst.profile ∧
    (codec_merge dst src).level = pick src.change MPP_ENC_H264_CFG_CHANGE_PROFILE src.level dst.level ∧
    (codec_merge dst src).entropy_coding_mode = pick src.change MPP_ENC_H264_CFG_CHANGE_ENTROPY src.entropy_coding_mode dst.entropy_coding_mode ∧
    (codec_merge dst src).cabac_init_idc = pick src.change MPP_ENC_H264_CFG_CHANGE_ENTROPY src.cabac_init_idc dst.cabac_init_idc ∧
    (codec_merge dst src).transform8x8_mode = pick src.change MPP_ENC_H264_CFG_CHANGE_TRANS_8x8 src.transform8x8_mode dst.transform8x8_mode ∧
    (codec_merge dst src).constrained_intra_pred_mode = pick src.change MPP_ENC_H264_CFG_CHANGE_CONST_INTRA src.constrained_intra_pred_mode dst.constrained_intra_pred_mode ∧
    (codec_merge dst src).chroma_cb_qp_offset = pick src.change MPP_ENC_H264_CFG_CHANGE_CHROMA_QP src.chroma_cb_qp_offset dst.chroma_cb_qp_offset ∧
    (codec_merge dst src).chroma_cr_qp_offset = pick src.change MPP_ENC_H264_CFG_CHANGE_CHROMA_QP src.chroma_cr_qp_offset dst.chroma_cr_qp_offset ∧
    (codec_merge dst src).deblock_disable = pick src.change MPP_ENC_H264_CFG_CHANGE_DEBLOCKING src.deblock_disable dst.deblock_disable ∧
    (codec_merge dst src).deblock_offset_alpha = pick src.change MPP_ENC_H264_CFG_CHANGE_DEBLOCKING src.deblock_offset_alpha dst.deblock_offset_alpha ∧
    (codec_merge dst src).deblock_offset_beta = pick src.change MPP_ENC_H264_CFG_CHANGE_DEBLOCKING src.deblock_offset_beta dst.deblock_offset_beta ∧
    (codec_merge dst src).use_longterm = pick src.change MPP_ENC_H264_CFG_CHANGE_LONG_TERM src.use_longterm dst.use_longterm ∧
    (codec_merge dst src).qp_init = pick src.change MPP_ENC_H264_CFG_CHANGE_QP_LIMIT src.qp_init dst.qp_init ∧
    (codec_merge dst src).qp_max = pick src.change MPP_ENC_H264_CFG_CHANGE_QP_LIMIT src.qp_max dst.qp_max ∧
    (codec_merge dst src).qp_min = pick src.change MPP_ENC_H264_CFG_CHANGE_QP_LIMIT src.qp_min dst.qp_min ∧
    (codec_merge dst src).qp_max_step = pick src.change MPP_ENC_H264_CFG_CHANGE_QP_LIMIT src.qp_max_step dst.qp_max_step ∧
    (codec_merge dst src).intra_refresh_mode = pick src.change MPP_ENC_H264_CFG_CHANGE_INTRA_REFRESH src.intra_refresh_mode dst.intra_refresh_mode ∧
    (codec_merge dst src).intra_refresh_arg = pick src.change MPP_ENC_H264_CFG_CHANGE_INTRA_REFRESH src.intra_refresh_arg dst.intra_refresh_arg ∧
    (codec_merge dst src).slice_mode = pick src.change MPP_ENC_H264_CFG_CHANGE_SLICE_MODE src.slice_mode dst.slice_mode ∧
    (codec_merge dst src).slice_arg = pick src.change MPP_ENC_H264_CFG_CHANGE_SLICE_MODE src.slice_arg dst.slice_arg ∧
    (codec_merge dst src).vui = pick src.change MPP_ENC_H264_CFG_CHANGE_VUI src.vui dst.vui ∧
    (codec_merge dst src).sei = pick src.change MPP_ENC_H264_CFG_CHANGE_SEI src.sei dst.sei := by
  unfold codec_merge pick
  simp only [apply_ite MppEncH264Cfg.change, apply_ite MppEncH264Cfg.stream_type, apply_ite MppEncH264Cfg.profile, apply_ite MppEncH264Cfg.level, apply_ite MppEncH264Cfg.entropy_coding_mode, apply_ite MppEncH264Cfg.cabac_init_idc, apply_ite MppEncH264Cfg.transform8x8_mode, apply_ite MppEncH264Cfg.constrained_intra_pred_mode, apply_ite MppEncH264Cfg.chroma_cb_qp_offset, apply_ite MppEncH264Cfg.chroma_cr_qp_offset, apply_ite MppEncH264Cfg.deblock_disable, apply_ite MppEncH264Cfg.deblock_offset_alpha, apply_ite MppEncH264Cfg.deblock_offset_beta, apply_ite MppEncH264Cfg.use_longterm, apply_ite MppEncH264Cfg.qp_init, apply_ite MppEncH264Cfg.qp_max, apply_ite MppEncH264Cfg.qp_min, apply_ite MppEncH264Cfg.qp_max_step, apply_ite MppEncH264Cfg.intra_refresh_mode, apply_ite MppEncH264Cfg.intra_refresh_arg, apply_ite MppEncH264Cfg.slice_mode, apply_ite MppEncH264Cfg.slice_arg, apply_ite MppEncH264Cfg.vui, apply_ite MppEncH264Cfg.sei, ite_self]
  simp only [and_self]

/-- Field by field, the record `prep_merge` yields.  The input geometry is
the update's when its bit is set, width and height swapped when the merged
rotation is 90 or 270 degrees. -/
theorem prep_merge_fields (dst src : MppEncPrepCfg) :
    (prep_merge dst src).change = dst.change ||| src.change ∧
    (prep_merge dst src).format = pick src.change MPP_ENC_PREP_CFG_CHANGE_FORMAT src.format dst.format ∧
    (prep_merge dst src).rotation = pick src.change MPP_ENC_PREP_CFG_CHANGE_ROTATION src.rotation dst.rotation ∧
    (prep_merge dst src).mirroring = pick src.change MPP_ENC_PREP_CFG_CHANGE_MIRRORING src.mirroring dst.mirroring ∧
    (prep_merge dst src).denoise = pick src.change MPP_ENC_PREP_CFG_CHANGE_DENOISE src.denoise dst.denoise ∧
    (prep_merge dst src).sharpen = pick src.change MPP_ENC_PREP_CFG_CHANGE_SHARPEN src.sharpen dst.sharpen ∧
    (prep_merge dst src).width = pick src.change MPP_ENC_PREP_CFG_CHANGE_INPUT
      (if rot_swaps (prep_merge dst src).rotation then src.height else src.width) dst.width ∧
    (prep_merge dst src).height = pick src.change MPP_ENC_PREP_CFG_CHANGE_INPUT
      (if rot_swaps (prep_merge dst src).rotation then src.width else src.height) dst.height ∧
    (prep_merge dst src).hor_stride =
      pick src.change MPP_ENC_PREP_CFG_CHANGE_INPUT src.hor_stride dst.hor_stride ∧
    (prep_merge dst src).ver_stride =
      pick src.change MPP_ENC_PREP_CFG_CHANGE_INPUT src.ver_stride dst.ver_stride := by
  unfold prep_merge pick rot_swaps
  simp only [apply_ite MppEncPrepCfg.change, apply_ite MppEncPrepCfg.width, apply_ite MppEncPrepCfg.height, apply_ite MppEncPrepCfg.hor_stride, apply_ite MppEncPrepCfg.ver_stride, apply_ite MppEncPrepCfg.format, apply_ite MppEncPrepCfg.rotation, apply_ite MppEncPrepCfg.mirroring, apply_ite MppEncPrepCfg.denoise, apply_ite MppEncPrepCfg.sharpen, ite_self]
  simp only [and_self, true_and]

/-- C2 (amended): a rate-control update with a non-empty bitmask is rejected
with the value error if and only if, in the merged record, the mode is not a
recognized mode, or the quality tier is outside the recognized range, or the
record is not variable-bitrate with constant quantizer and one of target, max,
min bitrate is at most 1024 (`SZ_1K`) or at least 104857600 (`100 * SZ_1M`);
otherwise it is accepted.  The merged mode, quality and bitrates are the
update's where the mask names them and the stored ones elsewhere. -/
theorem rc_update_rejected_iff (p : H264eCtx) (src : MppEncRcCfg) (h : src.change ≠ 0) :
    ((h264e_proc_cfg p (MpiCmd.MPP_ENC_SET_RC_CFG src)).1 = MPP_RET.MPP_ERR_VALUE ↔
      rc_rejected_for 1024 104857600 (rc_merge p.cfg.rc src)) ∧
    (¬ rc_rejected_for 1024 104857600 (rc_merge p.cfg.rc src) →
      (h264e_proc_cfg p (MpiCmd.MPP_ENC_SET_RC_CFG src)).1 = MPP_RET.MPP_OK) ∧
    ((rc_merge p.cfg.rc src).rc_mode = pick src.change MPP_ENC_RC_CFG_CHANGE_RC_MODE src.rc_mode p.cfg.rc.rc_mode ∧
      (rc_merge p.cfg.rc src).quality = pick src.change MPP_ENC_RC_CFG_CHANGE_QUALITY src.quality p.cfg.rc.quality ∧
      (rc_merge p.cfg.rc src).bps_target = pick src.change MPP_ENC_RC_CFG_CHANGE_BPS src.bps_target p.cfg.rc.bps_target ∧
      (rc_merge p.cfg.rc src).bps_max = pick src.change MPP_ENC_RC_CFG_CHANGE_BPS src.bps_max p.cfg.rc.bps_max ∧
      (rc_merge p.cfg.rc src).bps_min = pick src.change MPP_ENC_RC_CFG_CHANGE_BPS src.bps_min p.cfg.rc.bps_min) := by
  have hf := rc_merge_fields p.cfg.rc src
  refine ⟨?_, ?_, hf.2.1, hf.2.2.1, hf.2.2.2.1, hf.2.2.2.2.1, hf.2.2.2.2.2.1⟩
  · rw [proc_cfg_rc_ret p src h, ← rc_check_err_iff]
    split_ifs with h1
    · exact Iff.rfl
    · rw [not_not] at h1
      simp [h1]
  · intro hn
    rw [← rc_check_err_iff] at hn
    rw [proc_cfg_rc_ret p src h]
    split_ifs with h1
    · rcases rc_check_ok_or_err (rc_merge p.cfg.rc src) with h2 | h2
      · exact absurd h2 h1
      · exact absurd h2 hn
    · rfl

/-- Instance of C2 (amended): on the initialised sample context a bitrate
update with a 500 bit/s target is rejected. -/
theorem rc_update_rejected_iff_witness :
    (h264e_proc_cfg sample_ctx (MpiCmd.MPP_ENC_SET_RC_CFG
        (rc_bps_update 500 500 500))).1 = MPP_RET.MPP_ERR_VALUE :=
  (rc_update_rejected_iff sample_ctx
    (rc_bps_update 500 500 500) (by decide)).1.mpr (by decide)

/-- C2 fails with the decimal limits 1000 and 100000000: on the initialised
sample context (mode CBR, quality medium) a bitrate update with target 1010,
max 1020 and min 1005 bit/s is rejected with the value error although every
bitrate lies strictly between 1000 and 100000000; and an update with target,
max and min 100000000 is accepted although the claim rejects it. -/
theorem rc_update_decimal_bounds_counterexample :
    ((h264e_proc_cfg sample_ctx (MpiCmd.MPP_ENC_SET_RC_CFG
        (rc_bps_update 1010 1020 1005))).1 = MPP_RET.MPP_ERR_VALUE ∧
      ¬ rc_rejected_for 1000 100000000 (rc_merge sample_ctx.cfg.rc
        (rc_bps_update 1010 1020 1005))) ∧
    ((h264e_proc_cfg sample_ctx (MpiCmd.MPP_ENC_SET_RC_CFG
        (rc_bps_update 100000000 100000000 100000000))).1 = MPP_RET.MPP_OK ∧
      rc_rejected_for 1000 100000000 (rc_merge sample_ctx.cfg.rc
        (rc_bps_update 100000000 100000000 100000000))) := by
  decide

/-- C3: a picture-prep update with a non-empty bitmask is rejected with the
value error if and only if, after merging, the width exceeds the horizontal
stride or the height exceeds the vertical stride; otherwise it is accepted and
the merged record is stored.  For an update naming the input geometry the
merged width and height are the update's, swapped when the merged rotation is
90 or 270 degrees, and the merged strides are the update's. -/
theorem prep_update_rejected_iff (p : H264eCtx) (src : MppEncPrepCfg) (h : src.change ≠ 0) :
    ((h264e_proc_cfg p (MpiCmd.MPP_ENC_SET_PREP_CFG src)).1 = MPP_RET.MPP_ERR_VALUE ↔
      (prep_merge p.cfg.prep src).width > (prep_merge p.cfg.prep src).hor_stride ∨
      (prep_merge p.cfg.prep src).height > (prep_merge p.cfg.prep src).ver_stride) ∧
    ((h264e_proc_cfg p (MpiCmd.MPP_ENC_SET_PREP_CFG src)).1 ≠ MPP_RET.MPP_ERR_VALUE →
      (h264e_proc_cfg p (MpiCmd.MPP_ENC_SET_PREP_CFG src)).1 = MPP_RET.MPP_OK ∧
      (h264e_proc_cfg p (MpiCmd.MPP_ENC_SET_PREP_CFG src)).2.cfg.prep = prep_merge p.cfg.prep src) ∧
    ((prep_merge p.cfg.prep src).rotation =
      pick src.change MPP_ENC_PREP_CFG_CHANGE_ROTATION src.rotation p.cfg.prep.rotation) ∧
    (src.change &&& MPP_ENC_PREP_CFG_CHANGE_INPUT ≠ 0 →
      (prep_merge p.cfg.prep src).width =
        (if rot_swaps (prep_merge p.cfg.prep src).rotation then src.height else src.width) ∧
      (prep_merge p.cfg.prep src).height =
        (if rot_swaps (prep_merge p.cfg.prep src).rotation then src.width else src.height) ∧
      (prep_merge p.cfg.prep src).hor_stride = src.hor_stride ∧
      (prep_merge p.cfg.prep src).ver_stride = src.ver_stride) := by
  have hf := prep_merge_fields p.cfg.prep src
  refine ⟨?_, ?_, hf.2.2.1, ?_⟩
  · rw [proc_cfg_prep_ret p src h]
    unfold prep_check
    by_cases h1 : (prep_merge p.cfg.prep src).width > (prep_merge p.cfg.prep src).hor_stride ∨
        (prep_merge p.cfg.prep src).height > (prep_merge p.cfg.prep src).ver_stride
    · simp [h1]
    · simp [h1]
  · rw [proc_cfg_prep_ret p src h]
    unfold prep_check
    by_cases h1 : (prep_merge p.cfg.prep src).width > (prep_merge p.cfg.prep src).hor_stride ∨
        (prep_merge p.cfg.prep src).height > (prep_merge p.cfg.prep src).ver_stride
    · simp [h1]
    · simp [h1]
  · intro hin
    obtain ⟨_, _, _, _, _, _, hw, hh, hhs, hvs⟩ := hf
    simp only [pick, hin, if_true, ne_eq, not_false_eq_true] at hw hh hhs hvs
    exact ⟨hw, hh, hhs, hvs⟩

/-- Instance of C3: on the initialised sample context an input-geometry update
of 1920x1080 with strides 1280x1080 is rejected. -/
theorem prep_update_rejected_iff_witness :
    (h264e_proc_cfg sample_ctx (MpiCmd.MPP_ENC_SET_PREP_CFG
        (prep_input_update 1920 1080 1280 1080))).1
      = MPP_RET.MPP_ERR_VALUE :=
  (prep_update_rejected_iff sample_ctx
    (prep_input_update 1920 1080 1280 1080)
    (by decide)).1.mpr (by decide)

/-- C4 (amended): for a picture-prep update whose bitmask names rotation and
input geometry, with rotation 90 degrees, width 1280 and height 720: when the
update's horizontal stride is at least 720 and its vertical stride at least
1280, the update is accepted, the stored width is 720, the stored height 1280
and the stored strides are the update's; with a smaller stride the update is
rejected with the value error and the context is what it was. -/
theorem prep_rotation_swap (p : H264eCtx) (src : MppEncPrepCfg)
    (hrot : src.change &&& MPP_ENC_PREP_CFG_CHANGE_ROTATION ≠ 0)
    (hin : src.change &&& MPP_ENC_PREP_CFG_CHANGE_INPUT ≠ 0)
    (h90 : src.rotation = MPP_ENC_ROT_90) (hw : src.width = 1280) (hh : src.height = 720) :
    (720 ≤ src.hor_stride ∧ 1280 ≤ src.ver_stride →
      (h264e_proc_cfg p (MpiCmd.MPP_ENC_SET_PREP_CFG src)).1 = MPP_RET.MPP_OK ∧
      (h264e_proc_cfg p (MpiCmd.MPP_ENC_SET_PREP_CFG src)).2.cfg.prep.width = 720 ∧
      (h264e_proc_cfg p (MpiCmd.MPP_ENC_SET_PREP_CFG src)).2.cfg.prep.height = 1280 ∧
      (h264e_proc_cfg p (MpiCmd.MPP_ENC_SET_PREP_CFG src)).2.cfg.prep.hor_stride = src.hor_stride ∧
      (h264e_proc_cfg p (MpiCmd.MPP_ENC_SET_PREP_CFG src)).2.cfg.prep.ver_stride = src.ver_stride) ∧
    (¬ (720 ≤ src.hor_stride ∧ 1280 ≤ src.ver_stride) →
      (h264e_proc_cfg p (MpiCmd.MPP_ENC_SET_PREP_CFG src)).1 = MPP_RET.MPP_ERR_VALUE ∧
      (h264e_proc_cfg p (MpiCmd.MPP_ENC_SET_PREP_CFG src)).2 = p) := by
  have hc : src.change ≠ 0 := by
    intro h0
    rw [h0] at hin
    exact hin (Nat.zero_and _)
  obtain ⟨_, _, hr, _, _, _, hmw, hmh, hhs, hvs⟩ := prep_merge_fields p.cfg.prep src
  simp only [pick, hin, hrot, if_true, ne_eq, not_false_eq_true] at hr hmw hmh hhs hvs
  have hsw : rot_swaps (prep_merge p.cfg.prep src).rotation := by
    rw [hr, h90]
    exact Or.inl rfl
  rw [if_pos hsw] at hmw hmh
  rw [hh] at hmw
  rw [hw] at hmh
  rw [proc_cfg_prep_ret p src hc]
  unfold prep_check
  rw [hmw, hmh, hhs, hvs]
  constructor
  · intro hs
    have h1 : ¬ ((720 : Int) > src.hor_stride ∨ (1280 : Int) > src.ver_stride) := by omega
    simp only [h1, if_false, ne_eq, not_true_eq_false, true_and]
    exact ⟨hmw, hmh, hhs, hvs⟩
  · intro hs
    have h1 : (720 : Int) > src.hor_stride ∨ (1280 : Int) > src.ver_stride := by omega
    simp [h1]

/-- Instance of C4 (amended): on the initialised sample context the rotated
1280x720 update with strides 720x1280 is accepted and stored as 720x1280. -/
theorem prep_rotation_swap_witness :
    (h264e_proc_cfg sample_ctx (MpiCmd.MPP_ENC_SET_PREP_CFG
      (prep_rot90_update 720 1280))).2.cfg.prep.width = 720 :=
  ((prep_rotation_swap sample_ctx
      (prep_rot90_update 720 1280)
      (by decide) (by decide) rfl rfl rfl).1 (by decide)).2.1

/-- C4 fails for strides that do not cover the swapped picture: on the
initialised sample context (1280x720, strides 1280x720) the update with
rotation 90 degrees, width 1280, height 720 and strides 1280x720 is rejected
with the value error, and the stored width and height stay 1280 and 720. -/
theorem prep_rotation_swap_counterexample :
    (h264e_proc_cfg sample_ctx (MpiCmd.MPP_ENC_SET_PREP_CFG
      (prep_rot90_update 1280 720))).1 = MPP_RET.MPP_ERR_VALUE ∧
    (h264e_proc_cfg sample_ctx (MpiCmd.MPP_ENC_SET_PREP_CFG
      (prep_rot90_update 1280 720))).2.cfg.prep.width = 1280 ∧
    (h264e_proc_cfg sample_ctx (MpiCmd.MPP_ENC_SET_PREP_CFG
      (prep_rot90_update 1280 720))).2.cfg.prep.height = 720 ∧
    ¬ ((h264e_proc_cfg sample_ctx (MpiCmd.MPP_ENC_SET_PREP_CFG
      (prep_rot90_update 1280 720))).2.cfg.prep.width = 720 ∧
      (h264e_proc_cfg sample_ctx (MpiCmd.MPP_ENC_SET_PREP_CFG
      (prep_rot90_update 1280 720))).2.cfg.prep.height = 1280) := by
  decide

/-- A mask without bits picks the prior value. -/
theorem pick_zero {α : Type} (flag : Nat) (new old : α) : pick 0 flag new old = old := by
  simp [pick]

/-- C5: for every accepted update of the picture-prep, rate-control or codec
category, every field group whose bit is set in the update's bitmask ends up
equal to the update's value (for the picture-prep input geometry, width and
height swapped when the merged rotation is 90 or 270 degrees), every field
whose bit is unset keeps its prior value, and the other categories and the IDR
request counter are unchanged. -/
theorem accepted_update_effect (p : H264eCtx) :
    (∀ src : MppEncPrepCfg, (h264e_proc_cfg p (MpiCmd.MPP_ENC_SET_PREP_CFG src)).1 = MPP_RET.MPP_OK →
      (h264e_proc_cfg p (MpiCmd.MPP_ENC_SET_PREP_CFG src)).2.cfg.prep.format = pick src.change MPP_ENC_PREP_CFG_CHANGE_FORMAT src.format p.cfg.prep.format ∧
      (h264e_proc_cfg p (MpiCmd.MPP_ENC_SET_PREP_CFG src)).2.cfg.prep.rotation = pick src.change MPP_ENC_PREP_CFG_CHANGE_ROTATION src.rotation p.cfg.prep.rotation ∧
      (h264e_proc_cfg p (MpiCmd.MPP_ENC_SET_PREP_CFG src)).2.cfg.prep.mirroring = pick src.change MPP_ENC_PREP_CFG_CHANGE_MIRRORING src.mirroring p.cfg.prep.mirroring ∧
      (h264e_proc_cfg p (MpiCmd.MPP_ENC_SET_PREP_CFG src)).2.cfg.prep.denoise = pick src.change MPP_ENC_PREP_CFG_CHANGE_DENOISE src.denoise p.cfg.prep.denoise ∧
      (h264e_proc_cfg p (MpiCmd.MPP_ENC_SET_PREP_CFG src)).2.cfg.prep.sharpen = pick src.change MPP_ENC_PREP_CFG_CHANGE_SHARPEN src.sharpen p.cfg.prep.sharpen ∧
      (h264e_proc_cfg p (MpiCmd.MPP_ENC_SET_PREP_CFG src)).2.cfg.prep.width = pick src.change MPP_ENC_PREP_CFG_CHANGE_INPUT
        (if rot_swaps (h264e_proc_cfg p (MpiCmd.MPP_ENC_SET_PREP_CFG src)).2.cfg.prep.rotation
          then src.height else src.width) p.cfg.prep.width ∧
      (h264e_proc_cfg p (MpiCmd.MPP_ENC_SET_PREP_CFG src)).2.cfg.prep.height = pick src.change MPP_ENC_PREP_CFG_CHANGE_INPUT
        (if rot_swaps (h264e_proc_cfg p (MpiCmd.MPP_ENC_SET_PREP_CFG src)).2.cfg.prep.rotation
          then src.width else src.height) p.cfg.prep.height ∧
      (h264e_proc_cfg p (MpiCmd.MPP_ENC_SET_PREP_CFG src)).2.cfg.prep.hor_stride =
        pick src.change MPP_ENC_PREP_CFG_CHANGE_INPUT src.hor_stride p.cfg.prep.hor_stride ∧
      (h264e_proc_cfg p (MpiCmd.MPP_ENC_SET_PREP_CFG src)).2.cfg.prep.ver_stride =
        pick src.change MPP_ENC_PREP_CFG_CHANGE_INPUT src.ver_stride p.cfg.prep.ver_stride ∧
      (h264e_proc_cfg p (MpiCmd.MPP_ENC_SET_PREP_CFG src)).2.cfg.rc = p.cfg.rc ∧
      (h264e_proc_cfg p (MpiCmd.MPP_ENC_SET_PREP_CFG src)).2.cfg.codec = p.cfg.codec ∧
      (h264e_proc_cfg p (MpiCmd.MPP_ENC_SET_PREP_CFG src)).2.cfg.gop_ref = p.cfg.gop_ref ∧
      (h264e_proc_cfg p (MpiCmd.MPP_ENC_SET_PREP_CFG src)).2.idr_request = p.idr_request) ∧
    (∀ src : MppEncRcCfg, (h264e_proc_cfg p (MpiCmd.MPP_ENC_SET_RC_CFG src)).1 = MPP_RET.MPP_OK →
      (h264e_proc_cfg p (MpiCmd.MPP_ENC_SET_RC_CFG src)).2.cfg.rc.rc_mode = pick src.change MPP_ENC_RC_CFG_CHANGE_RC_MODE src.rc_mode p.cfg.rc.rc_mode ∧
      (h264e_proc_cfg p (MpiCmd.MPP_ENC_SET_RC_CFG src)).2.cfg.rc.quality = pick src.change MPP_ENC_RC_CFG_CHANGE_QUALITY src.quality p.cfg.rc.quality ∧
      (h264e_proc_cfg p (MpiCmd.MPP_ENC_SET_RC_CFG src)).2.cfg.rc.bps_target = pick src.change MPP_ENC_RC_CFG_CHANGE_BPS src.bps_target p.cfg.rc.bps_target ∧
      (h264e_proc_cfg p (MpiCmd.MPP_ENC_SET_RC_CFG src)).2.cfg.rc.bps_max = pick src.change MPP_ENC_RC_CFG_CHANGE_BPS src.bps_max p.cfg.rc.bps_max ∧
      (h264e_proc_cfg p (MpiCmd.MPP_ENC_SET_RC_CFG src)).2.cfg.rc.bps_min = pick src.change MPP_ENC_RC_CFG_CHANGE_BPS src.bps_min p.cfg.rc.bps_min ∧
      (h264e_proc_cfg p (MpiCmd.MPP_ENC_SET_RC_CFG src)).2.cfg.rc.fps_in_flex = pick src.change MPP_ENC_RC_CFG_CHANGE_FPS_IN src.fps_in_flex p.cfg.rc.fps_in_flex ∧
      (h264e_proc_cfg p (MpiCmd.MPP_ENC_SET_RC_CFG src)).2.cfg.rc.fps_in_num = pick src.change MPP_ENC_RC_CFG_CHANGE_FPS_IN src.fps_in_num p.cfg.rc.fps_in_num ∧
      (h264e_proc_cfg p (MpiCmd.MPP_ENC_SET_RC_CFG src)).2.cfg.rc.fps_in_denorm = pick src.change MPP_ENC_RC_CFG_CHANGE_FPS_IN src.fps_in_denorm p.cfg.rc.fps_in_denorm ∧
      (h264e_proc_cfg p (MpiCmd.MPP_ENC_SET_RC_CFG src)).2.cfg.rc.fps_out_flex = pick src.change MPP_ENC_RC_CFG_CHANGE_FPS_OUT src.fps_out_flex p.cfg.rc.fps_out_flex ∧
      (h264e_proc_cfg p (MpiCmd.MPP_ENC_SET_RC_CFG src)).2.cfg.rc.fps_out_num = pick src.change MPP_ENC_RC_CFG_CHANGE_FPS_OUT src.fps_out_num p.cfg.rc.fps_out_num ∧
      (h264e_proc_cfg p (MpiCmd.MPP_ENC_SET_RC_CFG src)).2.cfg.rc.fps_out_denorm = pick src.change MPP_ENC_RC_CFG_CHANGE_FPS_OUT src.fps_out_denorm p.cfg.rc.fps_out_denorm ∧
      (h264e_proc_cfg p (MpiCmd.MPP_ENC_SET_RC_CFG src)).2.cfg.rc.gop = pick src.change MPP_ENC_RC_CFG_CHANGE_GOP src.gop p.cfg.rc.gop ∧
      (h264e_proc_cfg p (MpiCmd.MPP_ENC_SET_RC_CFG src)).2.cfg.rc.skip_cnt = pick src.change MPP_ENC_RC_CFG_CHANGE_SKIP_CNT src.skip_cnt p.cfg.rc.skip_cnt ∧
      (h264e_proc_cfg p (MpiCmd.MPP_ENC_SET_RC_CFG src)).2.cfg.prep = p.cfg.prep ∧
      (h264e_proc_cfg p (MpiCmd.MPP_ENC_SET_RC_CFG src)).2.cfg.codec = p.cfg.codec ∧
      (h264e_proc_cfg p (MpiCmd.MPP_ENC_SET_RC_CFG src)).2.cfg.gop_ref = p.cfg.gop_ref ∧
      (h264e_proc_cfg p (MpiCmd.MPP_ENC_SET_RC_CFG src)).2.idr_request = p.idr_request) ∧
    (∀ src : MppEncH264Cfg, (h264e_proc_cfg p (MpiCmd.MPP_ENC_SET_CODEC_CFG src)).1 = MPP_RET.MPP_OK ∧
      (h264e_proc_cfg p (MpiCmd.MPP_ENC_SET_CODEC_CFG src)).2.cfg.codec.stream_type = pick src.change MPP_ENC_H264_CFG_STREAM_TYPE src.stream_type p.cfg.codec.stream_type ∧
      (h264e_proc_cfg p (MpiCmd.MPP_ENC_SET_CODEC_CFG src)).2.cfg.codec.profile = pick src.change MPP_ENC_H264_CFG_CHANGE_PROFILE src.profile p.cfg.codec.profile ∧
      (h264e_proc_cfg p (MpiCmd.MPP_ENC_SET_CODEC_CFG src)).2.cfg.codec.level = pick src.change MPP_ENC_H264_CFG_CHANGE_PROFILE src.level p.cfg.codec.level ∧
      (h264e_proc_cfg p (MpiCmd.MPP_ENC_SET_CODEC_CFG src)).2.cfg.codec.entropy_coding_mode = pick src.change MPP_ENC_H264_CFG_CHANGE_ENTROPY src.entropy_coding_mode p.cfg.codec.entropy_coding_mode ∧
      (h264e_proc_cfg p (MpiCmd.MPP_ENC_SET_CODEC_CFG src)).2.cfg.codec.cabac_init_idc = pick src.change MPP_ENC_H264_CFG_CHANGE_ENTROPY src.cabac_init_idc p.cfg.codec.cabac_init_idc ∧
      (h264e_proc_cfg p (MpiCmd.MPP_ENC_SET_CODEC_CFG src)).2.cfg.codec.transform8x8_mode = pick src.change MPP_ENC_H264_CFG_CHANGE_TRANS_8x8 src.transform8x8_mode p.cfg.codec.transform8x8_mode ∧
      (h264e_proc_cfg p (MpiCmd.MPP_ENC_SET_CODEC_CFG src)).2.cfg.codec.constrained_intra_pred_mode = pick src.change MPP_ENC_H264_CFG_CHANGE_CONST_INTRA src.constrained_intra_pred_mode p.cfg.codec.constrained_intra_pred_mode ∧
      (h264e_proc_cfg p (MpiCmd.MPP_ENC_SET_CODEC_CFG src)).2.cfg.codec.chroma_cb_qp_offset = pick src.change MPP_ENC_H264_CFG_CHANGE_CHROMA_QP src.chroma_cb_qp_offset p.cfg.codec.chroma_cb_qp_offset ∧
      (h264e_proc_cfg p (MpiCmd.MPP_ENC_SET_CODEC_CFG src)).2.cfg.codec.chroma_cr_qp_offset = pick src.change MPP_ENC_H264_CFG_CHANGE_CHROMA_QP src.chroma_cr_qp_offset p.cfg.codec.chroma_cr_qp_offset ∧
      (h264e_proc_cfg p (MpiCmd.MPP_ENC_SET_CODEC_CFG src)).2.cfg.codec.deblock_disable = pick src.change MPP_ENC_H264_CFG_CHANGE_DEBLOCKING src.deblock_disable p.cfg.codec.deblock_disable ∧
      (h264e_proc_cfg p (MpiCmd.MPP_ENC_SET_CODEC_CFG src)).2.cfg.codec.deblock_offset_alpha = pick src.change MPP_ENC_H264_CFG_CHANGE_DEBLOCKING src.deblock_offset_alpha p.cfg.codec.deblock_offset_alpha ∧
      (h264e_proc_cfg p (MpiCmd.MPP_ENC_SET_CODEC_CFG src)).2.cfg.codec.deblock_offset_beta = pick src.change MPP_ENC_H264_CFG_CHANGE_DEBLOCKING src.deblock_offset_beta p.cfg.codec.deblock_offset_beta ∧
      (h264e_proc_cfg p (MpiCmd.MPP_ENC_SET_CODEC_CFG src)).2.cfg.codec.use_longterm = pick src.change MPP_ENC_H264_CFG_CHANGE_LONG_TERM src.use_longterm p.cfg.codec.use_longterm ∧
      (h264e_proc_cfg p (MpiCmd.MPP_ENC_SET_CODEC_CFG src)).2.cfg.codec.qp_init = pick src.change MPP_ENC_H264_CFG_CHANGE_QP_LIMIT src.qp_init p.cfg.codec.qp_init ∧
      (h264e_proc_cfg p (MpiCmd.MPP_ENC_SET_CODEC_CFG src)).2.cfg.codec.qp_max = pick src.change MPP_ENC_H264_CFG_CHANGE_QP_LIMIT src.qp_max p.cfg.codec.qp_max ∧
      (h264e_proc_cfg p (MpiCmd.MPP_ENC_SET_CODEC_CFG src)).2.cfg.codec.qp_min = pick src.change MPP_ENC_H264_CFG_CHANGE_QP_LIMIT src.qp_min p.cfg.codec.qp_min ∧
      (h264e_proc_cfg p (MpiCmd.MPP_ENC_SET_CODEC_CFG src)).2.cfg.codec.qp_max_step = pick src.change MPP_ENC_H264_CFG_CHANGE_QP_LIMIT src.qp_max_step p.cfg.codec.qp_max_step ∧
      (h264e_proc_cfg p (MpiCmd.MPP_ENC_SET_CODEC_CFG src)).2.cfg.codec.intra_refresh_mode = pick src.change MPP_ENC_H264_CFG_CHANGE_INTRA_REFRESH src.intra_refresh_mode p.cfg.codec.intra_refresh_mode ∧
      (h264e_proc_cfg p (MpiCmd.MPP_ENC_SET_CODEC_CFG src)).2.cfg.codec.intra_refresh_arg = pick src.change MPP_ENC_H264_CFG_CHANGE_INTRA_REFRESH src.intra_refresh_arg p.cfg.codec.intra_refresh_arg ∧
      (h264e_proc_cfg p (MpiCmd.MPP_ENC_SET_CODEC_CFG src)).2.cfg.codec.slice_mode = pick src.change MPP_ENC_H264_CFG_CHANGE_SLICE_MODE src.slice_mode p.cfg.codec.slice_mode ∧
      (h264e_proc_cfg p (MpiCmd.MPP_ENC_SET_CODEC_CFG src)).2.cfg.codec.slice_arg = pick src.change MPP_ENC_H264_CFG_CHANGE_SLICE_MODE src.slice_arg p.cfg.codec.slice_arg ∧
      (h264e_proc_cfg p (MpiCmd.MPP_ENC_SET_CODEC_CFG src)).2.cfg.codec.vui = pick src.change MPP_ENC_H264_CFG_CHANGE_VUI src.vui p.cfg.codec.vui ∧
      (h264e_proc_cfg p (MpiCmd.MPP_ENC_SET_CODEC_CFG src)).2.cfg.codec.sei = pick src.change MPP_ENC_H264_CFG_CHANGE_SEI src.sei p.cfg.codec.sei ∧
      (h264e_proc_cfg p (MpiCmd.MPP_ENC_SET_CODEC_CFG src)).2.cfg.prep = p.cfg.prep ∧
      (h264e_proc_cfg p (MpiCmd.MPP_ENC_SET_CODEC_CFG src)).2.cfg.rc = p.cfg.rc ∧
      (h264e_proc_cfg p (MpiCmd.MPP_ENC_SET_CODEC_CFG src)).2.cfg.gop_ref = p.cfg.gop_ref ∧
      (h264e_proc_cfg p (MpiCmd.MPP_ENC_SET_CODEC_CFG src)).2.idr_request = p.idr_request) := by
  refine ⟨?_, ?_, ?_⟩
  · intro src hok
    by_cases hc : src.change = 0
    · simp [h264e_proc_cfg, hc, pick_zero]
    · rw [proc_cfg_prep_ret p src hc] at hok ⊢
      by_cases h1 : prep_check (prep_merge p.cfg.prep src) ≠ MPP_RET.MPP_OK
      · rw [if_pos h1] at hok
        exact absurd hok h1
      · rw [if_neg h1]
        obtain ⟨_, h⟩ := prep_merge_fields p.cfg.prep src
        simpa using h
  · intro src hok
    by_cases hc : src.change = 0
    · simp [h264e_proc_cfg, hc, pick_zero]
    · rw [proc_cfg_rc_ret p src hc] at hok ⊢
      by_cases h1 : rc_check (rc_merge p.cfg.rc src) ≠ MPP_RET.MPP_OK
      · rw [if_pos h1] at hok
        exact absurd hok h1
      · rw [if_neg h1]
        obtain ⟨_, h⟩ := rc_merge_fields p.cfg.rc src
        simpa using h
  · intro src
    obtain ⟨_, h⟩ := codec_merge_fields p.cfg.codec src
    simpa [h264e_proc_cfg] using h

/-- Instance of C5: on the initialised sample context a rate-control update
naming only the group length is accepted, stores the new group length and
keeps the stored target bitrate. -/
theorem accepted_update_effect_witness :
    (h264e_proc_cfg sample_ctx (MpiCmd.MPP_ENC_SET_RC_CFG
      (rc_gop_update 25))).2.cfg.rc.gop = 25 ∧
    (h264e_proc_cfg sample_ctx (MpiCmd.MPP_ENC_SET_RC_CFG
      (rc_gop_update 25))).2.cfg.rc.bps_target
      = 2000000 :=
  have h := (accepted_update_effect sample_ctx).2.1
    (rc_gop_update 25) (by decide)
  ⟨h.2.2.2.2.2.2.2.2.2.2.2.1.trans (by decide), h.2.2.1.trans (by decide)⟩

/-! ## Frame conditions of the stages -/

/-- ConfigReconcile writes the rate-control handle only. -/
theorem start_reconcile_frame (C : Collab) (p : H264eCtx) :
    (start_reconcile C p).cfg = p.cfg ∧
    (start_reconcile C p).idr_request = p.idr_request := by
  unfold start_reconcile
  simp only []
  split_ifs <;> exact ⟨rfl, rfl⟩

/-- The function `h264e_start` changes neither the configuration set nor the
IDR request counter. -/
theorem h264e_start_frame (C : Collab) (p : H264eCtx) (task : HalEncTask) :
    (h264e_start C p task).2.1.cfg = p.cfg ∧
    (h264e_start C p task).2.1.idr_request = p.idr_request := by
  have h := start_reconcile_frame C p
  exact ⟨h.1, h.2⟩

/-- Serving the IDR counter leaves the configuration set as it is, lowers a
non-zero counter by one and hands forced-IDR exactly for a non-zero counter. -/
theorem proc_dpb_frm_cfg_spec (p : H264eCtx) (task : HalEncTask) :
    (proc_dpb_frm_cfg p task).2.cfg = p.cfg ∧
    (proc_dpb_frm_cfg p task).2.idr_request = p.idr_request - 1 ∧
    (proc_dpb_frm_cfg p task).1.force_idr = (if p.idr_request ≠ 0 then 1 else 0) ∧
    (proc_dpb_frm_cfg p task).1.force_pskip = 0 := by
  unfold proc_dpb_frm_cfg
  by_cases h : p.idr_request = 0
  · simp [h]
  · simp [h]

/-- The function `h264e_proc_dpb` leaves the configuration set as it is and
lowers a non-zero IDR counter by one. -/
theorem h264e_proc_dpb_frame (C : Collab) (p : H264eCtx) (task : HalEncTask) :
    (h264e_proc_dpb C p task).2.cfg = p.cfg ∧
    (h264e_proc_dpb C p task).2.idr_request = p.idr_request - 1 := by
  have h := proc_dpb_frm_cfg_spec p task
  exact ⟨h.1, h.2.1⟩

/-- The function `h264e_proc_rc` clears the rate-control and reference-topology
masks and leaves the rest of the configuration and the IDR counter. -/
theorem h264e_proc_rc_frame (C : Collab) (p : H264eCtx) (task : HalEncTask) :
    (h264e_proc_rc C p task).2.cfg.rc = { p.cfg.rc with change := 0 } ∧
    (h264e_proc_rc C p task).2.cfg.gop_ref = { p.cfg.gop_ref with change := 0 } ∧
    (h264e_proc_rc C p task).2.cfg.prep = p.cfg.prep ∧
    (h264e_proc_rc C p task).2.cfg.codec = p.cfg.codec ∧
    (h264e_proc_rc C p task).2.idr_request = p.idr_request :=
  ⟨rfl, rfl, rfl, rfl, rfl⟩

/-- Adding a descriptor does not change the configuration set. -/
theorem add_desc_cfg (ctx : H264eCtx) (type : H264eSyntaxType) (ref : SynRef) :
    ( h264e_add_syntax ctx type ref).cfg = ctx.cfg :=
  rfl

/-- Adding a descriptor does not change the IDR request counter. -/
theorem add_desc_idr_request (ctx : H264eCtx) (type : H264eSyntaxType) (ref : SynRef) :
    ( h264e_add_syntax ctx type ref).idr_request = ctx.idr_request :=
  rfl

/-- The function `h264e_proc_hal` changes neither the configuration set nor the
IDR request counter. -/
theorem h264e_proc_hal_frame (p : H264eCtx) (task : HalEncTask) :
    (h264e_proc_hal p task).2.1.cfg = p.cfg ∧
    (h264e_proc_hal p task).2.1.idr_request = p.idr_request := by
  unfold h264e_proc_hal
  simp only [add_desc_cfg, add_desc_idr_request, and_self]

/-- The function `h264e_gen_hdr` does not change the configuration set. -/
theorem h264e_gen_hdr_frame (C : Collab) (p : H264eCtx) (pkt : Option MppPacketImpl) :
    (h264e_gen_hdr C p pkt).2.1.cfg = p.cfg := by
  unfold h264e_gen_hdr
  cases pkt <;> rfl

/-- The function `h264e_deinit` does not change the configuration set. -/
theorem h264e_deinit_frame (p : H264eCtx) : (h264e_deinit p).2.cfg = p.cfg := by
  unfold h264e_deinit
  simp only []
  split_ifs <;> rfl

/-- An accepted picture-prep update adds its mask to the changed-bitmask. -/
theorem prep_accept_mask (p : H264eCtx) (src : MppEncPrepCfg)
    (h : (h264e_proc_cfg p (MpiCmd.MPP_ENC_SET_PREP_CFG src)).1 = MPP_RET.MPP_OK) :
    (h264e_proc_cfg p (MpiCmd.MPP_ENC_SET_PREP_CFG src)).2.cfg.prep.change =
      p.cfg.prep.change ||| src.change := by
  by_cases hc : src.change = 0
  · simp [h264e_proc_cfg, hc]
  · rw [proc_cfg_prep_ret p src hc] at h ⊢
    by_cases h1 : prep_check (prep_merge p.cfg.prep src) ≠ MPP_RET.MPP_OK
    · rw [if_pos h1] at h
      exact absurd h h1
    · rw [if_neg h1]
      exact (prep_merge_fields p.cfg.prep src).1

/-- An accepted rate-control update adds its mask to the changed-bitmask. -/
theorem rc_accept_mask (p : H264eCtx) (src : MppEncRcCfg)
    (h : (h264e_proc_cfg p (MpiCmd.MPP_ENC_SET_RC_CFG src)).1 = MPP_RET.MPP_OK) :
    (h264e_proc_cfg p (MpiCmd.MPP_ENC_SET_RC_CFG src)).2.cfg.rc.change =
      p.cfg.rc.change ||| src.change := by
  by_cases hc : src.change = 0
  · simp [h264e_proc_cfg, hc]
  · rw [proc_cfg_rc_ret p src hc] at h ⊢
    by_cases h1 : rc_check (rc_merge p.cfg.rc src) ≠ MPP_RET.MPP_OK
    · rw [if_pos h1] at h
      exact absurd h h1
    · rw [if_neg h1]
      show (rc_merge p.cfg.rc src).change ||| src.change = _
      rw [(rc_merge_fields p.cfg.rc src).1]

/-- A codec update adds its mask to the changed-bitmask. -/
theorem codec_accept_mask (p : H264eCtx) (src : MppEncH264Cfg) :
    (h264e_proc_cfg p (MpiCmd.MPP_ENC_SET_CODEC_CFG src)).2.cfg.codec.change =
      p.cfg.codec.change ||| src.change :=
  (codec_merge_fields p.cfg.codec src).1

/-- A picture-prep update, accepted or not, leaves the other categories. -/
theorem prep_update_others (p : H264eCtx) (src : MppEncPrepCfg) :
    (h264e_proc_cfg p (MpiCmd.MPP_ENC_SET_PREP_CFG src)).2.cfg.rc = p.cfg.rc ∧
    (h264e_proc_cfg p (MpiCmd.MPP_ENC_SET_PREP_CFG src)).2.cfg.codec = p.cfg.codec := by
  by_cases hc : src.change = 0
  · simp [h264e_proc_cfg, hc]
  · rw [proc_cfg_prep_ret p src hc]
    split_ifs <;> exact ⟨rfl, rfl⟩

/-- A rate-control update, accepted or not, leaves the other categories. -/
theorem rc_update_others (p : H264eCtx) (src : MppEncRcCfg) :
    (h264e_proc_cfg p (MpiCmd.MPP_ENC_SET_RC_CFG src)).2.cfg.prep = p.cfg.prep ∧
    (h264e_proc_cfg p (MpiCmd.MPP_ENC_SET_RC_CFG src)).2.cfg.codec = p.cfg.codec := by
  by_cases hc : src.change = 0
  · simp [h264e_proc_cfg, hc]
  · rw [proc_cfg_rc_ret p src hc]
    split_ifs <;> exact ⟨rfl, rfl⟩

/-- A rejected picture-prep update leaves the context as it was. -/
theorem prep_not_ok_ctx (p : H264eCtx) (src : MppEncPrepCfg)
    (h : (h264e_proc_cfg p (MpiCmd.MPP_ENC_SET_PREP_CFG src)).1 ≠ MPP_RET.MPP_OK) :
    (h264e_proc_cfg p (MpiCmd.MPP_ENC_SET_PREP_CFG src)).2 = p := by
  by_cases hc : src.change = 0
  · simp [h264e_proc_cfg, hc]
  · rw [proc_cfg_prep_ret p src hc] at h ⊢
    by_cases h1 : prep_check (prep_merge p.cfg.prep src) ≠ MPP_RET.MPP_OK
    · rw [if_pos h1]
    · rw [if_neg h1] at h
      exact absurd rfl h

/-- A rejected rate-control update leaves the context as it was. -/
theorem rc_not_ok_ctx (p : H264eCtx) (src : MppEncRcCfg)
    (h : (h264e_proc_cfg p (MpiCmd.MPP_ENC_SET_RC_CFG src)).1 ≠ MPP_RET.MPP_OK) :
    (h264e_proc_cfg p (MpiCmd.MPP_ENC_SET_RC_CFG src)).2 = p := by
  by_cases hc : src.change = 0
  · simp [h264e_proc_cfg, hc]
  · rw [proc_cfg_rc_ret p src hc] at h ⊢
    by_cases h1 : rc_check (rc_merge p.cfg.rc src) ≠ MPP_RET.MPP_OK
    · rw [if_pos h1]
    · rw [if_neg h1] at h
      exact absurd rfl h

/-- A call that neither resets the changed-bitmask of a category nor is an
accepted update of it leaves the bitmask. -/
theorem api_call_mask (C : Collab) (cat : Category) (p : H264eCtx) (call : ApiCall)
    (h : clears_mask cat call = false) (h2 : accepted_update_of cat p call = false) :
    mask_of cat (api_call C p call) = mask_of cat p := by
  cases call with
  | init ctrl_cfg => cases cat <;> simp [clears_mask] at h
  | deinit => cases cat <;> simp only [api_call, mask_of, h264e_deinit_frame]
  | proc_cfg cmd =>
    cases cmd with
    | MPP_ENC_SET_ALL_CFG => rfl
    | MPP_ENC_SET_PREP_CFG src =>
      cases cat with
      | prep =>
        simp only [accepted_update_of, decide_eq_false_iff_not] at h2
        simp only [api_call, prep_not_ok_ctx p src h2]
      | rc => simp only [api_call, mask_of, (prep_update_others p src).1]
      | codec => simp only [api_call, mask_of, (prep_update_others p src).2]
    | MPP_ENC_SET_RC_CFG src =>
      cases cat with
      | prep => simp only [api_call, mask_of, (rc_update_others p src).1]
      | rc =>
        simp only [accepted_update_of, decide_eq_false_iff_not] at h2
        simp only [api_call, rc_not_ok_ctx p src h2]
      | codec => simp only [api_call, mask_of, (rc_update_others p src).2]
    | MPP_ENC_SET_CODEC_CFG src =>
      cases cat with
      | prep => rfl
      | rc => rfl
      | codec => simp [accepted_update_of, h264e_proc_cfg] at h2
    | MPP_ENC_SET_SEI_CFG => rfl
    | MPP_ENC_SET_IDR_FRAME => cases cat <;> rfl
    | other code => rfl
  | gen_hdr pkt => cases cat <;> simp only [api_call, mask_of, h264e_gen_hdr_frame]
  | start task => cases cat <;> simp only [api_call, mask_of, (h264e_start_frame C p task).1]
  | proc_dpb task =>
    cases cat <;> simp only [api_call, mask_of, (h264e_proc_dpb_frame C p task).1]
  | proc_rc task =>
    cases cat with
    | prep => rfl
    | rc => simp [clears_mask] at h
    | codec => rfl
  | proc_hal task =>
    cases cat <;> simp only [api_call, mask_of, (h264e_proc_hal_frame p task).1]
  | update_hal task => cases cat <;> rfl
  | update_rc task => cases cat <;> rfl
  | reset => cases cat <;> rfl
  | flush => cases cat <;> rfl

/-- A call that does not reset the changed-bitmask of a category loses none of
its bits. -/
theorem api_call_mask_mono (C : Collab) (cat : Category) (p : H264eCtx) (call : ApiCall)
    (h : clears_mask cat call = false) :
    mask_of cat p ||| mask_of cat (api_call C p call) = mask_of cat (api_call C p call) := by
  by_cases h2 : accepted_update_of cat p call = false
  · rw [api_call_mask C cat p call h h2, Nat.or_self]
  · have hacc : ∀ m s : Nat, m ||| (m ||| s) = m ||| s := by
      intro m s
      rw [← Nat.or_assoc, Nat.or_self]
    cases call with
    | proc_cfg cmd =>
      cases cmd with
      | MPP_ENC_SET_PREP_CFG src =>
        cases cat with
        | prep =>
          simp only [accepted_update_of, decide_eq_false_iff_not, not_not] at h2
          simp only [api_call, mask_of, prep_accept_mask p src h2, hacc]
        | rc => simp [accepted_update_of] at h2
        | codec => simp [accepted_update_of] at h2
      | MPP_ENC_SET_RC_CFG src =>
        cases cat with
        | prep => simp [accepted_update_of] at h2
        | rc =>
          simp only [accepted_update_of, decide_eq_false_iff_not, not_not] at h2
          simp only [api_call, mask_of, rc_accept_mask p src h2, hacc]
        | codec => simp [accepted_update_of] at h2
      | MPP_ENC_SET_CODEC_CFG src =>
        cases cat with
        | prep => simp [accepted_update_of] at h2
        | rc => simp [accepted_update_of] at h2
        | codec => simp only [api_call, mask_of, codec_accept_mask p src, hacc]
      | MPP_ENC_SET_ALL_CFG => cases cat <;> simp [accepted_update_of] at h2
      | MPP_ENC_SET_SEI_CFG => cases cat <;> simp [accepted_update_of] at h2
      | MPP_ENC_SET_IDR_FRAME => cases cat <;> simp [accepted_update_of] at h2
      | other code => cases cat <;> simp [accepted_update_of] at h2
    | init ctrl_cfg => cases cat <;> simp [accepted_update_of] at h2
    | deinit => cases cat <;> simp [accepted_update_of] at h2
    | gen_hdr pkt => cases cat <;> simp [accepted_update_of] at h2
    | start task => cases cat <;> simp [accepted_update_of] at h2
    | proc_dpb task => cases cat <;> simp [accepted_update_of] at h2
    | proc_rc task => cases cat <;> simp [accepted_update_of] at h2
    | proc_hal task => cases cat <;> simp [accepted_update_of] at h2
    | update_hal task => cases cat <;> simp [accepted_update_of] at h2
    | update_rc task => cases cat <;> simp [accepted_update_of] at h2
    | reset => cases cat <;> simp [accepted_update_of] at h2
    | flush => cases cat <;> simp [accepted_update_of] at h2

/-- A quiet sequence of calls leaves the changed-bitmask of the category. -/
theorem api_run_mask (C : Collab) (cat : Category) (calls : List ApiCall) :
    ∀ p : H264eCtx, quiet_run C cat p calls = true →
      mask_of cat (api_run C p calls) = mask_of cat p := by
  induction calls with
  | nil => intro p _; rfl
  | cons call calls ih =>
    intro p h
    simp only [quiet_run, Bool.and_eq_true, Bool.not_eq_true'] at h
    have h1 := api_call_mask C cat p call h.1.1 h.1.2
    have h2 := ih (api_call C p call) h.2
    simp only [api_run, List.foldl_cons] at h2 ⊢
    rw [h2, h1]

/-- A sequence of calls without a resetting call loses no bit of the
changed-bitmask of the category. -/
theorem api_run_mask_mono (C : Collab) (cat : Category) (calls : List ApiCall) :
    ∀ p : H264eCtx, (∀ call ∈ calls, clears_mask cat call = false) →
      mask_of cat p ||| mask_of cat (api_run C p calls) = mask_of cat (api_run C p calls) := by
  induction calls with
  | nil => intro p _; exact Nat.or_self _
  | cons call calls ih =>
    intro p h
    have h1 := api_call_mask_mono C cat p call (h call (List.mem_cons_self _ _))
    have h2 := ih (api_call C p call) (fun c hc => h c (List.mem_cons_of_mem _ hc))
    simp only [api_run, List.foldl_cons] at h2 ⊢
    rw [← h2, ← Nat.or_assoc, h1]

/-! ## Changed-bitmask law -/

/-- C6 (amended): for each configuration category, from a changed-bitmask
`c`, two accepted updates with bitmasks `a` and then `b` leave the category's
changed-bitmask equal to `c ||| a ||| b` (exactly `a ||| b` when `c` was
empty); the bitmask keeps its value across every further sequence of calls
through the function table (rejected updates included) other than the
acknowledgment `h264e_proc_rc` for rate control, a re-initialisation by
`h264e_init`, which empties the bitmasks of all three categories, and further
accepted updates of the category, which only add their bits: without
acknowledgment and re-initialisation no bit is lost; and the acknowledgment in
`h264e_proc_rc` leaves the rate-control changed-bitmask empty. -/
theorem changed_mask_union_law (C : Collab) (p : H264eCtx) :
    (∀ a b : MppEncPrepCfg,
      (h264e_proc_cfg p (MpiCmd.MPP_ENC_SET_PREP_CFG a)).1 = MPP_RET.MPP_OK →
      (h264e_proc_cfg (h264e_proc_cfg p (MpiCmd.MPP_ENC_SET_PREP_CFG a)).2
        (MpiCmd.MPP_ENC_SET_PREP_CFG b)).1 = MPP_RET.MPP_OK →
      (h264e_proc_cfg (h264e_proc_cfg p (MpiCmd.MPP_ENC_SET_PREP_CFG a)).2
        (MpiCmd.MPP_ENC_SET_PREP_CFG b)).2.cfg.prep.change
          = p.cfg.prep.change ||| a.change ||| b.change ∧
      (p.cfg.prep.change = 0 →
        (h264e_proc_cfg (h264e_proc_cfg p (MpiCmd.MPP_ENC_SET_PREP_CFG a)).2
          (MpiCmd.MPP_ENC_SET_PREP_CFG b)).2.cfg.prep.change = a.change ||| b.change)) ∧
    (∀ a b : MppEncRcCfg,
      (h264e_proc_cfg p (MpiCmd.MPP_ENC_SET_RC_CFG a)).1 = MPP_RET.MPP_OK →
      (h264e_proc_cfg (h264e_proc_cfg p (MpiCmd.MPP_ENC_SET_RC_CFG a)).2
        (MpiCmd.MPP_ENC_SET_RC_CFG b)).1 = MPP_RET.MPP_OK →
      (h264e_proc_cfg (h264e_proc_cfg p (MpiCmd.MPP_ENC_SET_RC_CFG a)).2
        (MpiCmd.MPP_ENC_SET_RC_CFG b)).2.cfg.rc.change
          = p.cfg.rc.change ||| a.change ||| b.change ∧
      (p.cfg.rc.change = 0 →
        (h264e_proc_cfg (h264e_proc_cfg p (MpiCmd.MPP_ENC_SET_RC_CFG a)).2
          (MpiCmd.MPP_ENC_SET_RC_CFG b)).2.cfg.rc.change = a.change ||| b.change)) ∧
    (∀ a b : MppEncH264Cfg,
      (h264e_proc_cfg (h264e_proc_cfg p (MpiCmd.MPP_ENC_SET_CODEC_CFG a)).2
        (MpiCmd.MPP_ENC_SET_CODEC_CFG b)).2.cfg.codec.change
          = p.cfg.codec.change ||| a.change ||| b.change ∧
      (p.cfg.codec.change = 0 →
        (h264e_proc_cfg (h264e_proc_cfg p (MpiCmd.MPP_ENC_SET_CODEC_CFG a)).2
          (MpiCmd.MPP_ENC_SET_CODEC_CFG b)).2.cfg.codec.change = a.change ||| b.change)) ∧
    (∀ (cat : Category) (calls : List ApiCall),
      quiet_run C cat p calls = true →
      mask_of cat (api_run C p calls) = mask_of cat p) ∧
    (∀ (cat : Category) (calls : List ApiCall),
      (∀ call ∈ calls, clears_mask cat call = false) →
      mask_of cat p ||| mask_of cat (api_run C p calls) = mask_of cat (api_run C p calls)) ∧
    (∀ task : HalEncTask, mask_of Category.rc (api_call C p (ApiCall.proc_rc task)) = 0) ∧
    (∀ (ctrl_cfg : EncImplCfg) (cat : Category),
      mask_of cat (api_call C p (ApiCall.init ctrl_cfg)) = 0) := by
  refine ⟨?_, ?_, ?_, ?_, ?_, ?_, ?_⟩
  · intro a b ha hb
    have h := prep_accept_mask _ b hb
    rw [prep_accept_mask p a ha] at h
    refine ⟨h, fun h0 => ?_⟩
    rw [h, h0, Nat.zero_or]
  · intro a b ha hb
    have h := rc_accept_mask _ b hb
    rw [rc_accept_mask p a ha] at h
    refine ⟨h, fun h0 => ?_⟩
    rw [h, h0, Nat.zero_or]
  · intro a b
    have h := codec_accept_mask (h264e_proc_cfg p (MpiCmd.MPP_ENC_SET_CODEC_CFG a)).2 b
    rw [codec_accept_mask p a] at h
    refine ⟨h, fun h0 => ?_⟩
    rw [h, h0, Nat.zero_or]
  · intro cat calls h
    exact api_run_mask C cat calls p h
  · intro cat calls h
    exact api_run_mask_mono C cat calls p h
  · intro task
    rfl
  · intro ctrl_cfg cat
    cases cat <;> rfl

/-- Instance of C6 (amended): on the initialised sample context (empty masks) a
group-length update followed by a bitrate update leaves the rate-control
changed-bitmask at the union of the two bits, and the bitmask is the same
after a header generation, an IDR request, a rejected bitrate update and the
start of a frame. -/
theorem changed_mask_union_law_witness :
    (h264e_proc_cfg (h264e_proc_cfg sample_ctx (MpiCmd.MPP_ENC_SET_RC_CFG (rc_gop_update 25))).2
        (MpiCmd.MPP_ENC_SET_RC_CFG (rc_bps_update 4000000 5000000 3000000))).2.cfg.rc.change
      = MPP_ENC_RC_CFG_CHANGE_GOP ||| MPP_ENC_RC_CFG_CHANGE_BPS ∧
    mask_of Category.rc
        (api_run (sample_collab 0)
          (h264e_proc_cfg (h264e_proc_cfg sample_ctx
              (MpiCmd.MPP_ENC_SET_RC_CFG (rc_gop_update 25))).2
            (MpiCmd.MPP_ENC_SET_RC_CFG (rc_bps_update 4000000 5000000 3000000))).2
          [ApiCall.gen_hdr none, ApiCall.proc_cfg MpiCmd.MPP_ENC_SET_IDR_FRAME,
            ApiCall.proc_cfg (MpiCmd.MPP_ENC_SET_RC_CFG (rc_bps_update 500 500 500)),
            ApiCall.start zero_task])
      = mask_of Category.rc
          (h264e_proc_cfg (h264e_proc_cfg sample_ctx
              (MpiCmd.MPP_ENC_SET_RC_CFG (rc_gop_update 25))).2
            (MpiCmd.MPP_ENC_SET_RC_CFG (rc_bps_update 4000000 5000000 3000000))).2 :=
  ⟨((changed_mask_union_law (sample_collab 0) sample_ctx).2.1
      (rc_gop_update 25) (rc_bps_update 4000000 5000000 3000000)
      (by decide) (by decide)).2 (by decide),
   (changed_mask_union_law (sample_collab 0)
      (h264e_proc_cfg (h264e_proc_cfg sample_ctx
          (MpiCmd.MPP_ENC_SET_RC_CFG (rc_gop_update 25))).2
        (MpiCmd.MPP_ENC_SET_RC_CFG (rc_bps_update 4000000 5000000 3000000))).2).2.2.2.1
      Category.rc _ (by decide)⟩

/-- C6 fails as stated: on the initialised sample context a group-length
update followed by a bitrate update leaves the rate-control changed-bitmask at
132; `h264e_init`, which is not the acknowledgment, then leaves it at 0, and a
further accepted update naming mode and bitrates, which is not the
acknowledgment either, leaves it at 133. -/
theorem changed_mask_not_kept_counterexample :
    (h264e_proc_cfg (h264e_proc_cfg sample_ctx (MpiCmd.MPP_ENC_SET_RC_CFG (rc_gop_update 25))).2
        (MpiCmd.MPP_ENC_SET_RC_CFG (rc_bps_update 4000000 5000000 3000000))).2.cfg.rc.change
      = 132 ∧
    (h264e_init (sample_collab 0)
        (h264e_proc_cfg (h264e_proc_cfg sample_ctx
            (MpiCmd.MPP_ENC_SET_RC_CFG (rc_gop_update 25))).2
          (MpiCmd.MPP_ENC_SET_RC_CFG (rc_bps_update 4000000 5000000 3000000))).2
        ⟨0, zero_cfg⟩).2.cfg.rc.change = 0 ∧
    (h264e_proc_cfg
        (h264e_proc_cfg (h264e_proc_cfg sample_ctx
            (MpiCmd.MPP_ENC_SET_RC_CFG (rc_gop_update 25))).2
          (MpiCmd.MPP_ENC_SET_RC_CFG (rc_bps_update 4000000 5000000 3000000))).2
        (MpiCmd.MPP_ENC_SET_RC_CFG rc_cbr_2m_update)).1 = MPP_RET.MPP_OK ∧
    (h264e_proc_cfg
        (h264e_proc_cfg (h264e_proc_cfg sample_ctx
            (MpiCmd.MPP_ENC_SET_RC_CFG (rc_gop_update 25))).2
          (MpiCmd.MPP_ENC_SET_RC_CFG (rc_bps_update 4000000 5000000 3000000))).2
        (MpiCmd.MPP_ENC_SET_RC_CFG rc_cbr_2m_update)).2.cfg.rc.change = 133 := by
  decide

/-! ## IDR request counter -/

/-- The counter after `n` requests: the `RK_U32` increment wraps at `2 ^ 32`. -/
theorem request_idr_n_spec (p : H264eCtx) (h : p.idr_request < 2 ^ 32) (n : Nat) :
    (request_idr_n p n).idr_request = (p.idr_request + n) % 2 ^ 32 ∧
    (request_idr_n p n).cfg = p.cfg := by
  induction n with
  | zero =>
    refine ⟨?_, rfl⟩
    show p.idr_request = (p.idr_request + 0) % 2 ^ 32
    rw [Nat.add_zero, Nat.mod_eq_of_lt h]
  | succ n ih =>
    refine ⟨?_, ih.2⟩
    show ((request_idr_n p n).idr_request + 1) % 2 ^ 32 = (p.idr_request + (n + 1)) % 2 ^ 32
    rw [ih.1, Nat.mod_add_mod, ← Nat.add_assoc]

/-- One frame lowers a non-zero IDR counter by one and leaves a zero counter. -/
theorem run_frame_idr_request (C : Collab) (p : H264eCtx) (task : HalEncTask) :
    (run_frame C p task).1.idr_request = p.idr_request - 1 := by
  unfold run_frame
  simp only []
  rw [(h264e_proc_hal_frame _ _).2, (h264e_proc_rc_frame C _ _).2.2.2.2,
    (h264e_proc_dpb_frame C _ _).2, (h264e_start_frame C p task).2]

/-- The frame run from `p` is handed forced-IDR exactly when the counter of `p`
is non-zero. -/
theorem frame_force_idr_spec (C : Collab) (p : H264eCtx) (task : HalEncTask) :
    frame_force_idr C p task = (if p.idr_request ≠ 0 then 1 else 0) := by
  unfold frame_force_idr
  simp only []
  rw [(proc_dpb_frm_cfg_spec _ _).2.2.1, (h264e_start_frame C p task).2]

/-- As many frames as the counter holds requests: every frame is handed
forced-IDR and the counter ends at zero. -/
theorem run_frames_serves (C : Collab) (tasks : List HalEncTask) :
    ∀ p : H264eCtx, p.idr_request = tasks.length →
      (run_frames C p tasks).1 = List.replicate tasks.length 1 ∧
      (run_frames C p tasks).2.idr_request = 0 := by
  induction tasks with
  | nil =>
    intro p h
    exact ⟨rfl, h⟩
  | cons task tasks ih =>
    intro p h
    have hne : p.idr_request ≠ 0 := by
      rw [h]
      simp
    have h1 : (run_frame C p task).1.idr_request = tasks.length := by
      rw [run_frame_idr_request, h]
      simp
    have h2 := ih (run_frame C p task).1 h1
    refine ⟨?_, h2.2⟩
    show frame_force_idr C p task :: (run_frames C (run_frame C p task).1 tasks).1 = _
    rw [h2.1, frame_force_idr_spec, if_pos hne]
    rfl

/-- C7 (amended): for every natural number N below `2 ^ 32`, starting from an
IDR request counter of 0, N consecutive IDR requests followed by N frames
(one per task of the list, each running `h264e_proc_dpb`) with no further
requests give forced-IDR = true on every one of those N frames, leave the
counter at 0, and a frame after them has forced-IDR = false. -/
theorem idr_requests_served (C : Collab) (p : H264eCtx) (tasks : List HalEncTask)
    (next : HalEncTask) (h0 : p.idr_request = 0) (hN : tasks.length < 2 ^ 32) :
    (run_frames C (request_idr_n p tasks.length) tasks).1 = List.replicate tasks.length 1 ∧
    (run_frames C (request_idr_n p tasks.length) tasks).2.idr_request = 0 ∧
    frame_force_idr C (run_frames C (request_idr_n p tasks.length) tasks).2 next = 0 := by
  have hc : (request_idr_n p tasks.length).idr_request = tasks.length := by
    rw [(request_idr_n_spec p (by rw [h0]; decide) tasks.length).1, h0, Nat.zero_add,
      Nat.mod_eq_of_lt hN]
  have h := run_frames_serves C tasks _ hc
  refine ⟨h.1, h.2, ?_⟩
  rw [frame_force_idr_spec, h.2]
  rfl

/-- Instance of C7 (amended): two requests on the initialised sample context
and then two frames. -/
theorem idr_requests_served_witness :
    (run_frames (sample_collab 0) (request_idr_n sample_ctx 2) [zero_task, zero_task]).1
      = [1, 1] ∧
    (run_frames (sample_collab 0) (request_idr_n sample_ctx 2)
      [zero_task, zero_task]).2.idr_request = 0 :=
  have h := idr_requests_served (sample_collab 0) sample_ctx [zero_task, zero_task] zero_task
    (by decide) (by decide)
  ⟨h.1, h.2.1⟩

/-- C7 fails at N = 2 ^ 32: after 4294967296 requests on the initialised sample
context the `RK_U32` counter has wrapped to 0, so the first frame that follows
is handed forced-IDR = false. -/
theorem idr_requests_wrap_counterexample :
    sample_ctx.idr_request = 0 ∧
    (request_idr_n sample_ctx 4294967296).idr_request = 0 ∧
    frame_force_idr (sample_collab 0) (request_idr_n sample_ctx 4294967296) zero_task = 0 := by
  have h0 : sample_ctx.idr_request = 0 := by decide
  have h := (request_idr_n_spec sample_ctx (by rw [h0]; decide) 4294967296).1
  rw [h0] at h
  have h1 : (request_idr_n sample_ctx 4294967296).idr_request = 0 := by
    rw [h]
    norm_num
  refine ⟨h0, h1, ?_⟩
  rw [frame_force_idr_spec, h1]
  rfl

/-! ## Syntax descriptors and frame usage -/

/-- After `k` iterations the copy loop has written the first `k` entries. -/
theorem copy_loop_apply {n : Nat} {α : Type} (src : Fin n → α) (k : Nat) (dst : Fin n → α)
    (j : Fin n) : copy_loop src k dst j = if j.val < k then src j else dst j := by
  induction k with
  | zero => simp [copy_loop]
  | succ k ih =>
    simp only [copy_loop]
    by_cases h1 : j.val = k
    · simp [h1]
    · rw [if_neg h1, ih]
      by_cases h2 : j.val < k
      · rw [if_pos h2, if_pos (by omega)]
      · rw [if_neg h2, if_neg (by omega)]

/-- The six stores of `h264e_proc_hal`: the descriptor array and count it
leaves in the context. -/
theorem proc_hal_table (p : H264eCtx) (task : HalEncTask) :
    (h264e_proc_hal p task).2.1.syn_num = 6 ∧
    (List.finRange H264E_SYN_BUTT).map (h264e_proc_hal p task).2.1.syn_tab =
      [⟨H264eSyntaxType.H264E_SYN_CFG, SynRef.cfg⟩, ⟨H264eSyntaxType.H264E_SYN_SPS, SynRef.sps⟩,
       ⟨H264eSyntaxType.H264E_SYN_PPS, SynRef.pps⟩,
       ⟨H264eSyntaxType.H264E_SYN_SLICE, SynRef.slice⟩,
       ⟨H264eSyntaxType.H264E_SYN_FRAME, SynRef.frms⟩,
       ⟨H264eSyntaxType.H264E_SYN_RC, SynRef.rc_syn⟩] := by
  constructor
  · simp only [h264e_proc_hal, h264e_add_syntax]
    norm_num
  · have hr : List.finRange H264E_SYN_BUTT =
        [⟨0, by decide⟩, ⟨1, by decide⟩, ⟨2, by decide⟩, ⟨3, by decide⟩, ⟨4, by decide⟩,
          ⟨5, by decide⟩] := by
      decide
    rw [hr]
    simp only [h264e_proc_hal, h264e_add_syntax, List.map]
    rfl

/-- The descriptors `h264e_proc_hal` hands to the task, as a list. -/
theorem proc_hal_task_descs (p : H264eCtx) (task : HalEncTask) :
    task_descs (h264e_proc_hal p task).2.2 =
      [⟨H264eSyntaxType.H264E_SYN_CFG, SynRef.cfg⟩, ⟨H264eSyntaxType.H264E_SYN_SPS, SynRef.sps⟩,
       ⟨H264eSyntaxType.H264E_SYN_PPS, SynRef.pps⟩,
       ⟨H264eSyntaxType.H264E_SYN_SLICE, SynRef.slice⟩,
       ⟨H264eSyntaxType.H264E_SYN_FRAME, SynRef.frms⟩,
       ⟨H264eSyntaxType.H264E_SYN_RC, SynRef.rc_syn⟩] := by
  have h := proc_hal_table p task
  have hn : (h264e_proc_hal p task).2.2.syn.number = 6 := by
    show (((h264e_proc_hal p task).2.1.syn_num % 2 ^ 32).toNat) = 6
    rw [h.1]
    rfl
  have hd : task_descs (h264e_proc_hal p task).2.2 =
      (List.finRange H264E_SYN_BUTT).map (h264e_proc_hal p task).2.1.syn_tab := by
    show (((List.finRange H264E_SYN_BUTT).take (h264e_proc_hal p task).2.2.syn.number).map
      (h264e_proc_hal p task).2.1.syn_tab) = _
    rw [hn]
    rfl
  rw [hd, h.2]

/-- C8 (amended): for every context state and task, after `h264e_proc_hal` the
descriptor list handed to the task has length 6 and its kinds are, in this
order: configuration, sequence parameter syntax, picture parameter syntax,
slice syntax, frame usage, rate-control parameters, each with the reference to
the matching member of the context; the task is marked valid. -/
theorem proc_hal_descriptors (p : H264eCtx) (task : HalEncTask) :
    (h264e_proc_hal p task).2.2.syn.number = 6 ∧
    task_descs (h264e_proc_hal p task).2.2 =
      [⟨H264eSyntaxType.H264E_SYN_CFG, SynRef.cfg⟩, ⟨H264eSyntaxType.H264E_SYN_SPS, SynRef.sps⟩,
       ⟨H264eSyntaxType.H264E_SYN_PPS, SynRef.pps⟩,
       ⟨H264eSyntaxType.H264E_SYN_SLICE, SynRef.slice⟩,
       ⟨H264eSyntaxType.H264E_SYN_FRAME, SynRef.frms⟩,
       ⟨H264eSyntaxType.H264E_SYN_RC, SynRef.rc_syn⟩] ∧
    (task_descs (h264e_proc_hal p task).2.2).length = 6 ∧
    (h264e_proc_hal p task).2.2.valid = 1 := by
  have h := proc_hal_table p task
  have hn : (h264e_proc_hal p task).2.2.syn.number = 6 := by
    show (((h264e_proc_hal p task).2.1.syn_num % 2 ^ 32).toNat) = 6
    rw [h.1]
    rfl
  have hd : task_descs (h264e_proc_hal p task).2.2 =
      (List.finRange H264E_SYN_BUTT).map (h264e_proc_hal p task).2.1.syn_tab := by
    show (((List.finRange H264E_SYN_BUTT).take (h264e_proc_hal p task).2.2.syn.number).map
      (h264e_proc_hal p task).2.1.syn_tab) = _
    rw [hn]
    rfl
  refine ⟨hn, ?_, ?_, rfl⟩
  · rw [hd, h.2]
  · rw [hd, h.2]
    rfl

/-- C8 fails as stated: on the initialised sample context `h264e_proc_hal`
hands the task six descriptors, not five; the sequence and the picture
parameter syntax are two descriptors. -/
theorem proc_hal_descriptors_counterexample :
    (h264e_proc_hal sample_ctx zero_task).2.2.syn.number = 6 ∧
    (task_descs (h264e_proc_hal sample_ctx zero_task).2.2).length ≠ 5 ∧
    (task_descs (h264e_proc_hal sample_ctx zero_task).2.2).map H264eSyntaxDesc.type ≠
      [H264eSyntaxType.H264E_SYN_CFG, H264eSyntaxType.H264E_SYN_SPS,
       H264eSyntaxType.H264E_SYN_SLICE, H264eSyntaxType.H264E_SYN_FRAME,
       H264eSyntaxType.H264E_SYN_RC] ∧
    (task_descs (h264e_proc_hal sample_ctx zero_task).2.2).map H264eSyntaxDesc.type ≠
      [H264eSyntaxType.H264E_SYN_CFG, H264eSyntaxType.H264E_SYN_PPS,
       H264eSyntaxType.H264E_SYN_SLICE, H264eSyntaxType.H264E_SYN_FRAME,
       H264eSyntaxType.H264E_SYN_RC] := by
  decide

/-- For every frame the rate control drops, `h264e_start` leaves the task with
valid = false and with the descriptors it had (none for a task that carried
none); `h264e_proc_hal`, run on that task in whatever context, does not
consult the admission decision: it marks the task valid and hands it the six
descriptors. -/
theorem dropped_frame_task (C : Collab) (p : H264eCtx) (task : HalEncTask)
    (hdrop : (C.rc_frm_check_drop (start_reconcile C p).rc_ctx).1 ≠ 0) :
    (h264e_start C p task).2.2.valid = 0 ∧
    (h264e_start C p task).2.2.syn = task.syn ∧
    task_descs (h264e_start C p task).2.2 = task_descs task ∧
    (∀ q : H264eCtx,
      (h264e_proc_hal q (h264e_start C p task).2.2).2.2.valid = 1 ∧
      (task_descs (h264e_proc_hal q (h264e_start C p task).2.2).2.2).length = 6) := by
  refine ⟨?_, rfl, rfl, ?_⟩
  · show (if (C.rc_frm_check_drop (start_reconcile C p).rc_ctx).1 ≠ 0 then 0 else 1) = 0
    rw [if_pos hdrop]
  · intro q
    refine ⟨rfl, ?_⟩
    rw [proc_hal_task_descs]
    rfl

/-- With a rate control that answers drop, the start of a frame on the
initialised sample context leaves a fresh task invalid and without
descriptors. -/
theorem dropped_frame_task_witness :
    (h264e_start (sample_collab 1) sample_ctx zero_task).2.2.valid = 0 ∧
    task_descs (h264e_start (sample_collab 1) sample_ctx zero_task).2.2 = [] :=
  have h := dropped_frame_task (sample_collab 1) sample_ctx zero_task (by decide)
  ⟨h.1, h.2.2.1⟩

/-- C10: after `h264e_proc_dpb`, for the DPB state the collaborator returns for
the frame (after `h264e_dpb_set_curr`, `h264e_dpb_build_list` and
`h264e_dpb_build_marking`), the frame usage record's sequence index, current
slot index and status equal those of the DPB's current picture, its occupancy
entry `i` equals the in-use flag of DPB slot `i` for every index of the vector,
and its reference index equals the reference picture's slot index when the DPB
reports a reference and equals the record's current index when it reports
none. -/
theorem frame_usage_record (C : Collab) (p : H264eCtx) (task : HalEncTask) :
    (h264e_proc_dpb C p task).2.frms.seq_idx =
      (proc_dpb_assign C (proc_dpb_frm_cfg p task).2 (proc_dpb_frm_cfg p task).1).1.curr.seq_idx ∧
    (h264e_proc_dpb C p task).2.frms.curr_idx =
      (proc_dpb_assign C (proc_dpb_frm_cfg p task).2 (proc_dpb_frm_cfg p task).1).1.curr.slot_idx ∧
    (h264e_proc_dpb C p task).2.frms.status =
      (proc_dpb_assign C (proc_dpb_frm_cfg p task).2 (proc_dpb_frm_cfg p task).1).1.curr.status ∧
    (∀ i : Fin H264E_USAGE_CNT,
      (h264e_proc_dpb C p task).2.frms.usage i =
        ((proc_dpb_assign C (proc_dpb_frm_cfg p task).2
          (proc_dpb_frm_cfg p task).1).1.frames i).on_used) ∧
    (∀ r : H264eDpbFrm,
      (proc_dpb_assign C (proc_dpb_frm_cfg p task).2 (proc_dpb_frm_cfg p task).1).1.refr = some r →
      (h264e_proc_dpb C p task).2.frms.refr_idx = r.slot_idx) ∧
    ((proc_dpb_assign C (proc_dpb_frm_cfg p task).2 (proc_dpb_frm_cfg p task).1).1.refr = none →
      (h264e_proc_dpb C p task).2.frms.refr_idx = (h264e_proc_dpb C p task).2.frms.curr_idx) := by
  refine ⟨rfl, rfl, rfl, ?_, ?_, ?_⟩
  · intro i
    show copy_loop _ H264E_USAGE_CNT _ i = _
    rw [copy_loop_apply, if_pos i.isLt]
  · intro r hr
    show (match (proc_dpb_assign C (proc_dpb_frm_cfg p task).2
      (proc_dpb_frm_cfg p task).1).1.refr with
      | some r => r.slot_idx
      | none => _) = _
    rw [hr]
  · intro hr
    show (match (proc_dpb_assign C (proc_dpb_frm_cfg p task).2
      (proc_dpb_frm_cfg p task).1).1.refr with
      | some r => r.slot_idx
      | none => _) = _
    rw [hr]
    rfl

/-- Instance of C10: the sample collaborators report no reference picture, so
the reference index of the record is its current index. -/
theorem frame_usage_record_witness :
    (h264e_proc_dpb (sample_collab 0) sample_ctx zero_task).2.frms.refr_idx =
      (h264e_proc_dpb (sample_collab 0) sample_ctx zero_task).2.frms.curr_idx :=
  (frame_usage_record (sample_collab 0) sample_ctx zero_task).2.2.2.2.2 rfl

/-! ## Commands without a category -/

/-- C11 (amended): for every command code that is not one of the three
configuration-category updates and not the IDR request, `h264e_proc_cfg` leaves
the whole encoder context unchanged; it returns the failure code `MPP_NOK`
exactly for the codes that match no `case` label, and returns `MPP_OK` for
`MPP_ENC_SET_ALL_CFG` and `MPP_ENC_SET_SEI_CFG`, whose cases are empty. -/
theorem proc_cfg_other_commands (p : H264eCtx) (cmd : MpiCmd)
    (hprep : ∀ src, cmd ≠ MpiCmd.MPP_ENC_SET_PREP_CFG src)
    (hrc : ∀ src, cmd ≠ MpiCmd.MPP_ENC_SET_RC_CFG src)
    (hcodec : ∀ src, cmd ≠ MpiCmd.MPP_ENC_SET_CODEC_CFG src)
    (hidr : cmd ≠ MpiCmd.MPP_ENC_SET_IDR_FRAME) :
    (h264e_proc_cfg p cmd).2 = p ∧
    ((h264e_proc_cfg p cmd).1 = MPP_RET.MPP_NOK ↔ ∃ code, cmd = MpiCmd.other code) ∧
    ((cmd = MpiCmd.MPP_ENC_SET_ALL_CFG ∨ cmd = MpiCmd.MPP_ENC_SET_SEI_CFG) →
      (h264e_proc_cfg p cmd).1 = MPP_RET.MPP_OK) := by
  cases cmd with
  | MPP_ENC_SET_ALL_CFG => exact ⟨rfl, by simp [h264e_proc_cfg], fun _ => rfl⟩
  | MPP_ENC_SET_PREP_CFG src => exact absurd rfl (hprep src)
  | MPP_ENC_SET_RC_CFG src => exact absurd rfl (hrc src)
  | MPP_ENC_SET_CODEC_CFG src => exact absurd rfl (hcodec src)
  | MPP_ENC_SET_SEI_CFG => exact ⟨rfl, by simp [h264e_proc_cfg], fun _ => rfl⟩
  | MPP_ENC_SET_IDR_FRAME => exact absurd rfl hidr
  | other code => exact ⟨rfl, by simp [h264e_proc_cfg], fun h => by simp at h⟩

/-- Instance of C11 (amended): an unlisted command code on the initialised
sample context. -/
theorem proc_cfg_other_commands_witness :
    (h264e_proc_cfg sample_ctx (MpiCmd.other 0)).2 = sample_ctx ∧
    (h264e_proc_cfg sample_ctx (MpiCmd.other 0)).1 = MPP_RET.MPP_NOK :=
  have h := proc_cfg_other_commands sample_ctx (MpiCmd.other 0)
    (fun _ => by simp) (fun _ => by simp) (fun _ => by simp) (by simp)
  ⟨h.1, h.2.1.mpr ⟨0, rfl⟩⟩

/-- C11 fails as stated: `MPP_ENC_SET_ALL_CFG` and `MPP_ENC_SET_SEI_CFG` are
neither category updates nor the IDR request, and on the initialised sample
context `h264e_proc_cfg` returns `MPP_OK` for both, not a failure code. -/
theorem proc_cfg_empty_cases_counterexample :
    (h264e_proc_cfg sample_ctx MpiCmd.MPP_ENC_SET_ALL_CFG).1 = MPP_RET.MPP_OK ∧
    (h264e_proc_cfg sample_ctx MpiCmd.MPP_ENC_SET_SEI_CFG).1 = MPP_RET.MPP_OK ∧
    (h264e_proc_cfg sample_ctx MpiCmd.MPP_ENC_SET_ALL_CFG).1 ≠ MPP_RET.MPP_NOK ∧
    (h264e_proc_cfg sample_ctx MpiCmd.MPP_ENC_SET_ALL_CFG).1 ≠ MPP_RET.MPP_ERR_VALUE := by
  decide

/-! ## Initialisation -/

/-- The configuration set `h264e_init` installs is `init_h264e_cfg_set` of the
one it is handed, and the IDR request counter is zero. -/
theorem h264e_init_cfg (C : Collab) (p : H264eCtx) (ctrl_cfg : EncImplCfg) :
    (h264e_init C p ctrl_cfg).2.cfg = init_h264e_cfg_set ctrl_cfg.cfg ∧
    (h264e_init C p ctrl_cfg).2.idr_request = 0 ∧
    (h264e_init C p ctrl_cfg).2.rc_ctx = p.rc_ctx :=
  ⟨rfl, rfl, rfl⟩

/-- C14: after `h264e_init`, whatever the configuration set held before, the
configuration is: baseline profile; picture 1280x720 with strides 1280x720,
format YUV 4:2:0 semi-planar, rotation 0; rate-control mode CBR with target
2000000 bit/s, max 2500000 and min 1500000; input and output frame rate 30/1
fixed; group length 60; the picture-prep, rate-control and codec
changed-bitmasks are empty and the IDR request counter is 0. -/
theorem init_installs_defaults (C : Collab) (p : H264eCtx) (ctrl_cfg : EncImplCfg) :
    (h264e_init C p ctrl_cfg).2.cfg.codec.profile = H264_PROFILE_BASELINE ∧
    (h264e_init C p ctrl_cfg).2.cfg.prep.width = 1280 ∧
    (h264e_init C p ctrl_cfg).2.cfg.prep.height = 720 ∧
    (h264e_init C p ctrl_cfg).2.cfg.prep.hor_stride = 1280 ∧
    (h264e_init C p ctrl_cfg).2.cfg.prep.ver_stride = 720 ∧
    (h264e_init C p ctrl_cfg).2.cfg.prep.format = MPP_FMT_YUV420SP ∧
    (h264e_init C p ctrl_cfg).2.cfg.prep.rotation = MPP_ENC_ROT_0 ∧
    (h264e_init C p ctrl_cfg).2.cfg.rc.rc_mode = MPP_ENC_RC_MODE_CBR ∧
    (h264e_init C p ctrl_cfg).2.cfg.rc.bps_target = 2000000 ∧
    (h264e_init C p ctrl_cfg).2.cfg.rc.bps_max = 2500000 ∧
    (h264e_init C p ctrl_cfg).2.cfg.rc.bps_min = 1500000 ∧
    (h264e_init C p ctrl_cfg).2.cfg.rc.fps_in_flex = 0 ∧
    (h264e_init C p ctrl_cfg).2.cfg.rc.fps_in_num = 30 ∧
    (h264e_init C p ctrl_cfg).2.cfg.rc.fps_in_denorm = 1 ∧
    (h264e_init C p ctrl_cfg).2.cfg.rc.fps_out_flex = 0 ∧
    (h264e_init C p ctrl_cfg).2.cfg.rc.fps_out_num = 30 ∧
    (h264e_init C p ctrl_cfg).2.cfg.rc.fps_out_denorm = 1 ∧
    (h264e_init C p ctrl_cfg).2.cfg.rc.gop = 60 ∧
    (h264e_init C p ctrl_cfg).2.cfg.prep.change = 0 ∧
    (h264e_init C p ctrl_cfg).2.cfg.rc.change = 0 ∧
    (h264e_init C p ctrl_cfg).2.cfg.codec.change = 0 ∧
    (h264e_init C p ctrl_cfg).2.idr_request = 0 := by
  refine ⟨rfl, rfl, rfl, rfl, rfl, rfl, rfl, rfl, ?_, ?_, ?_, rfl, rfl, rfl, rfl, rfl, rfl, rfl,
    rfl, rfl, rfl, rfl⟩
  · show (2000 * 1000 : Int) = 2000000
    decide
  · show (2000 * 1000 : Int) * 5 / 4 = 2500000
    decide
  · show (2000 * 1000 : Int) * 3 / 4 = 1500000
    decide

/-- The rate-control record `h264e_init` installs, apart from its skip count:
mode CBR, quality medium and the default bitrates. -/
theorem init_rc_defaults (C : Collab) (p : H264eCtx) (ctrl_cfg : EncImplCfg) :
    (h264e_init C p ctrl_cfg).2.cfg.rc.rc_mode = 1 ∧
    (h264e_init C p ctrl_cfg).2.cfg.rc.quality = 2 ∧
    (h264e_init C p ctrl_cfg).2.cfg.rc.bps_target = 2000000 ∧
    (h264e_init C p ctrl_cfg).2.cfg.rc.bps_max = 2500000 ∧
    (h264e_init C p ctrl_cfg).2.cfg.rc.bps_min = 1500000 := by
  refine ⟨rfl, rfl, ?_, ?_, ?_⟩
  · show (2000 * 1000 : Int) = 2000000
    decide
  · show (2000 * 1000 : Int) * 5 / 4 = 2500000
    decide
  · show (2000 * 1000 : Int) * 3 / 4 = 1500000
    decide

/-- A mask with a bit of `flag` set is not empty. -/
theorem change_ne_zero_of_bit (change flag : Nat) (h : change &&& flag ≠ 0) : change ≠ 0 := by
  intro h0
  rw [h0] at h
  exact h (Nat.zero_and _)

/-- C13: starting from the default configuration installed by `h264e_init`, a
rate-control update naming the bitrate fields (and not the mode) with target
bitrate 500 bit/s is rejected with the value error, and a rate-control update
naming mode and bitrate (and not the quality tier) with mode CBR, target
2000000, min 1500000 and max 2500000 bit/s is accepted. -/
theorem default_cfg_bound_checks (C : Collab) (p : H264eCtx) (ctrl_cfg : EncImplCfg) :
    (∀ src : MppEncRcCfg,
      src.change &&& MPP_ENC_RC_CFG_CHANGE_BPS ≠ 0 →
      src.change &&& MPP_ENC_RC_CFG_CHANGE_RC_MODE = 0 →
      src.bps_target = 500 →
      (h264e_proc_cfg (h264e_init C p ctrl_cfg).2 (MpiCmd.MPP_ENC_SET_RC_CFG src)).1
        = MPP_RET.MPP_ERR_VALUE) ∧
    (∀ src : MppEncRcCfg,
      src.change &&& MPP_ENC_RC_CFG_CHANGE_RC_MODE ≠ 0 →
      src.change &&& MPP_ENC_RC_CFG_CHANGE_BPS ≠ 0 →
      src.change &&& MPP_ENC_RC_CFG_CHANGE_QUALITY = 0 →
      src.rc_mode = MPP_ENC_RC_MODE_CBR →
      src.bps_target = 2000000 → src.bps_min = 1500000 → src.bps_max = 2500000 →
      (h264e_proc_cfg (h264e_init C p ctrl_cfg).2 (MpiCmd.MPP_ENC_SET_RC_CFG src)).1
        = MPP_RET.MPP_OK) := by
  obtain ⟨hm0, hq0, _, _, _⟩ := init_rc_defaults C p ctrl_cfg
  constructor
  · intro src hb hm ht
    have hc := change_ne_zero_of_bit _ _ hb
    obtain ⟨_, hmode, _, htarget, _, _, _⟩ := rc_merge_fields (h264e_init C p ctrl_cfg).2.cfg.rc src
    simp only [pick, hb, hm, ne_eq, not_true_eq_false, not_false_eq_true, if_true, if_false]
      at hmode htarget
    have hrej : rc_check (rc_merge (h264e_init C p ctrl_cfg).2.cfg.rc src)
        = MPP_RET.MPP_ERR_VALUE := by
      rw [rc_check_err_iff]
      refine Or.inr (Or.inr ⟨?_, Or.inl (Or.inl ?_)⟩)
      · rw [hmode, hm0]
        intro h
        exact absurd h.1 (by decide)
      · rw [htarget, ht]
        decide
    rw [proc_cfg_rc_ret _ src hc, if_pos (by rw [hrej]; decide)]
    exact hrej
  · intro src hm hb hq hcbr ht hmin hmax
    have hc := change_ne_zero_of_bit _ _ hb
    obtain ⟨_, hmode, hqual, htarget, hbmax, hbmin, _⟩ :=
      rc_merge_fields (h264e_init C p ctrl_cfg).2.cfg.rc src
    simp only [pick, hb, hm, hq, ne_eq, not_true_eq_false, not_false_eq_true, if_true, if_false]
      at hmode hqual htarget hbmax hbmin
    have hok : rc_check (rc_merge (h264e_init C p ctrl_cfg).2.cfg.rc src) = MPP_RET.MPP_OK := by
      rcases rc_check_ok_or_err (rc_merge (h264e_init C p ctrl_cfg).2.cfg.rc src) with h | h
      · exact h
      · rw [rc_check_err_iff] at h
        exfalso
        unfold rc_rejected_for recognized_mode recognized_quality bps_out_of_bounds at h
        rw [hmode, hqual, htarget, hbmax, hbmin, hcbr, hq0, ht, hmin, hmax] at h
        revert h
        decide
    rw [proc_cfg_rc_ret _ src hc, if_neg (by rw [hok]; decide)]

/-- Instance of C13: on the initialised sample context the update with a 500
bit/s target is rejected and the CBR update with target 2000000 is accepted. -/
theorem default_cfg_bound_checks_witness :
    (h264e_proc_cfg (h264e_init (sample_collab 0) zero_ctx ⟨0, zero_cfg⟩).2
      (MpiCmd.MPP_ENC_SET_RC_CFG (rc_bps_update 500 500 500))).1 = MPP_RET.MPP_ERR_VALUE ∧
    (h264e_proc_cfg (h264e_init (sample_collab 0) zero_ctx ⟨0, zero_cfg⟩).2
      (MpiCmd.MPP_ENC_SET_RC_CFG rc_cbr_2m_update)).1 = MPP_RET.MPP_OK :=
  ⟨(default_cfg_bound_checks (sample_collab 0) zero_ctx ⟨0, zero_cfg⟩).1
      (rc_bps_update 500 500 500) (by decide) (by decide) rfl,
   (default_cfg_bound_checks (sample_collab 0) zero_ctx ⟨0, zero_cfg⟩).2
      rc_cbr_2m_update (by decide) (by decide) (by decide) rfl rfl rfl rfl⟩

/-! ## Rate-control policy and ConfigReconcile -/

/-- C16: for every rate-control and reference-topology configuration, the
policy `set_rc_cfg` builds has mode CBR for CBR, VBR for VBR and the adaptive
mode for any other value; frame-rate in/out flex, numerator and denominator,
group length and target/max/min bitrate copied verbatim; virtual group length
equal to the reference group length when the reference GOP configuration is
enabled and 0 otherwise; layer bit proportions equal to the configured layer
weights when layered rate control is enabled and (256, 0, 0, 0) otherwise; and
a re-encode budget of 1. -/
theorem set_rc_cfg_policy (cfg : RcCfg) (rc : MppEncRcCfg) (ref : MppEncGopRef) :
    (set_rc_cfg cfg rc ref).mode =
      (if rc.rc_mode = MPP_ENC_RC_MODE_CBR then RcMode.RC_CBR
       else if rc.rc_mode = MPP_ENC_RC_MODE_VBR then RcMode.RC_VBR else RcMode.RC_AVBR) ∧
    (set_rc_cfg cfg rc ref).fps.fps_in_flex = rc.fps_in_flex ∧
    (set_rc_cfg cfg rc ref).fps.fps_in_num = rc.fps_in_num ∧
    (set_rc_cfg cfg rc ref).fps.fps_in_denorm = rc.fps_in_denorm ∧
    (set_rc_cfg cfg rc ref).fps.fps_out_flex = rc.fps_out_flex ∧
    (set_rc_cfg cfg rc ref).fps.fps_out_num = rc.fps_out_num ∧
    (set_rc_cfg cfg rc ref).fps.fps_out_denorm = rc.fps_out_denorm ∧
    (set_rc_cfg cfg rc ref).igop = rc.gop ∧
    (set_rc_cfg cfg rc ref).bps_target = rc.bps_target ∧
    (set_rc_cfg cfg rc ref).bps_max = rc.bps_max ∧
    (set_rc_cfg cfg rc ref).bps_min = rc.bps_min ∧
    (set_rc_cfg cfg rc ref).vgop = (if ref.gop_cfg_enable ≠ 0 then ref.ref_gop_len else 0) ∧
    (∀ i : Fin MAX_TEMPORAL_LAYER,
      (set_rc_cfg cfg rc ref).layer_bit_prop i =
        (if ref.layer_rc_enable ≠ 0 then ref.layer_weight i
         else if i.val = 0 then 256 else 0)) ∧
    (set_rc_cfg cfg rc ref).max_reencode_times = 1 := by
  unfold set_rc_cfg
  refine ⟨?_, ?_, ?_, ?_, ?_, ?_, ?_, ?_, ?_, ?_, ?_, ?_, ?_, ?_⟩
  · simp only [apply_ite RcCfg.mode, apply_ite RcCfg.fps, apply_ite RcCfg.igop, apply_ite RcCfg.bps_target, apply_ite RcCfg.bps_max, apply_ite RcCfg.bps_min, apply_ite RcCfg.vgop, apply_ite RcCfg.layer_bit_prop, apply_ite RcCfg.max_reencode_times, ite_self]
  · simp only [apply_ite RcCfg.mode, apply_ite RcCfg.fps, apply_ite RcCfg.igop, apply_ite RcCfg.bps_target, apply_ite RcCfg.bps_max, apply_ite RcCfg.bps_min, apply_ite RcCfg.vgop, apply_ite RcCfg.layer_bit_prop, apply_ite RcCfg.max_reencode_times, apply_ite RcFpsCfg.fps_in_flex, apply_ite RcFpsCfg.fps_in_num, apply_ite RcFpsCfg.fps_in_denorm, apply_ite RcFpsCfg.fps_out_flex, apply_ite RcFpsCfg.fps_out_num, apply_ite RcFpsCfg.fps_out_denorm, ite_self]
  · simp only [apply_ite RcCfg.mode, apply_ite RcCfg.fps, apply_ite RcCfg.igop, apply_ite RcCfg.bps_target, apply_ite RcCfg.bps_max, apply_ite RcCfg.bps_min, apply_ite RcCfg.vgop, apply_ite RcCfg.layer_bit_prop, apply_ite RcCfg.max_reencode_times, apply_ite RcFpsCfg.fps_in_flex, apply_ite RcFpsCfg.fps_in_num, apply_ite RcFpsCfg.fps_in_denorm, apply_ite RcFpsCfg.fps_out_flex, apply_ite RcFpsCfg.fps_out_num, apply_ite RcFpsCfg.fps_out_denorm, ite_self]
  · simp only [apply_ite RcCfg.mode, apply_ite RcCfg.fps, apply_ite RcCfg.igop, apply_ite RcCfg.bps_target, apply_ite RcCfg.bps_max, apply_ite RcCfg.bps_min, apply_ite RcCfg.vgop, apply_ite RcCfg.layer_bit_prop, apply_ite RcCfg.max_reencode_times, apply_ite RcFpsCfg.fps_in_flex, apply_ite RcFpsCfg.fps_in_num, apply_ite RcFpsCfg.fps_in_denorm, apply_ite RcFpsCfg.fps_out_flex, apply_ite RcFpsCfg.fps_out_num, apply_ite RcFpsCfg.fps_out_denorm, ite_self]
  · simp only [apply_ite RcCfg.mode, apply_ite RcCfg.fps, apply_ite RcCfg.igop, apply_ite RcCfg.bps_target, apply_ite RcCfg.bps_max, apply_ite RcCfg.bps_min, apply_ite RcCfg.vgop, apply_ite RcCfg.layer_bit_prop, apply_ite RcCfg.max_reencode_times, apply_ite RcFpsCfg.fps_in_flex, apply_ite RcFpsCfg.fps_in_num, apply_ite RcFpsCfg.fps_in_denorm, apply_ite RcFpsCfg.fps_out_flex, apply_ite RcFpsCfg.fps_out_num, apply_ite RcFpsCfg.fps_out_denorm, ite_self]
  · simp only [apply_ite RcCfg.mode, apply_ite RcCfg.fps, apply_ite RcCfg.igop, apply_ite RcCfg.bps_target, apply_ite RcCfg.bps_max, apply_ite RcCfg.bps_min, apply_ite RcCfg.vgop, apply_ite RcCfg.layer_bit_prop, apply_ite RcCfg.max_reencode_times, apply_ite RcFpsCfg.fps_in_flex, apply_ite RcFpsCfg.fps_in_num, apply_ite RcFpsCfg.fps_in_denorm, apply_ite RcFpsCfg.fps_out_flex, apply_ite RcFpsCfg.fps_out_num, apply_ite RcFpsCfg.fps_out_denorm, ite_self]
  · simp only [apply_ite RcCfg.mode, apply_ite RcCfg.fps, apply_ite RcCfg.igop, apply_ite RcCfg.bps_target, apply_ite RcCfg.bps_max, apply_ite RcCfg.bps_min, apply_ite RcCfg.vgop, apply_ite RcCfg.layer_bit_prop, apply_ite RcCfg.max_reencode_times, apply_ite RcFpsCfg.fps_in_flex, apply_ite RcFpsCfg.fps_in_num, apply_ite RcFpsCfg.fps_in_denorm, apply_ite RcFpsCfg.fps_out_flex, apply_ite RcFpsCfg.fps_out_num, apply_ite RcFpsCfg.fps_out_denorm, ite_self]
  · simp only [apply_ite RcCfg.mode, apply_ite RcCfg.fps, apply_ite RcCfg.igop, apply_ite RcCfg.bps_target, apply_ite RcCfg.bps_max, apply_ite RcCfg.bps_min, apply_ite RcCfg.vgop, apply_ite RcCfg.layer_bit_prop, apply_ite RcCfg.max_reencode_times, ite_self]
  · simp only [apply_ite RcCfg.mode, apply_ite RcCfg.fps, apply_ite RcCfg.igop, apply_ite RcCfg.bps_target, apply_ite RcCfg.bps_max, apply_ite RcCfg.bps_min, apply_ite RcCfg.vgop, apply_ite RcCfg.layer_bit_prop, apply_ite RcCfg.max_reencode_times, ite_self]
  · simp only [apply_ite RcCfg.mode, apply_ite RcCfg.fps, apply_ite RcCfg.igop, apply_ite RcCfg.bps_target, apply_ite RcCfg.bps_max, apply_ite RcCfg.bps_min, apply_ite RcCfg.vgop, apply_ite RcCfg.layer_bit_prop, apply_ite RcCfg.max_reencode_times, ite_self]
  · simp only [apply_ite RcCfg.mode, apply_ite RcCfg.fps, apply_ite RcCfg.igop, apply_ite RcCfg.bps_target, apply_ite RcCfg.bps_max, apply_ite RcCfg.bps_min, apply_ite RcCfg.vgop, apply_ite RcCfg.layer_bit_prop, apply_ite RcCfg.max_reencode_times, ite_self]
  · simp only [apply_ite RcCfg.mode, apply_ite RcCfg.fps, apply_ite RcCfg.igop, apply_ite RcCfg.bps_target, apply_ite RcCfg.bps_max, apply_ite RcCfg.bps_min, apply_ite RcCfg.vgop, apply_ite RcCfg.layer_bit_prop, apply_ite RcCfg.max_reencode_times, ite_self]
  · intro i
    simp only [apply_ite RcCfg.mode, apply_ite RcCfg.fps, apply_ite RcCfg.igop, apply_ite RcCfg.bps_target, apply_ite RcCfg.bps_max, apply_ite RcCfg.bps_min, apply_ite RcCfg.vgop, apply_ite RcCfg.layer_bit_prop, apply_ite RcCfg.max_reencode_times, ite_self]
    by_cases hl : ref.layer_rc_enable ≠ 0
    · rw [if_pos hl, if_pos hl]
      rw [copy_loop_apply, if_pos i.isLt]
    · rw [if_neg hl, if_neg hl]
      have hi : i.val < 4 := i.isLt
      split_ifs <;> first | rfl | omega
  · simp only [apply_ite RcCfg.mode, apply_ite RcCfg.fps, apply_ite RcCfg.igop, apply_ite RcCfg.bps_target, apply_ite RcCfg.bps_max, apply_ite RcCfg.bps_min, apply_ite RcCfg.vgop, apply_ite RcCfg.layer_bit_prop, apply_ite RcCfg.max_reencode_times, ite_self]

/-- ConfigReconcile as one update of the rate-control handle. -/
theorem start_reconcile_eq (C : Collab) (p : H264eCtx) :
    start_reconcile C p =
      { p with rc_ctx :=
          if p.cfg.rc.change ≠ 0 ∨ p.cfg.gop_ref.change ≠ 0 then
            some (C.rc_update_usr_cfg C.rc_init
              (set_rc_cfg C.rc_cfg_local p.cfg.rc p.cfg.gop_ref))
          else p.rc_ctx } := by
  unfold start_reconcile
  simp only []
  split_ifs <;> rfl

/-- C17: ConfigReconcile in `h264e_start` replaces the rate-control
collaborator by a fresh one configured with the policy `set_rc_cfg` builds
from the stored configuration if and only if the rate-control changed-bitmask
or the reference-topology changed-bitmask is non-empty; when both are empty
the collaborator (present or absent) is left exactly as it was; ConfigReconcile
changes nothing else in the context, and `h264e_start` changes no configuration
field and no changed-bitmask. -/
theorem config_reconcile_rebuild (C : Collab) (p : H264eCtx) (task : HalEncTask) :
    (start_reconcile C p).rc_ctx =
      (if p.cfg.rc.change ≠ 0 ∨ p.cfg.gop_ref.change ≠ 0 then
        some (C.rc_update_usr_cfg C.rc_init
          (set_rc_cfg C.rc_cfg_local p.cfg.rc p.cfg.gop_ref))
       else p.rc_ctx) ∧
    start_reconcile C p = { p with rc_ctx := (start_reconcile C p).rc_ctx } ∧
    (h264e_start C p task).2.1.rc_ctx =
      (C.rc_frm_check_drop (start_reconcile C p).rc_ctx).2 ∧
    (h264e_start C p task).2.1.cfg = p.cfg := by
  refine ⟨?_, ?_, rfl, (h264e_start_frame C p task).1⟩
  · rw [start_reconcile_eq]
  · rw [start_reconcile_eq]

/-! ## The IDR counter under every call -/

/-- The function `h264e_deinit` keeps the IDR request counter. -/
theorem h264e_deinit_idr_request (p : H264eCtx) :
    (h264e_deinit p).2.idr_request = p.idr_request := by
  unfold h264e_deinit
  simp only []
  split_ifs <;> rfl

/-- The function `h264e_gen_hdr` keeps the IDR request counter. -/
theorem h264e_gen_hdr_idr_request (C : Collab) (p : H264eCtx) (pkt : Option MppPacketImpl) :
    (h264e_gen_hdr C p pkt).2.1.idr_request = p.idr_request := by
  unfold h264e_gen_hdr
  cases pkt <;> rfl

/-- A category update, accepted or not, keeps the IDR request counter. -/
theorem update_idr_request (p : H264eCtx) :
    (∀ src, (h264e_proc_cfg p (MpiCmd.MPP_ENC_SET_PREP_CFG src)).2.idr_request
      = p.idr_request) ∧
    (∀ src, (h264e_proc_cfg p (MpiCmd.MPP_ENC_SET_RC_CFG src)).2.idr_request
      = p.idr_request) ∧
    (∀ src, (h264e_proc_cfg p (MpiCmd.MPP_ENC_SET_CODEC_CFG src)).2.idr_request
      = p.idr_request) := by
  refine ⟨?_, ?_, fun _ => rfl⟩
  · intro src
    by_cases hc : src.change = 0
    · simp [h264e_proc_cfg, hc]
    · rw [proc_cfg_prep_ret p src hc]
      split_ifs <;> rfl
  · intro src
    by_cases hc : src.change = 0
    · simp [h264e_proc_cfg, hc]
    · rw [proc_cfg_rc_ret p src hc]
      split_ifs <;> rfl

/-- Every call through the function table other than `h264e_proc_dpb`,
`h264e_init` and the IDR request keeps the IDR request counter. -/
theorem api_call_idr_request (C : Collab) (p : H264eCtx) (call : ApiCall)
    (hdpb : ∀ task, call ≠ ApiCall.proc_dpb task)
    (hinit : ∀ ctrl_cfg, call ≠ ApiCall.init ctrl_cfg)
    (hidr : call ≠ ApiCall.proc_cfg MpiCmd.MPP_ENC_SET_IDR_FRAME) :
    (api_call C p call).idr_request = p.idr_request := by
  cases call with
  | init ctrl_cfg => exact absurd rfl (hinit ctrl_cfg)
  | deinit => exact h264e_deinit_idr_request p
  | proc_cfg cmd =>
    cases cmd with
    | MPP_ENC_SET_ALL_CFG => rfl
    | MPP_ENC_SET_PREP_CFG src => exact (update_idr_request p).1 src
    | MPP_ENC_SET_RC_CFG src => exact (update_idr_request p).2.1 src
    | MPP_ENC_SET_CODEC_CFG src => rfl
    | MPP_ENC_SET_SEI_CFG => rfl
    | MPP_ENC_SET_IDR_FRAME => exact absurd rfl hidr
    | other code => rfl
  | gen_hdr pkt => exact h264e_gen_hdr_idr_request C p pkt
  | start task => exact (h264e_start_frame C p task).2
  | proc_dpb task => exact absurd rfl (hdpb task)
  | proc_rc task => rfl
  | proc_hal task => exact (h264e_proc_hal_frame p task).2
  | update_hal task => rfl
  | update_rc task => rfl
  | reset => rfl
  | flush => rfl

/-- The IDR request raises the counter by one modulo `2 ^ 32`. -/
theorem idr_request_incr (p : H264eCtx) :
    (h264e_proc_cfg p MpiCmd.MPP_ENC_SET_IDR_FRAME).2.idr_request
      = (p.idr_request + 1) % 2 ^ 32 :=
  rfl

/-- C18 (amended): for every value `c` of the IDR request counter,
`h264e_proc_dpb` hands the DPB collaborator forced-IDR = true exactly when `c`
is non-zero and leaves the counter at `c - 1` in that case and at 0 when `c`
was 0; forced-skip is always false; and no call other than `h264e_proc_dpb`
lowers the counter, except `h264e_init`, which resets it to 0, and the IDR
request on a counter of `2 ^ 32 - 1`, whose `RK_U32` increment wraps to 0. -/
theorem idr_counter_served (C : Collab) (p : H264eCtx) (task : HalEncTask) :
    (proc_dpb_frm_cfg p task).1.force_idr = (if p.idr_request ≠ 0 then 1 else 0) ∧
    (proc_dpb_frm_cfg p task).1.force_pskip = 0 ∧
    (h264e_proc_dpb C p task).2.idr_request =
      (if p.idr_request ≠ 0 then p.idr_request - 1 else 0) ∧
    (∀ call : ApiCall, (∀ t, call ≠ ApiCall.proc_dpb t) → (∀ c, call ≠ ApiCall.init c) →
      p.idr_request ≤ (api_call C p call).idr_request ∨
      (call = ApiCall.proc_cfg MpiCmd.MPP_ENC_SET_IDR_FRAME ∧ 2 ^ 32 ≤ p.idr_request + 1)) ∧
    (∀ ctrl_cfg : EncImplCfg, (api_call C p (ApiCall.init ctrl_cfg)).idr_request = 0) := by
  have h := proc_dpb_frm_cfg_spec p task
  refine ⟨h.2.2.1, h.2.2.2, ?_, ?_, fun _ => rfl⟩
  · rw [(h264e_proc_dpb_frame C p task).2]
    split_ifs with h0
    · rfl
    · rw [not_not] at h0
      rw [h0]
  · intro call hdpb hinit
    by_cases hc : call = ApiCall.proc_cfg MpiCmd.MPP_ENC_SET_IDR_FRAME
    · by_cases hw : 2 ^ 32 ≤ p.idr_request + 1
      · exact Or.inr ⟨hc, hw⟩
      · left
        rw [hc]
        show p.idr_request ≤ (h264e_proc_cfg p MpiCmd.MPP_ENC_SET_IDR_FRAME).2.idr_request
        rw [idr_request_incr, Nat.mod_eq_of_lt (by omega)]
        omega
    · rw [api_call_idr_request C p call hdpb hinit hc]
      exact Or.inl (Nat.le_refl _)

/-- Instance of C18 (amended): on the initialised sample context with one
pending request the frame is handed forced-IDR and the counter returns to 0;
a header generation does not lower the counter. -/
theorem idr_counter_served_witness :
    (proc_dpb_frm_cfg (request_idr_n sample_ctx 1) zero_task).1.force_idr = 1 ∧
    (h264e_proc_dpb (sample_collab 0) (request_idr_n sample_ctx 1) zero_task).2.idr_request = 0 ∧
    (request_idr_n sample_ctx 1).idr_request ≤
      (api_call (sample_collab 0) (request_idr_n sample_ctx 1)
        (ApiCall.gen_hdr none)).idr_request :=
  have h := idr_counter_served (sample_collab 0) (request_idr_n sample_ctx 1) zero_task
  ⟨h.1.trans (by decide), h.2.2.1.trans (by decide),
    (h.2.2.2.1 (ApiCall.gen_hdr none) (fun _ => by simp) (fun _ => by simp)).resolve_right
      (by simp)⟩

/-- C18 fails as stated: after 4294967295 requests on the initialised sample
context the counter is `2 ^ 32 - 1`, and one more IDR request, which is not
`h264e_proc_dpb`, lowers it to 0; `h264e_init` lowers a counter of 1 to 0. -/
theorem idr_counter_lowered_counterexample :
    (request_idr_n sample_ctx 4294967295).idr_request = 4294967295 ∧
    (h264e_proc_cfg (request_idr_n sample_ctx 4294967295)
      MpiCmd.MPP_ENC_SET_IDR_FRAME).2.idr_request = 0 ∧
    (request_idr_n sample_ctx 1).idr_request = 1 ∧
    (h264e_init (sample_collab 0) (request_idr_n sample_ctx 1) ⟨0, zero_cfg⟩).2.idr_request
      = 0 := by
  have h0 : sample_ctx.idr_request = 0 := by decide
  have h := (request_idr_n_spec sample_ctx (by rw [h0]; decide) 4294967295).1
  rw [h0] at h
  have h1 : (request_idr_n sample_ctx 4294967295).idr_request = 4294967295 := by
    rw [h]
    norm_num
  refine ⟨h1, ?_, by decide, rfl⟩
  rw [idr_request_incr, h1]
  norm_num

/-! ## Configuration validity as an invariant -/

/-- Validity reads the geometry of the picture-prep record and the mode,
quality and bitrates of the rate-control record only. -/
theorem cfg_valid_congr (c c' : MppEncCfgSet)
    (h1 : c'.prep.width = c.prep.width) (h2 : c'.prep.height = c.prep.height)
    (h3 : c'.prep.hor_stride = c.prep.hor_stride) (h4 : c'.prep.ver_stride = c.prep.ver_stride)
    (h5 : c'.rc.rc_mode = c.rc.rc_mode) (h6 : c'.rc.quality = c.rc.quality)
    (h7 : c'.rc.bps_target = c.rc.bps_target) (h8 : c'.rc.bps_max = c.rc.bps_max)
    (h9 : c'.rc.bps_min = c.rc.bps_min) (h : cfg_valid c) : cfg_valid c' := by
  unfold cfg_valid at h ⊢
  rw [h1, h2, h3, h4, h5, h6, h7, h8, h9]
  exact h

/-- The configuration `init_h264e_cfg_set` installs is valid. -/
theorem init_cfg_valid (cfg : MppEncCfgSet) : cfg_valid (init_h264e_cfg_set cfg) := by
  unfold cfg_valid init_h264e_cfg_set
  simp only []
  decide

/-- A picture-prep record that passes the check fits its strides. -/
theorem prep_check_ok (m : MppEncPrepCfg) (h : prep_check m = MPP_RET.MPP_OK) :
    m.width ≤ m.hor_stride ∧ m.height ≤ m.ver_stride := by
  unfold prep_check at h
  split_ifs at h with h1
  omega

/-- A rate-control record that passes the check has a recognized mode and
quality and, unless it is VBR with constant quantizer, bitrates in bounds. -/
theorem rc_check_ok (m : MppEncRcCfg) (h : rc_check m = MPP_RET.MPP_OK) :
    recognized_mode m.rc_mode ∧ recognized_quality m.quality ∧
    (¬ (m.rc_mode = MPP_ENC_RC_MODE_VBR ∧ m.quality = MPP_ENC_RC_QUALITY_CQP) →
      (1024 < m.bps_target ∧ m.bps_target < 104857600) ∧
      (1024 < m.bps_max ∧ m.bps_max < 104857600) ∧
      (1024 < m.bps_min ∧ m.bps_min < 104857600)) := by
  have hn : ¬ rc_rejected_for 1024 104857600 m := by
    rw [← rc_check_err_iff, h]
    decide
  unfold rc_rejected_for bps_out_of_bounds at hn
  push_neg at hn
  refine ⟨hn.1, hn.2.1, fun hv => ?_⟩
  have h3 := hn.2.2 (fun hm hq => hv ⟨hm, hq⟩)
  omega

/-- Every call through the function table keeps the configuration valid. -/
theorem api_call_cfg_valid (C : Collab) (p : H264eCtx) (call : ApiCall)
    (h : cfg_valid p.cfg) : cfg_valid (api_call C p call).cfg := by
  cases call with
  | init ctrl_cfg => exact init_cfg_valid ctrl_cfg.cfg
  | deinit =>
    show cfg_valid (h264e_deinit p).2.cfg
    rw [h264e_deinit_frame]
    exact h
  | proc_cfg cmd =>
    cases cmd with
    | MPP_ENC_SET_ALL_CFG => exact h
    | MPP_ENC_SET_PREP_CFG src =>
      show cfg_valid (h264e_proc_cfg p (MpiCmd.MPP_ENC_SET_PREP_CFG src)).2.cfg
      by_cases hc : src.change = 0
      · simpa [h264e_proc_cfg, hc] using h
      · rw [proc_cfg_prep_ret p src hc]
        by_cases h1 : prep_check (prep_merge p.cfg.prep src) ≠ MPP_RET.MPP_OK
        · rw [if_pos h1]
          exact h
        · rw [if_neg h1]
          rw [not_not] at h1
          have hk := prep_check_ok _ h1
          exact ⟨hk.1, hk.2, h.2.2⟩
    | MPP_ENC_SET_RC_CFG src =>
      show cfg_valid (h264e_proc_cfg p (MpiCmd.MPP_ENC_SET_RC_CFG src)).2.cfg
      by_cases hc : src.change = 0
      · simpa [h264e_proc_cfg, hc] using h
      · rw [proc_cfg_rc_ret p src hc]
        by_cases h1 : rc_check (rc_merge p.cfg.rc src) ≠ MPP_RET.MPP_OK
        · rw [if_pos h1]
          exact h
        · rw [if_neg h1]
          rw [not_not] at h1
          have hk := rc_check_ok _ h1
          exact ⟨h.1, h.2.1, hk⟩
    | MPP_ENC_SET_CODEC_CFG src => exact h
    | MPP_ENC_SET_SEI_CFG => exact h
    | MPP_ENC_SET_IDR_FRAME => exact h
    | other code => exact h
  | gen_hdr pkt =>
    show cfg_valid (h264e_gen_hdr C p pkt).2.1.cfg
    rw [h264e_gen_hdr_frame]
    exact h
  | start task =>
    show cfg_valid (h264e_start C p task).2.1.cfg
    rw [(h264e_start_frame C p task).1]
    exact h
  | proc_dpb task =>
    show cfg_valid (h264e_proc_dpb C p task).2.cfg
    rw [(h264e_proc_dpb_frame C p task).1]
    exact h
  | proc_rc task => exact h
  | proc_hal task =>
    show cfg_valid (h264e_proc_hal p task).2.1.cfg
    rw [(h264e_proc_hal_frame p task).1]
    exact h
  | update_hal task => exact h
  | update_rc task => exact h
  | reset => exact h
  | flush => exact h

/-- Every sequence of calls keeps the configuration valid. -/
theorem api_run_cfg_valid (C : Collab) (calls : List ApiCall) :
    ∀ p : H264eCtx, cfg_valid p.cfg → cfg_valid (api_run C p calls).cfg := by
  induction calls with
  | nil => intro p h; exact h
  | cons call calls ih =>
    intro p h
    exact ih (api_call C p call) (api_call_cfg_valid C p call h)

/-- C19: configuration validity is a reachable-state invariant: in every state
reached from `h264e_init` by any sequence of calls through the function table
(updates of any category and bitmask, accepted or rejected, and pipeline
stages), the stored picture-prep configuration has width <= horizontal stride
and height <= vertical stride, and the stored rate-control configuration has a
recognized mode, a recognized quality tier and, unless it is VBR with
constant-quantizer quality, target, max and min bitrate each strictly between
1024 and 104857600. -/
theorem reachable_cfg_valid (C : Collab) (p : H264eCtx) (ctrl_cfg : EncImplCfg)
    (calls : List ApiCall) :
    cfg_valid (api_run C (h264e_init C p ctrl_cfg).2 calls).cfg :=
  api_run_cfg_valid C calls _ (init_cfg_valid ctrl_cfg.cfg)

/-! ## Acknowledgment and the rate-control handle -/

/-- After `h264e_init` on a context without a rate-control handle and with a
configuration set whose reference topology has no pending change,
ConfigReconcile of the first frame builds no collaborator: the handle
`h264e_start` passes to `rc_frm_check_drop` is null. -/
theorem init_then_start_handle (C : Collab) (p : H264eCtx) (ctrl_cfg : EncImplCfg)
    (hrc : p.rc_ctx = none) (href : ctrl_cfg.cfg.gop_ref.change = 0) :
    (start_reconcile C (h264e_init C p ctrl_cfg).2).rc_ctx = none := by
  rw [start_reconcile_eq]
  have h1 : (h264e_init C p ctrl_cfg).2.cfg.rc.change = 0 := rfl
  have h2 : (h264e_init C p ctrl_cfg).2.cfg.gop_ref.change = 0 := href
  have h3 : (h264e_init C p ctrl_cfg).2.rc_ctx = none := hrc
  simp only [h1, h2, ne_eq, not_true_eq_false, or_self, if_false, h3]

/-- C20 fails on the code: after `h264e_init` on the zero-initialised context
with a zero-initialised configuration set, no rate-control or
reference-topology change is pending, and in the first frame `h264e_start`
consults the rate-control collaborator through a null handle. -/
theorem first_frame_null_rc_handle :
    zero_ctx.rc_ctx = none ∧
    (h264e_init (sample_collab 0) zero_ctx ⟨0, zero_cfg⟩).2.cfg.rc.change = 0 ∧
    (h264e_init (sample_collab 0) zero_ctx ⟨0, zero_cfg⟩).2.cfg.gop_ref.change = 0 ∧
    (start_reconcile (sample_collab 0)
      (h264e_init (sample_collab 0) zero_ctx ⟨0, zero_cfg⟩).2).rc_ctx = none :=
  ⟨rfl, rfl, rfl, init_then_start_handle (sample_collab 0) zero_ctx ⟨0, zero_cfg⟩ rfl rfl⟩

/-- C15 fails on the code: with a rate control that records its policy, after
initialisation, a bitrate update to 3 Mbit/s and the start of a frame (which
rebuilds the collaborator from it), a second update to 4 Mbit/s is accepted
before `h264e_proc_rc` of that frame; `h264e_proc_rc` clears the changed-bitmask,
and after the start of the next frame the changed-bitmask is empty, the
stored target is 4000000, and the collaborator still holds the 3 Mbit/s
policy: the bits of the second update were cleared without a rebuild. -/
theorem update_lost_between_start_and_proc_rc :
    (h264e_proc_cfg (api_run recording_collab zero_ctx calls_to_first_start)
      (MpiCmd.MPP_ENC_SET_RC_CFG (rc_bps_update 4000000 5000000 3000000))).1 = MPP_RET.MPP_OK ∧
    (api_run recording_collab zero_ctx calls_to_first_start).rc_ctx
      = some [3000000, 3500000, 2500000, 60] ∧
    (api_run recording_collab (api_run recording_collab zero_ctx calls_to_first_start)
      calls_update_in_frame).cfg.rc.change = 0 ∧
    (api_run recording_collab (api_run recording_collab zero_ctx calls_to_first_start)
      calls_update_in_frame).cfg.gop_ref.change = 0 ∧
    (api_run recording_collab (api_run recording_collab zero_ctx calls_to_first_start)
      calls_update_in_frame).cfg.rc.bps_target = 4000000 ∧
    (api_run recording_collab (api_run recording_collab zero_ctx calls_to_first_start)
      calls_update_in_frame).rc_ctx = some [3000000, 3500000, 2500000, 60] := by
  decide

/-! ## Header generation -/

/-- What `h264e_gen_hdr` leaves in the context; it does not depend on the
destination packet. -/
theorem gen_hdr_fields (C : Collab) (p : H264eCtx) (pkt : Option MppPacketImpl) :
    (h264e_gen_hdr C p pkt).2.1.sps = C.h264e_sps_update p.sps p.cfg p.dev_id ∧
    (h264e_gen_hdr C p pkt).2.1.pps = C.h264e_pps_update p.pps p.cfg ∧
    (h264e_gen_hdr C p pkt).2.1.cfg = p.cfg ∧
    (h264e_gen_hdr C p pkt).2.1.dev_id = p.dev_id ∧
    (h264e_gen_hdr C p pkt).2.1.hdr_pkt =
      C.h264e_pps_to_packet (C.h264e_pps_update p.pps p.cfg)
        (C.h264e_sps_to_packet (C.h264e_sps_update p.sps p.cfg p.dev_id)
          (C.mpp_packet_reset p.hdr_pkt)) ∧
    (h264e_gen_hdr C p pkt).2.1.hdr_len =
      mpp_packet_get_length (h264e_gen_hdr C p pkt).2.1.hdr_pkt := by
  unfold h264e_gen_hdr
  cases pkt <;> exact ⟨rfl, rfl, rfl, rfl, rfl, rfl⟩

/-- The destination packet after `h264e_gen_hdr`: the first `hdr_len` bytes of
the header buffer in front of the rest of its data, and the length `hdr_len`. -/
theorem gen_hdr_dst (C : Collab) (p : H264eCtx) (k : MppPacketImpl) :
    (h264e_gen_hdr C p (some k)).2.2 =
      some { data := (hdr_buf (h264e_gen_hdr C p (some k)).2.1).take
                (h264e_gen_hdr C p (some k)).2.1.hdr_len ++
                k.data.drop (h264e_gen_hdr C p (some k)).2.1.hdr_len
             length := (h264e_gen_hdr C p (some k)).2.1.hdr_len } :=
  rfl

/-- Two serializations into an emptied packet: the bytes of both, in order,
in front of the rest of the buffer. -/
theorem packet_append_twice (x : MppPacketImpl) (b1 b2 : List Nat) :
    packet_append (packet_append { x with length := 0 } b1) b2 =
      { data := (b1 ++ b2) ++ x.data.drop (b1 ++ b2).length, length := (b1 ++ b2).length } := by
  unfold packet_append
  simp [List.take_append_eq_append_take, List.drop_append_eq_append_drop, Nat.add_comm]

/-- Writing the same bytes into the front of a buffer twice is writing them
once. -/
theorem write_front_idem (b d : List Nat) :
    b ++ (b ++ d.drop b.length).drop b.length = b ++ d.drop b.length := by
  rw [List.drop_left]

/-- Under the header contract the header packet after `h264e_gen_hdr` holds
bytes determined by the configuration and the device, in front of the rest of
the buffer. -/
theorem gen_hdr_pkt_of_contract (C : Collab) (hC : HeaderContract C) :
    ∃ f : MppEncCfgSet → Nat → List Nat, ∀ (p : H264eCtx) (pkt : Option MppPacketImpl),
      (h264e_gen_hdr C p pkt).2.1.hdr_pkt =
        p.hdr_pkt.map fun x =>
          { data := f p.cfg p.dev_id ++ x.data.drop (f p.cfg p.dev_id).length
            length := (f p.cfg p.dev_id).length } := by
  obtain ⟨ss, hss⟩ := hC.sps_bytes
  obtain ⟨sp, hsp⟩ := hC.pps_bytes
  refine ⟨fun cfg dev => ss (C.h264e_sps_update [] cfg dev) ++ sp (C.h264e_pps_update [] cfg), ?_⟩
  intro p pkt
  rw [(gen_hdr_fields C p pkt).2.2.2.2.1, hC.reset_empties, hss, hsp,
    hC.sps_from_cfg p.sps [] p.cfg p.dev_id, hC.pps_from_cfg p.pps [] p.cfg]
  cases p.hdr_pkt with
  | none => rfl
  | some x =>
    simp only [Option.map_some']
    rw [packet_append_twice]

/-- C12: with header collaborators that meet the contract of the
specification, for every encoder state two consecutive calls of
`h264e_gen_hdr` with no configuration change between them produce the same
header length and byte-identical header bytes, both in the internal header
buffer and in the destination packet when one is supplied (whatever packets
are supplied to the two calls). -/
theorem gen_hdr_idempotent (C : Collab) (hC : HeaderContract C) (p : H264eCtx)
    (pkt pkt' : Option MppPacketImpl) :
    (h264e_gen_hdr C (h264e_gen_hdr C p pkt).2.1 pkt').2.1.hdr_len
      = (h264e_gen_hdr C p pkt).2.1.hdr_len ∧
    hdr_buf (h264e_gen_hdr C (h264e_gen_hdr C p pkt).2.1 pkt').2.1
      = hdr_buf (h264e_gen_hdr C p pkt).2.1 ∧
    (∀ k1 k2 : MppPacketImpl,
      ((h264e_gen_hdr C (h264e_gen_hdr C p (some k1)).2.1 (some k2)).2.2).map
          MppPacketImpl.length
        = ((h264e_gen_hdr C p (some k1)).2.2).map MppPacketImpl.length ∧
      ((h264e_gen_hdr C (h264e_gen_hdr C p (some k1)).2.1 (some k2)).2.2).map header_bytes
        = ((h264e_gen_hdr C p (some k1)).2.2).map header_bytes) := by
  obtain ⟨f, hf⟩ := gen_hdr_pkt_of_contract C hC
  have hpkt : ∀ a b : Option MppPacketImpl,
      (h264e_gen_hdr C (h264e_gen_hdr C p a).2.1 b).2.1.hdr_pkt
        = (h264e_gen_hdr C p a).2.1.hdr_pkt := by
    intro a b
    rw [hf (h264e_gen_hdr C p a).2.1 b, (gen_hdr_fields C p a).2.2.1,
      (gen_hdr_fields C p a).2.2.2.1, hf p a]
    cases p.hdr_pkt with
    | none => rfl
    | some x =>
      simp only [Option.map_some', Option.some.injEq, MppPacketImpl.mk.injEq, and_true]
      exact write_front_idem _ _
  have hlen : ∀ a b : Option MppPacketImpl,
      (h264e_gen_hdr C (h264e_gen_hdr C p a).2.1 b).2.1.hdr_len
        = (h264e_gen_hdr C p a).2.1.hdr_len := by
    intro a b
    rw [(gen_hdr_fields C _ b).2.2.2.2.2, (gen_hdr_fields C p a).2.2.2.2.2, hpkt a b]
  have hbuf : ∀ a b : Option MppPacketImpl,
      hdr_buf (h264e_gen_hdr C (h264e_gen_hdr C p a).2.1 b).2.1
        = hdr_buf (h264e_gen_hdr C p a).2.1 := by
    intro a b
    unfold hdr_buf
    rw [hpkt a b]
  have hfit : ∀ a : Option MppPacketImpl,
      (h264e_gen_hdr C p a).2.1.hdr_len ≤ (hdr_buf (h264e_gen_hdr C p a).2.1).length := by
    intro a
    rw [(gen_hdr_fields C p a).2.2.2.2.2]
    unfold hdr_buf
    rw [hf p a]
    cases p.hdr_pkt with
    | none => exact Nat.le_refl _
    | some x =>
      simp only [Option.map_some', mpp_packet_get_length, List.length_append]
      omega
  refine ⟨hlen pkt pkt', hbuf pkt pkt', ?_⟩
  intro k1 k2
  rw [gen_hdr_dst, gen_hdr_dst, hlen, hbuf]
  simp only [Option.map_some', header_bytes, Option.some.injEq, true_and]
  have hl := hfit (some k1)
  rw [List.take_append_of_le_length (by rw [List.length_take]; omega),
    List.take_append_of_le_length (by rw [List.length_take]; omega)]

/-- The sample header collaborators meet the header contract. -/
theorem header_collab_contract : HeaderContract header_collab :=
  { sps_from_cfg := fun _ _ _ _ => rfl
    pps_from_cfg := fun _ _ _ => rfl
    reset_empties := fun _ => rfl
    sps_bytes := ⟨fun sps => sps.map Int.toNat, fun _ _ => rfl⟩
    pps_bytes := ⟨fun pps => pps.map Int.toNat, fun _ _ => rfl⟩ }

/-- Instance of C12: with the sample header collaborators, on the initialised
sample context the header is seven bytes long after the first call and after
the second, and a destination packet receives the same header bytes from
both. -/
theorem gen_hdr_idempotent_witness :
    (h264e_gen_hdr header_collab sample_ctx none).2.1.hdr_len = 7 ∧
    (h264e_gen_hdr header_collab (h264e_gen_hdr header_collab sample_ctx none).2.1
      none).2.1.hdr_len = (h264e_gen_hdr header_collab sample_ctx none).2.1.hdr_len ∧
    ((h264e_gen_hdr header_collab
        (h264e_gen_hdr header_collab sample_ctx (some ⟨[9, 9, 9, 9, 9, 9, 9, 9], 0⟩)).2.1
        (some ⟨[9, 9, 9, 9, 9, 9, 9, 9], 0⟩)).2.2).map header_bytes
      = ((h264e_gen_hdr header_collab sample_ctx
          (some ⟨[9, 9, 9, 9, 9, 9, 9, 9], 0⟩)).2.2).map header_bytes :=
  ⟨by decide,
   (gen_hdr_idempotent header_collab header_collab_contract sample_ctx none none).1,
   ((gen_hdr_idempotent header_collab header_collab_contract sample_ctx none none).2.2
      ⟨[9, 9, 9, 9, 9, 9, 9, 9], 0⟩ ⟨[9, 9, 9, 9, 9, 9, 9, 9], 0⟩).2⟩

/-! ## The rate-control syntax record -/

/-- Adding a descriptor does not write the rate-control syntax record. -/
theorem add_desc_rc_syn (ctx : H264eCtx) (type : H264eSyntaxType) (ref : SynRef) :
    ( h264e_add_syntax ctx type ref).rc_syn = ctx.rc_syn :=
  rfl

/-- Serving the IDR counter does not write the rate-control syntax record. -/
theorem proc_dpb_frm_cfg_rc_syn (p : H264eCtx) (task : HalEncTask) :
    (proc_dpb_frm_cfg p task).2.rc_syn = p.rc_syn := by
  unfold proc_dpb_frm_cfg
  by_cases h : p.idr_request = 0
  · simp [h]
  · simp [h]

/-- No call through the function table writes the rate-control syntax
record. -/
theorem api_call_rc_syn (C : Collab) (p : H264eCtx) (call : ApiCall) :
    (api_call C p call).rc_syn = p.rc_syn := by
  cases call with
  | init ctrl_cfg => rfl
  | deinit =>
    show (h264e_deinit p).2.rc_syn = p.rc_syn
    unfold h264e_deinit
    simp only []
    split_ifs <;> rfl
  | proc_cfg cmd =>
    cases cmd with
    | MPP_ENC_SET_ALL_CFG => rfl
    | MPP_ENC_SET_PREP_CFG src =>
      show (h264e_proc_cfg p (MpiCmd.MPP_ENC_SET_PREP_CFG src)).2.rc_syn = p.rc_syn
      by_cases hc : src.change = 0
      · simp [h264e_proc_cfg, hc]
      · rw [proc_cfg_prep_ret p src hc]
        split_ifs <;> rfl
    | MPP_ENC_SET_RC_CFG src =>
      show (h264e_proc_cfg p (MpiCmd.MPP_ENC_SET_RC_CFG src)).2.rc_syn = p.rc_syn
      by_cases hc : src.change = 0
      · simp [h264e_proc_cfg, hc]
      · rw [proc_cfg_rc_ret p src hc]
        split_ifs <;> rfl
    | MPP_ENC_SET_CODEC_CFG src => rfl
    | MPP_ENC_SET_SEI_CFG => rfl
    | MPP_ENC_SET_IDR_FRAME => rfl
    | other code => rfl
  | gen_hdr pkt =>
    show (h264e_gen_hdr C p pkt).2.1.rc_syn = p.rc_syn
    unfold h264e_gen_hdr
    cases pkt <;> rfl
  | start task =>
    show (start_reconcile C p).rc_syn = p.rc_syn
    rw [start_reconcile_eq]
  | proc_dpb task => exact proc_dpb_frm_cfg_rc_syn p task
  | proc_rc task => rfl
  | proc_hal task =>
    show (h264e_proc_hal p task).2.1.rc_syn = p.rc_syn
    unfold h264e_proc_hal
    simp only [add_desc_rc_syn]
  | update_hal task => rfl
  | update_rc task => rfl
  | reset => rfl
  | flush => rfl

/-- No sequence of calls writes the rate-control syntax record. -/
theorem api_run_rc_syn (C : Collab) (calls : List ApiCall) :
    ∀ p : H264eCtx, (api_run C p calls).rc_syn = p.rc_syn := by
  induction calls with
  | nil => intro p; rfl
  | cons call calls ih =>
    intro p
    have h := ih (api_call C p call)
    simp only [api_run, List.foldl_cons] at h ⊢
    rw [h, api_call_rc_syn]

/-- C21: no operation of the encoder writes the context's rate-control syntax
record `rc_syn`: every call through the function table, every sequence of
calls and every frame leaves it as it was; `h264e_proc_rc` delivers the
collaborator's result into the `rc_cfg` member of the frame usage record; and
the rate-control descriptor `h264e_proc_hal` emits, the last of the list,
references `rc_syn`, whose value is therefore the same before and after every
stage of every frame. -/
theorem rc_syn_never_written (C : Collab) (p : H264eCtx) :
    (∀ call : ApiCall, (api_call C p call).rc_syn = p.rc_syn) ∧
    (∀ calls : List ApiCall, (api_run C p calls).rc_syn = p.rc_syn) ∧
    (∀ task : HalEncTask, (run_frame C p task).1.rc_syn = p.rc_syn) ∧
    (∀ task : HalEncTask,
      (h264e_proc_rc C p task).2.frms.rc_cfg =
        (C.rc_frm_start p.rc_ctx p.frms.rc_cfg p.frms.status).2.1) ∧
    (∀ task : HalEncTask,
      (task_descs (h264e_proc_hal p task).2.2).getLast? =
        some ⟨H264eSyntaxType.H264E_SYN_RC, SynRef.rc_syn⟩) := by
  refine ⟨api_call_rc_syn C p, fun calls => api_run_rc_syn C calls p, ?_, fun _ => rfl, ?_⟩
  · intro task
    have h1 := api_call_rc_syn C p (ApiCall.start task)
    have h2 := api_call_rc_syn C (h264e_start C p task).2.1
      (ApiCall.proc_dpb (h264e_start C p task).2.2)
    have h3 := api_call_rc_syn C
      (h264e_proc_dpb C (h264e_start C p task).2.1 (h264e_start C p task).2.2).2
      (ApiCall.proc_rc (h264e_start C p task).2.2)
    have h4 := api_call_rc_syn C
      (h264e_proc_rc C
        (h264e_proc_dpb C (h264e_start C p task).2.1 (h264e_start C p task).2.2).2
        (h264e_start C p task).2.2).2
      (ApiCall.proc_hal (h264e_start C p task).2.2)
    simp only [api_call] at h1 h2 h3 h4
    unfold run_frame
    simp only []
    rw [h4, h3, h2, h1]
  · intro task
    rw [proc_hal_task_descs]
    rfl

end H264eApiV2
